import Mathlib

/-!
# Verification development for the mx / nbtk widget toolkit

Shallow embedding of

* `src/nbtk/nbtk-scroll-bar.c` (idle-time refresh coalescing, allocation,
  slider, adjustment property),
* `src/nbtk/nbtk-tooltip.c` (tooltip placement, show, hide, label),
* `src/mx/x11/mx-clipboard-x11.c` (clipboard selection provider, text
  requests, default object),
* the table (grid) layout engine exercised by
  `src/tests/test-container-matching.c`.  The table source itself is not part
  of the source tree at hand, so the layout engine is modelled from the
  specification text (sections 3 and 4 of the spec).

Machine integers are modelled as `Int`/`Nat`; 32-bit wrap-around is made
explicit with `wrap32` where the C code truncates.
-/

set_option autoImplicit false

/-! ## Clutter fixed-point primitives (external library, 16.16 format) -/

namespace Clutter

/-- Truncation of a 64-bit intermediate to a signed 32-bit `ClutterFixed`. -/
def wrap32 (x : Int) : Int := (x + 2147483648) % 4294967296 - 2147483648

/-- Fixed-point unit `CFX_ONE = 1 << 16`. -/
def CFX_ONE : Int := 65536

/-- Clutter `clutter_qmulx`: `((gint64) op1 * op2) >> 16`, arithmetic shift. -/
def clutter_qmulx (op1 op2 : Int) : Int := wrap32 ((op1 * op2) / 65536)

/-- Clutter `clutter_qdivx`: `(((gint64) op1) << 16) / op2`, C division
(truncating towards zero). -/
def clutter_qdivx (op1 op2 : Int) : Int := wrap32 (Int.tdiv (op1 * 65536) op2)

/-- Macro `CLUTTER_UNITS_FROM_DEVICE (x)`: pixels to 16.16 units. -/
def CLUTTER_UNITS_FROM_DEVICE (x : Int) : Int := wrap32 (x * 65536)

end Clutter

/-! ## Scroll bar: `src/nbtk/nbtk-scroll-bar.c` -/

namespace ScrollBar

open Clutter

/-- The four values `nbtk_adjustment_get_valuesx` hands out that the scroll
bar reads (all `ClutterFixed`). -/
structure NbtkAdjustment where
  value : Int
  lower : Int
  upper : Int
  page_size : Int
deriving DecidableEq, Repr

/-- Position and width of a child actor, in `ClutterUnit`s. -/
structure ClutterActor where
  x : Int
  y : Int
  width : Int
deriving DecidableEq, Repr

/-- The fields of `struct _NbtkScrollBarPrivate` that the refresh path reads
or writes.  `adjustment` holds the current values of `priv->adjustment`, which
is non-NULL whenever `adjustment_changed_cb` is connected. -/
structure NbtkScrollBarPrivate where
  adjustment : NbtkAdjustment
  refresh_source : Nat
  trough : ClutterActor
  handle : ClutterActor
deriving DecidableEq, Repr

/-- The scroll bar together with the part of the GLib main loop it talks to:
the idle sources attached for `nbtk_scroll_bar_refresh (bar)`, and counters for
the calls of `nbtk_scroll_bar_refresh` and `clutter_actor_queue_redraw`. -/
structure BarState where
  priv : NbtkScrollBarPrivate
  idle_sources : List Nat
  refresh_calls : Nat
  redraws : Nat
deriving DecidableEq, Repr

/-- Body of `nbtk_scroll_bar_refresh` (lines 552-599): returns the updated
private data, the `gboolean` result, and whether a redraw was queued. -/
def nbtk_scroll_bar_refresh (priv : NbtkScrollBarPrivate) :
    NbtkScrollBarPrivate × Bool × Bool :=
  let value := priv.adjustment.value
  let lower := priv.adjustment.lower
  let upper := priv.adjustment.upper
  let page_size := priv.adjustment.page_size
  let handle_offset_x := priv.trough.x
  let handle_offset_y := priv.trough.y
  if wrap32 (upper - page_size) ≤ lower then
    -- clutter_actor_set_position takes pixels
    ({ priv with
        handle := { priv.handle with
          x := CLUTTER_UNITS_FROM_DEVICE handle_offset_x
          y := CLUTTER_UNITS_FROM_DEVICE handle_offset_y }
        refresh_source := 0 }, false, false)
  else
    let width := priv.trough.width
    let button_width := priv.handle.width
    let position :=
      clutter_qdivx (wrap32 (value - lower)) (wrap32 (upper - lower - page_size))
    let x := clutter_qmulx position (wrap32 (width - button_width))
    ({ priv with
        handle := { priv.handle with
          x := wrap32 (x + handle_offset_x)
          y := handle_offset_y }
        refresh_source := 0 }, false, true)

/-- GLib `g_idle_add_full`: attaches an idle source and returns its id.  The
id GLib hands out is supplied by the caller of the model. -/
def g_idle_add_full (id : Nat) (s : BarState) : BarState × Nat :=
  ({ s with idle_sources := s.idle_sources ++ [id] }, id)

/-- Body of `adjustment_changed_cb` (lines 601-612); `id` is the source id
`g_idle_add_full` would return if it is called. -/
def adjustment_changed_cb (id : Nat) (s : BarState) : BarState :=
  if s.priv.refresh_source = 0 then
    let r := g_idle_add_full id s
    { r.1 with priv := { r.1.priv with refresh_source := r.2 } }
  else s

/-- One dispatch of an attached idle source by the main loop: the callback
`nbtk_scroll_bar_refresh` runs, and the source is destroyed when the callback
returns `FALSE`. -/
def dispatch_source (s : BarState) (id : Nat) : BarState :=
  let r := nbtk_scroll_bar_refresh s.priv
  { priv := r.1
    idle_sources := if r.2.1 then s.idle_sources else s.idle_sources.erase id
    refresh_calls := s.refresh_calls + 1
    redraws := if r.2.2 then s.redraws + 1 else s.redraws }

/-- One idle run of the main loop: every idle source attached at the start of
the iteration is dispatched once. -/
def idle_run (s : BarState) : BarState :=
  s.idle_sources.foldl dispatch_source s

/-- What can happen to the bar between layouts: the adjustment changes its
values and emits `notify::value` (the id is the one `g_idle_add_full` would
return), or the main loop becomes idle. -/
inductive Event where
  | notify (id : Nat) (adj : NbtkAdjustment)
  | idle
deriving DecidableEq, Repr

/-- The value-changed notification: the adjustment has its new values and the
handler `adjustment_changed_cb` runs. -/
def notify (s : BarState) (p : Nat × NbtkAdjustment) : BarState :=
  adjustment_changed_cb p.1 { s with priv := { s.priv with adjustment := p.2 } }

/-- Effect of one event. -/
def step (s : BarState) : Event → BarState
  | Event.notify id adj => notify s (id, adj)
  | Event.idle => idle_run s

/-- Effect of a sequence of events. -/
def run (s : BarState) (evs : List Event) : BarState := evs.foldl step s

/-- A freshly initialised bar (`nbtk_scroll_bar_init` leaves `refresh_source`
zero and attaches no source). -/
def initial (adj : NbtkAdjustment) (trough handle : ClutterActor) : BarState :=
  { priv := { adjustment := adj, refresh_source := 0, trough := trough, handle := handle }
    idle_sources := []
    refresh_calls := 0
    redraws := 0 }

/-- All source ids in the event sequence are non-zero, as GLib guarantees. -/
def idsNonZero : List Event → Prop
  | [] => True
  | Event.notify id _ :: evs => id ≠ 0 ∧ idsNonZero evs
  | Event.idle :: evs => idsNonZero evs

/-- The coalescing invariant: the attached sources are exactly the one named
by `refresh_source`, if any. -/
def Coalesced (s : BarState) : Prop :=
  s.idle_sources = if s.priv.refresh_source = 0 then [] else [s.priv.refresh_source]

/-- A sample adjustment (16.16 values 0 .. 100, page 10, value 25). -/
def sampleAdjustment : NbtkAdjustment :=
  { value := 1638400, lower := 0, upper := 6553600, page_size := 655360 }

/-- A sample trough, 200 pixels wide at x = 20. -/
def sampleTrough : ClutterActor := { x := 1310720, y := 0, width := 13107200 }

/-- A sample handle, 20 pixels wide. -/
def sampleHandle : ClutterActor := { x := 0, y := 0, width := 1310720 }

/-- A sample history: two notifications, an idle run, one more notification. -/
def sampleEvents : List Event :=
  [Event.notify 3 sampleAdjustment, Event.notify 4 sampleAdjustment, Event.idle,
   Event.notify 5 { sampleAdjustment with value := 0 }]

/-- A sample batch of three notifications between two idle runs. -/
def sampleNotes : List (Nat × NbtkAdjustment) :=
  [(6, sampleAdjustment), (7, { sampleAdjustment with value := 65536 }),
   (8, { sampleAdjustment with upper := 0 })]

end ScrollBar

/-! ## Clipboard: `src/mx/x11/mx-clipboard-x11.c` -/

namespace Clipboard

/-- Xlib `None`. -/
def None : Nat := 0

/-- Xlib predefined atom `XA_ATOM`. -/
def XA_ATOM : Nat := 4

/-- Xlib `PropModeReplace`. -/
def PropModeReplace : Nat := 0

/-- Xlib `CurrentTime`. -/
def CurrentTime : Nat := 0

/-- Xlib event type `SelectionRequest`. -/
def SelectionRequest : Nat := 30

/-- Xlib event type `SelectionNotify`. -/
def SelectionNotify : Nat := 31

/-- C `strlen` on a character buffer: the number of bytes before the first
NUL (the end of the list stands for the terminator). -/
def strlen (s : List Nat) : Nat := (s.takeWhile (fun b => b != 0)).length

/-- GLib `g_strdup`: a fresh copy of the bytes before the first NUL. -/
def g_strdup (s : List Nat) : List Nat := s.takeWhile (fun b => b != 0)

/-- The fields of Xlib `XSelectionRequestEvent` the provider reads. -/
structure XSelectionRequestEvent where
  display : Nat
  requestor : Nat
  selection : Nat
  target : Nat
  property : Nat
  time : Nat
deriving DecidableEq, Repr

/-- The fields of Xlib `XSelectionEvent` the provider fills in. -/
structure XSelectionEvent where
  type : Nat
  display : Nat
  requestor : Nat
  selection : Nat
  target : Nat
  property : Nat
  time : Nat
deriving DecidableEq, Repr

/-- The view of the `XEvent` union the provider uses: the event type and the
selection-request member. -/
structure XEvent where
  type : Nat
  xselectionrequest : XSelectionRequestEvent
deriving DecidableEq, Repr

/-- Clutter `ClutterX11FilterReturn`. -/
inductive ClutterX11FilterReturn where
  | CLUTTER_X11_FILTER_CONTINUE
  | CLUTTER_X11_FILTER_TRANSLATE
  | CLUTTER_X11_FILTER_REMOVE
deriving DecidableEq, Repr

/-- The calls into Xlib, Clutter and GLib issued by the clipboard, in program
order.  For `XChangeProperty` the buffer passed and the element count are
recorded; `g_return_if_fail_warning` is the critical message of a failed
`g_return_if_fail`. -/
inductive XCall where
  | clutter_x11_trap_x_errors
  | clutter_x11_untrap_x_errors
  | XChangeProperty (display w property type format mode : Nat) (data : List Nat)
      (nelements : Nat)
  | XSendEvent (display w : Nat) (propagate : Bool) (event_mask : Nat)
      (event_send : XSelectionEvent)
  | XSync (display : Nat) (discard : Bool)
  | XSetSelectionOwner (display selection owner time : Nat)
  | g_warning (message : String)
  | g_return_if_fail_warning (expression : String)
deriving DecidableEq, Repr

/-- The file-scope atoms `__atom_clip`, `__utf8_string`, `__atom_targets`. -/
structure Statics where
  atom_clip : Nat
  utf8_string : Nat
  atom_targets : Nat
deriving DecidableEq, Repr

/-- Contents of `struct _MxClipboardPrivate`; `clipboard_text` is `none` for a NULL
pointer. -/
structure MxClipboardPrivate where
  clipboard_window : Nat
  clipboard_text : Option (List Nat)
  supported_targets : List Nat
  n_targets : Nat
deriving DecidableEq, Repr

/-- The `SelectionNotify` event built at lines 157-167. -/
def notify_event (req_event : XSelectionRequestEvent) : XSelectionEvent :=
  { type := SelectionNotify
    display := req_event.display
    requestor := req_event.requestor
    selection := req_event.selection
    target := req_event.target
    time := req_event.time
    property := if req_event.property = None then req_event.target else req_event.property }

/-- Lines 157-177 of `mx_clipboard_provider`: notify the requestor, sync, untrap. -/
def provider_tail (dpy : Nat) (req_event : XSelectionRequestEvent) : List XCall :=
  [ XCall.XSendEvent req_event.display req_event.requestor false 0 (notify_event req_event),
    XCall.XSync dpy false,
    XCall.clutter_x11_untrap_x_errors ]

/-- Body of `mx_clipboard_provider` (lines 113-178).  `dpy` is the value of
`clutter_x11_get_default_display ()`.  Returns the filter result and the calls
issued. -/
def mx_clipboard_provider (st : Statics) (dpy : Nat) (xev : XEvent)
    (clipboard : MxClipboardPrivate) : ClutterX11FilterReturn × List XCall :=
  if xev.type ≠ SelectionRequest then
    (ClutterX11FilterReturn.CLUTTER_X11_FILTER_CONTINUE, [])
  else
    let req_event := xev.xselectionrequest
    if req_event.target = st.atom_targets then
      (ClutterX11FilterReturn.CLUTTER_X11_FILTER_REMOVE,
        [ XCall.clutter_x11_trap_x_errors,
          XCall.XChangeProperty req_event.display req_event.requestor req_event.property
            XA_ATOM 32 PropModeReplace clipboard.supported_targets clipboard.n_targets ]
        ++ provider_tail dpy req_event)
    else
      match clipboard.clipboard_text with
      | none =>
        (ClutterX11FilterReturn.CLUTTER_X11_FILTER_REMOVE,
          [ XCall.clutter_x11_trap_x_errors,
            XCall.g_warning "Clipboard request received, but no text available" ])
      | some text =>
        (ClutterX11FilterReturn.CLUTTER_X11_FILTER_REMOVE,
          [ XCall.clutter_x11_trap_x_errors,
            XCall.XChangeProperty req_event.display req_event.requestor req_event.property
              req_event.target 8 PropModeReplace text (strlen text) ]
          ++ provider_tail dpy req_event)

/-- Body of `mx_clipboard_set_text` (lines 362-387) for a valid clipboard
object; `text = none` is a NULL argument, rejected by `g_return_if_fail`. -/
def mx_clipboard_set_text (st : Statics) (dpy : Nat) (priv : MxClipboardPrivate)
    (text : Option (List Nat)) : MxClipboardPrivate × List XCall :=
  match text with
  | none => (priv, [XCall.g_return_if_fail_warning "text != NULL"])
  | some t =>
    ({ priv with clipboard_text := some (g_strdup t) },
      [ XCall.clutter_x11_trap_x_errors,
        XCall.XSetSelectionOwner dpy st.atom_clip priv.clipboard_window CurrentTime,
        XCall.XSync dpy false,
        XCall.clutter_x11_untrap_x_errors ])

/-- Sample statics: CLIPBOARD = 300, UTF8_STRING = 301, TARGETS = 302. -/
def sampleStatics : Statics := { atom_clip := 300, utf8_string := 301, atom_targets := 302 }

/-- Sample clipboard state holding the text "old". -/
def sampleClipboard : MxClipboardPrivate :=
  { clipboard_window := 77, clipboard_text := some [111, 108, 100],
    supported_targets := [301, 302], n_targets := 2 }

/-- Sample request for UTF8_STRING into property 555 of window 9. -/
def sampleRequest : XEvent :=
  { type := 30
    xselectionrequest :=
      { display := 1, requestor := 9, selection := 300, target := 301, property := 555,
        time := 1234 } }

end Clipboard

/-! ## Grid layout engine (table widget)

The table implementation (`nbtk_table_*`) is only called, not defined, in the
source tree at hand (`src/tests/test-container-matching.c`).  The data model
and the three components below follow sections 3 and 4 of the specification.
Track sizes and natural sizes are integral distances (the division of free
space has a remainder); alignment fractions and the emitted child rectangles
are rationals, so the placement formulas are evaluated exactly. -/

namespace Grid

/-- Modelled from the spec: the error taxonomy of section 7 (the table source
is missing). -/
inductive GridError where
  | DuplicateChildError
  | UnknownChildError
  | InvalidArgumentError
deriving DecidableEq, Repr

/-- Modelled from the spec: `padding: {top, right, bottom, left}` of the missing
table container. -/
structure Padding where
  top : Int
  right : Int
  bottom : Int
  left : Int
deriving DecidableEq, Repr

/-- Modelled from the spec: `ChildEntry` of section 3 with its defaults (the
table source is missing).  `child` is the opaque handle. -/
structure ChildEntry where
  child : Nat
  row : Nat := 0
  col : Nat := 0
  rowSpan : Nat := 1
  colSpan : Nat := 1
  xExpand : Bool := true
  yExpand : Bool := true
  xFill : Bool := true
  yFill : Bool := true
  xAlign : ℚ := 1 / 2
  yAlign : ℚ := 1 / 2
  keepAspectRatio : Bool := false
deriving DecidableEq, Repr

/-- Modelled from the spec: `Track` of section 3 (the table source is
missing). -/
structure Track where
  naturalSize : Int
  allocatedSize : Int
deriving DecidableEq, Repr

/-- Modelled from the spec: `GridContainer` of section 3 (the table source is
missing); `layoutDirty` is the dirty flag of sections 4.1 and 5. -/
structure GridContainer where
  rows : List Track
  columns : List Track
  rowSpacing : Int
  colSpacing : Int
  padding : Padding
  children : List ChildEntry
  layoutDirty : Bool
deriving DecidableEq, Repr

/-- Modelled from the spec: the rectangle `(x, y, width, height)` the Box
Allocator emits per child (section 4.3, step 6). -/
structure Rect where
  x : ℚ
  y : ℚ
  width : ℚ
  height : ℚ
deriving DecidableEq, Repr

/-- Modelled from the spec: the two axes (columns, rows) on which the missing
table code sizes tracks independently (section 4.2). -/
inductive Axis where
  | horizontal
  | vertical
deriving DecidableEq, Repr

/-! ### Grid Model (section 4.1) -/

/-- Modelled from the spec: an empty table with no spacing (the constructor
`nbtk_table_new` is missing). -/
def emptyGrid (padding : Padding) : GridContainer :=
  { rows := [], columns := [], rowSpacing := 0, colSpacing := 0, padding := padding,
    children := [], layoutDirty := false }

/-- Modelled from the spec: whether `child` is already present among the entries
(section 4.1; the table source is missing). -/
def hasChild (g : GridContainer) (child : Nat) : Bool :=
  g.children.any (fun e => e.child == child)

/-- Modelled from the spec: the entry `addChild` registers, with the default
flags of section 3. -/
def defaultEntry (child row col : Nat) : ChildEntry :=
  { child := child, row := row, col := col }

/-- Modelled from the spec: `addChild(child, row, col)` of section 4.1 (the
table source is missing). -/
def addChild (g : GridContainer) (child row col : Nat) : Except GridError GridContainer :=
  if hasChild g child then Except.error GridError.DuplicateChildError
  else Except.ok { g with children := g.children ++ [defaultEntry child row col],
                          layoutDirty := true }

/-- Modelled from the spec: mutation of the flags of an existing entry,
`UnknownChildError` if absent (section 4.1). -/
def updateChild (g : GridContainer) (child : Nat) (f : ChildEntry → ChildEntry) :
    Except GridError GridContainer :=
  if hasChild g child then
    Except.ok { g with children := g.children.map (fun e => if e.child = child then f e else e),
                       layoutDirty := true }
  else Except.error GridError.UnknownChildError

/-- Modelled from the spec: `setSpan(child, rowSpan, colSpan)`; a non-positive
span is an `InvalidArgumentError` (sections 4.1 and 7). -/
def setSpan (g : GridContainer) (child rowSpan colSpan : Nat) : Except GridError GridContainer :=
  if ¬ hasChild g child then Except.error GridError.UnknownChildError
  else if rowSpan = 0 ∨ colSpan = 0 then Except.error GridError.InvalidArgumentError
  else updateChild g child (fun e => { e with rowSpan := rowSpan, colSpan := colSpan })

/-- Modelled from the spec: `setExpand(child, xExpand, yExpand)` (section 4.1). -/
def setExpand (g : GridContainer) (child : Nat) (xExpand yExpand : Bool) :
    Except GridError GridContainer :=
  updateChild g child (fun e => { e with xExpand := xExpand, yExpand := yExpand })

/-- Modelled from the spec: `setFill(child, xFill, yFill)` (section 4.1). -/
def setFill (g : GridContainer) (child : Nat) (xFill yFill : Bool) :
    Except GridError GridContainer :=
  updateChild g child (fun e => { e with xFill := xFill, yFill := yFill })

/-- Modelled from the spec: `setAlign(child, xAlign, yAlign)`; a fraction
outside [0,1] is an `InvalidArgumentError` (sections 4.1 and 7). -/
def setAlign (g : GridContainer) (child : Nat) (xAlign yAlign : ℚ) :
    Except GridError GridContainer :=
  if ¬ hasChild g child then Except.error GridError.UnknownChildError
  else if xAlign < 0 ∨ 1 < xAlign ∨ yAlign < 0 ∨ 1 < yAlign then
    Except.error GridError.InvalidArgumentError
  else updateChild g child (fun e => { e with xAlign := xAlign, yAlign := yAlign })

/-- Modelled from the spec: `setKeepAspectRatio(child, flag)` (section 4.1). -/
def setKeepAspectRatio (g : GridContainer) (child : Nat) (flag : Bool) :
    Except GridError GridContainer :=
  updateChild g child (fun e => { e with keepAspectRatio := flag })

/-- Modelled from the spec: `removeChild(child)` (section 4.1). -/
def removeChild (g : GridContainer) (child : Nat) : Except GridError GridContainer :=
  if hasChild g child then
    Except.ok { g with children := g.children.filter (fun e => e.child != child),
                       layoutDirty := true }
  else Except.error GridError.UnknownChildError

/-- Modelled from the spec: `setRowSpacing(d)`; negative values are rejected
(section 4.1). -/
def setRowSpacing (g : GridContainer) (d : Int) : Except GridError GridContainer :=
  if d < 0 then Except.error GridError.InvalidArgumentError
  else Except.ok { g with rowSpacing := d, layoutDirty := true }

/-- Modelled from the spec: `setColSpacing(d)`; negative values are rejected
(section 4.1). -/
def setColSpacing (g : GridContainer) (d : Int) : Except GridError GridContainer :=
  if d < 0 then Except.error GridError.InvalidArgumentError
  else Except.ok { g with colSpacing := d, layoutDirty := true }

/-! ### Track Sizing (section 4.2) -/

/-- Modelled from the spec: what Track Sizing (section 4.2, table source
missing) reads of a child on one axis: first track, span, natural size on the
axis, expand flag. -/
structure AxisItem where
  index : Nat
  span : Nat
  natural : Int
  expand : Bool
deriving DecidableEq, Repr

/-- Modelled from the spec: the view of a child entry on an axis; `naturalSize`
is the outbound natural-size query `naturalSize(child) -> (width, height)` of
section 6. -/
def axisItem (naturalSize : Nat → Int × Int) (axis : Axis) (e : ChildEntry) : AxisItem :=
  match axis with
  | Axis.horizontal =>
    { index := e.col, span := e.colSpan, natural := (naturalSize e.child).1, expand := e.xExpand }
  | Axis.vertical =>
    { index := e.row, span := e.rowSpan, natural := (naturalSize e.child).2, expand := e.yExpand }

/-- Modelled from the spec: the children of the grid seen on one axis. -/
def axisItems (naturalSize : Nat → Int × Int) (axis : Axis) (g : GridContainer) :
    List AxisItem :=
  g.children.map (axisItem naturalSize axis)

/-- Modelled from the spec: the uniform gap of the axis (`colSpacing` or
`rowSpacing`, section 3). -/
def axisSpacing (axis : Axis) (g : GridContainer) : Int :=
  match axis with
  | Axis.horizontal => g.colSpacing
  | Axis.vertical => g.rowSpacing

/-- Modelled from the spec: padding before the first track of the axis (left
for columns, top for rows; section 4.3 step 1). -/
def axisPadStart (axis : Axis) (g : GridContainer) : Int :=
  match axis with
  | Axis.horizontal => g.padding.left
  | Axis.vertical => g.padding.top

/-- Modelled from the spec: content size on the axis, container size minus
padding (section 4.2). -/
def contentSize (axis : Axis) (g : GridContainer) (boxWidth boxHeight : Int) : Int :=
  match axis with
  | Axis.horizontal => boxWidth - g.padding.left - g.padding.right
  | Axis.vertical => boxHeight - g.padding.top - g.padding.bottom

/-- Modelled from the spec: track count = 1 + the largest track index
referenced by any child (section 3). -/
def trackCount (items : List AxisItem) : Nat :=
  items.foldl (fun m it => max m (it.index + it.span)) 0

/-- Modelled from the spec: step 1 of section 4.2, the maximum natural size of
the non-spanning children of track `i` (spanning children are excluded). -/
def trackNatural (items : List AxisItem) (i : Nat) : Int :=
  items.foldl (fun m it => if it.span = 1 ∧ it.index = i then max m it.natural else m) 0

/-- Modelled from the spec: whether track `i` contains the child, that is,
whether the child occupies it (section 4.2 step 4). -/
def covers (it : AxisItem) (i : Nat) : Bool :=
  decide (it.index ≤ i) && decide (i < it.index + it.span)

/-- Modelled from the spec: step 4 of section 4.2, a track is expandable when
it contains at least one child whose expand flag is true. -/
def trackExpandable (items : List AxisItem) (i : Nat) : Bool :=
  items.any (fun it => it.expand && covers it i)

/-- Modelled from the spec: step 2 of section 4.2. -/
def totalNatural (items : List AxisItem) (spacing : Int) : Int :=
  ((List.range (trackCount items)).map (trackNatural items)).sum
    + ((trackCount items - 1 : Nat) : Int) * spacing

/-- Modelled from the spec: step 3 of section 4.2. -/
def freeSpace (items : List AxisItem) (spacing size : Int) : Int :=
  max 0 (size - totalNatural items spacing)

/-- Modelled from the spec: the expandable tracks by increasing index (section
4.2 steps 4 and 5). -/
def expandableTracks (items : List AxisItem) : List Nat :=
  (List.range (trackCount items)).filter (trackExpandable items)

/-- Modelled from the spec: step 5 of section 4.2, the share of the free space
given to track `i`: an even share for each expandable track, the division
remainder going to the last expandable track; nothing when no track is
expandable. -/
def share (items : List AxisItem) (spacing size : Int) (i : Nat) : Int :=
  if (expandableTracks items).length = 0 then 0
  else if trackExpandable items i then
    freeSpace items spacing size / ((expandableTracks items).length : Int)
      + (if (expandableTracks items).getLast? = some i then
          freeSpace items spacing size % ((expandableTracks items).length : Int)
         else 0)
  else 0

/-- Modelled from the spec: Track Sizing of section 4.2 for one axis (the table
source is missing): tracks by increasing index with
`allocatedSize = naturalSize + share`. -/
def trackSizing (items : List AxisItem) (spacing size : Int) : List Track :=
  (List.range (trackCount items)).map (fun i =>
    { naturalSize := trackNatural items i
      allocatedSize := trackNatural items i + share items spacing size i })

/-! ### Box Allocator (section 4.3) -/

/-- Modelled from the spec: the stored tracks of an axis (`columns` or `rows` of
section 3). -/
def axisTracks (axis : Axis) (g : GridContainer) : List Track :=
  match axis with
  | Axis.horizontal => g.columns
  | Axis.vertical => g.rows

/-- Modelled from the spec: allocated size of stored track `i` (zero beyond the
track array). -/
def sizeAt (tracks : List Track) (i : Nat) : Int :=
  match tracks.get? i with
  | some t => t.allocatedSize
  | none => 0

/-- Modelled from the spec: step 1 of section 4.3, the start offset of track
`i`: padding plus the preceding allocated sizes plus accumulated spacing. -/
def trackOffset (tracks : List Track) (spacing padStart : Int) (i : Nat) : Int :=
  padStart + ((List.range i).map (fun j => sizeAt tracks j + spacing)).sum

/-- Modelled from the spec: step 2 of section 4.3, the extent of `span` tracks
starting at `index` including the interior spacing. -/
def spanSize (tracks : List Track) (spacing : Int) (index span : Nat) : Int :=
  ((List.range span).map (fun j => sizeAt tracks (index + j))).sum
    + ((span - 1 : Nat) : Int) * spacing

/-- Modelled from the spec: steps 3 and 4 of section 4.3 on one axis; returns
position and size. -/
def placeAxis (fill : Bool) (align : ℚ) (natural cellStart cellSize : Int) : ℚ × ℚ :=
  if fill then ((cellStart : ℚ), (cellSize : ℚ))
  else
    (((cellStart : ℚ) + align * ((cellSize : ℚ) - ((min natural cellSize : Int) : ℚ))),
      ((min natural cellSize : Int) : ℚ))

/-- Modelled from the spec: step 5 of section 4.3, the uniform scale factor
`min(cellWidth / naturalWidth, cellHeight / naturalHeight)`. -/
def aspectScale (naturalWidth naturalHeight cellWidth cellHeight : Int) : ℚ :=
  min ((cellWidth : ℚ) / (naturalWidth : ℚ)) ((cellHeight : ℚ) / (naturalHeight : ℚ))

/-- Modelled from the spec: steps 3 to 5 of section 4.3 for one child, given
its natural size and its cell rectangle. -/
def placeChild (e : ChildEntry) (natural : Int × Int)
    (cellX cellY cellWidth cellHeight : Int) : Rect :=
  if e.keepAspectRatio then
    { x := (cellX : ℚ) + e.xAlign *
        ((cellWidth : ℚ) - (natural.1 : ℚ) * aspectScale natural.1 natural.2 cellWidth cellHeight)
      y := (cellY : ℚ) + e.yAlign *
        ((cellHeight : ℚ) - (natural.2 : ℚ) * aspectScale natural.1 natural.2 cellWidth cellHeight)
      width := (natural.1 : ℚ) * aspectScale natural.1 natural.2 cellWidth cellHeight
      height := (natural.2 : ℚ) * aspectScale natural.1 natural.2 cellWidth cellHeight }
  else
    { x := (placeAxis e.xFill e.xAlign natural.1 cellX cellWidth).1
      y := (placeAxis e.yFill e.yAlign natural.2 cellY cellHeight).1
      width := (placeAxis e.xFill e.xAlign natural.1 cellX cellWidth).2
      height := (placeAxis e.yFill e.yAlign natural.2 cellY cellHeight).2 }

/-- Modelled from the spec: start offset of the cell of a child on an axis
(section 4.3 steps 1 and 2). -/
def cellStart (axis : Axis) (g : GridContainer) (index : Nat) : Int :=
  trackOffset (axisTracks axis g) (axisSpacing axis g) (axisPadStart axis g) index

/-- Modelled from the spec: extent of the cell of a child on an axis (section
4.3 step 2). -/
def cellSize (axis : Axis) (g : GridContainer) (index span : Nat) : Int :=
  spanSize (axisTracks axis g) (axisSpacing axis g) index span

/-- Modelled from the spec: the rectangle of one child from the stored tracks
(section 4.3, steps 1 to 5). -/
def childRect (naturalSize : Nat → Int × Int) (g : GridContainer) (e : ChildEntry) : Rect :=
  placeChild e (naturalSize e.child)
    (cellStart Axis.horizontal g e.col) (cellStart Axis.vertical g e.row)
    (cellSize Axis.horizontal g e.col e.colSpan) (cellSize Axis.vertical g e.row e.rowSpan)

/-- Modelled from the spec: Box Allocator of section 4.3 (the table source is
missing): one rectangle per child, in child order. -/
def boxAllocator (naturalSize : Nat → Int × Int) (g : GridContainer) : List (Nat × Rect) :=
  g.children.map (fun e => (e.child, childRect naturalSize g e))

/-- Modelled from the spec: the Track Sizing pass over both axes, storing the
tracks in the container. -/
def sizeTracks (naturalSize : Nat → Int × Int) (g : GridContainer)
    (boxWidth boxHeight : Int) : GridContainer :=
  { g with
    columns := trackSizing (axisItems naturalSize Axis.horizontal g)
      (axisSpacing Axis.horizontal g) (contentSize Axis.horizontal g boxWidth boxHeight)
    rows := trackSizing (axisItems naturalSize Axis.vertical g)
      (axisSpacing Axis.vertical g) (contentSize Axis.vertical g boxWidth boxHeight) }

/-- Modelled from the spec: `onAllocate(containerBox, sizeChanged)` of section 6:
Track Sizing, then Box Allocator, then the dirty flag is cleared.  Returns the
container with its tracks stored and the rectangle handed to each child. -/
def onAllocate (naturalSize : Nat → Int × Int) (g : GridContainer)
    (boxWidth boxHeight : Int) : GridContainer × List (Nat × Rect) :=
  ({ sizeTracks naturalSize g boxWidth boxHeight with layoutDirty := false },
    boxAllocator naturalSize (sizeTracks naturalSize g boxWidth boxHeight))

/-- Modelled from the spec: the container after a sequence of earlier layout
passes (`onAllocate` calls of the host, section 6), each with the natural sizes
the children reported at that time and the box of that pass. -/
def relayouts (g : GridContainer) (history : List ((Nat → Int × Int) × Int × Int)) :
    GridContainer :=
  history.foldl (fun t pass => (onAllocate pass.1 t pass.2.1 pass.2.2).1) g

end Grid

/-! ### The table of `src/tests/test-container-matching.c` -/

namespace Grid

/-- The calls of `main` in `test-container-matching.c` (lines 25-78) on the
table, in program order, with `button1 .. button9` as handles 1 .. 9: spacing 10
on both axes, nine `nbtk_table_add_actor (table, actor, row, column)` calls,
the span setters, and the `clutter_container_child_set` flag changes.  The test
sets no padding on the table; `padding` is what the new table starts with. -/
def buildTestTable (padding : Padding) : Except GridError GridContainer := do
  let t ← setColSpacing (emptyGrid padding) 10
  let t ← setRowSpacing t 10
  let t ← addChild t 1 0 0
  let t ← addChild t 2 0 1
  let t ← addChild t 3 1 1
  let t ← addChild t 4 2 0
  let t ← addChild t 5 3 0
  let t ← addChild t 6 3 1
  let t ← addChild t 7 4 1
  let t ← addChild t 8 4 0
  let t ← addChild t 9 5 0
  let t ← setSpan t 1 2 1
  let t ← setSpan t 7 2 1
  let t ← setSpan t 4 1 2
  let t ← setExpand t 1 false false
  let t ← setExpand t 5 false false
  let t ← setExpand t 7 true true
  let t ← setFill t 7 false false
  let t ← setExpand t 8 false false
  let t ← setExpand t 9 false false
  setKeepAspectRatio t 2 true

/-- The padding `(5, 10, 5, 10)` the specification gives for the calibration
scenario, as `{top, right, bottom, left}` (the test itself sets none). -/
def testPadding : Padding := { top := 5, right := 10, bottom := 5, left := 10 }

/-- The table `buildTestTable` yields, written out. -/
def testTable : GridContainer :=
  { rows := [], columns := [], rowSpacing := 10, colSpacing := 10, padding := testPadding,
    layoutDirty := true,
    children :=
      [ { child := 1, row := 0, col := 0, rowSpan := 2, xExpand := false, yExpand := false },
        { child := 2, row := 0, col := 1, keepAspectRatio := true },
        { child := 3, row := 1, col := 1 },
        { child := 4, row := 2, col := 0, colSpan := 2 },
        { child := 5, row := 3, col := 0, xExpand := false, yExpand := false },
        { child := 6, row := 3, col := 1 },
        { child := 7, row := 4, col := 1, rowSpan := 2, xFill := false, yFill := false },
        { child := 8, row := 4, col := 0, xExpand := false, yExpand := false },
        { child := 9, row := 5, col := 0, xExpand := false, yExpand := false } ] }

/-- Natural sizes in the calibration scenario: `button2` is forced to 20 x 20,
the other non-spanning children are 0 x 0; the natural sizes of the three
spanning children (`button1`, `button4`, `button7`) are parameters. -/
def testNatural (s1 s4 s7 : Int × Int) (child : Nat) : Int × Int :=
  if child = 2 then (20, 20)
  else if child = 1 then s1
  else if child = 4 then s4
  else if child = 7 then s7
  else (0, 0)

/-- A table with one child spanning two rows and two columns that does not
fill its cell (spacing 10, no padding). -/
def spanSample : GridContainer :=
  { emptyGrid { top := 0, right := 0, bottom := 0, left := 0 } with
    rowSpacing := 10, colSpacing := 10,
    children :=
      [ { child := 7, row := 0, col := 0, rowSpan := 2, colSpan := 2,
          xFill := false, yFill := false } ] }

/-- The same table with the child filling its cell. -/
def spanFillSample : GridContainer :=
  { emptyGrid { top := 0, right := 0, bottom := 0, left := 0 } with
    rowSpacing := 10, colSpacing := 10,
    children := [ { child := 7, row := 0, col := 0, rowSpan := 2, colSpan := 2 } ] }

/-- A table with a single child that keeps its aspect ratio (no spacing, no
padding). -/
def aspectSample : GridContainer :=
  { emptyGrid { top := 0, right := 0, bottom := 0, left := 0 } with
    children := [ { child := 1, row := 0, col := 0, keepAspectRatio := true } ] }

/-- The entry of `button7` in the test table: spans rows 4 and 5 of column 1 and
fills on neither axis. -/
def button7Entry : ChildEntry :=
  { child := 7, row := 4, col := 1, rowSpan := 2, xFill := false, yFill := false }

end Grid

/-! ### Tiling vocabulary -/

namespace Grid

/-- Two rectangles do not overlap: one lies entirely to one side of the
other. -/
def disjointRects (a b : Rect) : Prop :=
  a.x + a.width ≤ b.x ∨ b.x + b.width ≤ a.x ∨ a.y + a.height ≤ b.y ∨ b.y + b.height ≤ a.y

/-- The point `(x, y)` lies in the rectangle (half-open on the far edges). -/
def inRect (r : Rect) (x y : ℚ) : Prop :=
  r.x ≤ x ∧ x < r.x + r.width ∧ r.y ≤ y ∧ y < r.y + r.height

/-- The coordinate `t` lies in one of the declared spacing gaps between two
adjacent tracks. -/
def inGap (tracks : List Track) (spacing padStart : Int) (t : ℚ) : Prop :=
  ∃ i, i + 1 < tracks.length ∧
    ((trackOffset tracks spacing padStart i + sizeAt tracks i : Int) : ℚ) ≤ t ∧
    t < ((trackOffset tracks spacing padStart (i + 1) : Int) : ℚ)

/-- The point lies in the content area: the container box minus padding. -/
def inContent (g : GridContainer) (boxWidth boxHeight : Int) (x y : ℚ) : Prop :=
  (g.padding.left : ℚ) ≤ x ∧
  x < ((g.padding.left + contentSize Axis.horizontal g boxWidth boxHeight : Int) : ℚ) ∧
  (g.padding.top : ℚ) ≤ y ∧
  y < ((g.padding.top + contentSize Axis.vertical g boxWidth boxHeight : Int) : ℚ)

/-- The rectangle lies inside the content area. -/
def rectInContent (g : GridContainer) (boxWidth boxHeight : Int) (r : Rect) : Prop :=
  (g.padding.left : ℚ) ≤ r.x ∧
  r.x + r.width
    ≤ ((g.padding.left + contentSize Axis.horizontal g boxWidth boxHeight : Int) : ℚ) ∧
  (g.padding.top : ℚ) ≤ r.y ∧
  r.y + r.height
    ≤ ((g.padding.top + contentSize Axis.vertical g boxWidth boxHeight : Int) : ℚ)

/-- The allocated rectangles tile the content area except for the spacing
gaps: they are pairwise non-overlapping, lie inside the content area, and every
point of the content area is in one of them or in a row or column gap. -/
def tilesContent (naturalSize : Nat → Int × Int) (g : GridContainer)
    (boxWidth boxHeight : Int) : Prop :=
  (onAllocate naturalSize g boxWidth boxHeight).2.Pairwise
      (fun p q => disjointRects p.2 q.2) ∧
  (∀ p ∈ (onAllocate naturalSize g boxWidth boxHeight).2,
      rectInContent g boxWidth boxHeight p.2) ∧
  (∀ x y : ℚ, inContent g boxWidth boxHeight x y →
    (∃ p ∈ (onAllocate naturalSize g boxWidth boxHeight).2, inRect p.2 x y) ∨
    inGap (onAllocate naturalSize g boxWidth boxHeight).1.columns g.colSpacing
      g.padding.left x ∨
    inGap (onAllocate naturalSize g boxWidth boxHeight).1.rows g.rowSpacing
      g.padding.top y)

/-- The premise of the tiling property: single-span children in pairwise
distinct cells with `xFill = yFill = true`. -/
def singleSpanFilled (g : GridContainer) : Prop :=
  (∀ e ∈ g.children, e.rowSpan = 1 ∧ e.colSpan = 1 ∧ e.xFill = true ∧ e.yFill = true) ∧
  g.children.Pairwise (fun a b => a.row ≠ b.row ∨ a.col ≠ b.col)

/-- The rectangle of the single cell `(row, col)` from the stored tracks. -/
def cellRectOf (g : GridContainer) (row col : Nat) : Rect :=
  { x := ((cellStart Axis.horizontal g col : Int) : ℚ)
    y := ((cellStart Axis.vertical g row : Int) : ℚ)
    width := ((cellSize Axis.horizontal g col 1 : Int) : ℚ)
    height := ((cellSize Axis.vertical g row 1 : Int) : ℚ) }

/-- One child in cell (0, 0) that fills but does not expand. -/
def tileSampleNoExpand : GridContainer :=
  { emptyGrid { top := 0, right := 0, bottom := 0, left := 0 } with
    children := [ { child := 1, row := 0, col := 0, xExpand := false, yExpand := false } ] }

/-- Two children on the diagonal of a 2 x 2 grid; two cells stay empty. -/
def tileSampleHoles : GridContainer :=
  { emptyGrid { top := 0, right := 0, bottom := 0, left := 0 } with
    children := [ { child := 1, row := 0, col := 0 }, { child := 2, row := 1, col := 1 } ] }

/-- A full 2 x 2 grid with default flags, spacing 10 and padding 5. -/
def tileSampleFull : GridContainer :=
  { emptyGrid { top := 5, right := 5, bottom := 5, left := 5 } with
    rowSpacing := 10, colSpacing := 10,
    children :=
      [ { child := 1, row := 0, col := 0 }, { child := 2, row := 0, col := 1 },
        { child := 3, row := 1, col := 0 }, { child := 4, row := 1, col := 1 } ] }

end Grid

/-! ### Calibration scenario vocabulary -/

namespace Grid

/-- The rectangle lies within the container box `boxWidth x boxHeight`
(coordinates are relative to the container origin). -/
def rectInBox (boxWidth boxHeight : Int) (r : Rect) : Prop :=
  0 ≤ r.x ∧ r.x + r.width ≤ (boxWidth : ℚ) ∧ 0 ≤ r.y ∧ r.y + r.height ≤ (boxHeight : ℚ)

/-- The union of the tracks a child spans, interior spacing included (section
4.3, step 2), from the stored tracks. -/
def spanUnionRect (g : GridContainer) (e : ChildEntry) : Rect :=
  { x := ((cellStart Axis.horizontal g e.col : Int) : ℚ)
    y := ((cellStart Axis.vertical g e.row : Int) : ℚ)
    width := ((cellSize Axis.horizontal g e.col e.colSpan : Int) : ℚ)
    height := ((cellSize Axis.vertical g e.row e.rowSpan : Int) : ℚ) }

/-- The calibration property as stated: every rectangle lies within the
container box and the rectangle of every spanning child is the union of its
spanned tracks. -/
def calibrationProperty (naturalSize : Nat → Int × Int) (g : GridContainer)
    (boxWidth boxHeight : Int) : Prop :=
  (∀ p ∈ (onAllocate naturalSize g boxWidth boxHeight).2,
      rectInBox boxWidth boxHeight p.2) ∧
  (∀ e ∈ g.children, (1 < e.rowSpan ∨ 1 < e.colSpan) →
      childRect naturalSize (onAllocate naturalSize g boxWidth boxHeight).1 e
        = spanUnionRect (onAllocate naturalSize g boxWidth boxHeight).1 e)

/-- Natural sizes of the calibration scenario: 20 x 20 for `button2`, 0 x 0 for
every other child. -/
def scenarioNatural : Nat → Int × Int := testNatural (0, 0) (0, 0) (0, 0)

/-- The rectangle `inner` lies within the rectangle `outer`. -/
def rectWithin (inner outer : Rect) : Prop :=
  outer.x ≤ inner.x ∧ inner.x + inner.width ≤ outer.x + outer.width ∧
  outer.y ≤ inner.y ∧ inner.y + inner.height ≤ outer.y + outer.height

end Grid

namespace Grid

/-- Two views of the children agree for Track Sizing: same tracks, same expand
flag, and the same natural size wherever the child is non-spanning. -/
def sizingEquivalent (a b : AxisItem) : Prop :=
  a.index = b.index ∧ a.span = b.span ∧ a.expand = b.expand ∧
    (a.span = 1 → a.natural = b.natural)

end Grid

/-! ## Clipboard: initialisation, text requests and the default object -/

namespace Clipboard

/-- Body of `mx_clipboard_init` (lines 194-227): `window` is the result of
`XCreateSimpleWindow`, `XInternAtom` the server's atom table; each file-scope
atom is interned only while it is still `None`.  The private data starts
zeroed (no text), the two supported targets are stored, and
`mx_clipboard_provider` is registered as an event filter for the object.
Returns the new file-scope atoms and the private data. -/
def mx_clipboard_init (XInternAtom : String → Nat) (window : Nat) (st : Statics) :
    Statics × MxClipboardPrivate :=
  let atom_clip := if st.atom_clip = None then XInternAtom "CLIPBOARD" else st.atom_clip
  let utf8_string := if st.utf8_string = None then XInternAtom "UTF8_STRING" else st.utf8_string
  let atom_targets := if st.atom_targets = None then XInternAtom "TARGETS" else st.atom_targets
  ({ atom_clip := atom_clip, utf8_string := utf8_string, atom_targets := atom_targets },
   { clipboard_window := window
     clipboard_text := none
     n_targets := 2
     supported_targets := [utf8_string, atom_targets] })

/-- The file-scope atoms at program start: all `None`. -/
def initialStatics : Statics := { atom_clip := None, utf8_string := None, atom_targets := None }

/-- The clipboard after a sequence of `mx_clipboard_set_text` calls (a `none`
entry is a call with a NULL text). -/
def set_texts (st : Statics) (dpy : Nat) (priv : MxClipboardPrivate)
    (texts : List (Option (List Nat))) : MxClipboardPrivate :=
  texts.foldl (fun p t => (mx_clipboard_set_text st dpy p t).1) priv

/-- A sample atom table: CLIPBOARD = 300, UTF8_STRING = 301, TARGETS = 302. -/
def sampleInternAtom (name : String) : Nat :=
  if name = "CLIPBOARD" then 300
  else if name = "UTF8_STRING" then 301
  else if name = "TARGETS" then 302
  else 999

/-- Sample request for TARGETS with property `None`, from window 9. -/
def sampleTargetsRequest : XEvent :=
  { type := 30
    xselectionrequest :=
      { display := 1, requestor := 9, selection := 300, target := 302, property := 0,
        time := 1234 } }

end Clipboard

namespace Clipboard

/-- Xlib `Success`. -/
def Success : Nat := 0

/-- The view of the `XEvent` union `mx_clipboard_x11_event_filter` uses: the
event type and the selection member. -/
structure XEventSelection where
  type : Nat
  xselection : XSelectionEvent
deriving DecidableEq, Repr

/-- Contents of `struct _EventFilterData`: the clipboard object, the callback
(function pointer, 0 for NULL) and the user data. -/
structure EventFilterData where
  clipboard : Nat
  callback : Nat
  user_data : Nat
deriving DecidableEq, Repr

/-- What the X server answers to the `XGetWindowProperty` call of the filter:
the value `clutter_x11_untrap_x_errors` returns afterwards, the result code and
the data pointer left in `data` (`none` is NULL). -/
structure PropertyReply where
  trapped_error : Nat
  result : Nat
  data : Option (List Nat)
deriving DecidableEq, Repr

/-- The calls issued by `mx_clipboard_get_text` and its event filter, in
program order; a filter data block is named by its address. -/
inductive FilterCall where
  | callback (callback clipboard : Nat) (text : Option (List Nat)) (user_data : Nat)
  | clutter_x11_add_filter (data : Nat)
  | clutter_x11_remove_filter (data : Nat)
  | g_free (data : Nat)
  | clutter_x11_trap_x_errors
  | clutter_x11_untrap_x_errors
  | XGetWindowProperty (display w property : Nat) (delete : Bool)
  | XConvertSelection (display selection target property requestor time : Nat)
  | XFree
  | g_warning (message : String)
  | g_return_if_fail_warning (expression : String)
deriving DecidableEq, Repr

/-- Body of `mx_clipboard_x11_event_filter` (lines 229-288) for the filter data
block at address `addr` with contents `filter_data`.  Returns the filter result
and the calls issued. -/
def mx_clipboard_x11_event_filter (xev : XEventSelection) (reply : PropertyReply)
    (addr : Nat) (filter_data : EventFilterData) :
    ClutterX11FilterReturn × List FilterCall :=
  if xev.type ≠ SelectionNotify then
    (ClutterX11FilterReturn.CLUTTER_X11_FILTER_CONTINUE, [])
  else if xev.xselection.property = None then
    -- clipboard empty
    (ClutterX11FilterReturn.CLUTTER_X11_FILTER_REMOVE,
      [ FilterCall.callback filter_data.callback filter_data.clipboard none
          filter_data.user_data,
        FilterCall.clutter_x11_remove_filter addr,
        FilterCall.g_free addr ])
  else
    (ClutterX11FilterReturn.CLUTTER_X11_FILTER_REMOVE,
      [ FilterCall.clutter_x11_trap_x_errors,
        FilterCall.XGetWindowProperty xev.xselection.display xev.xselection.requestor
          xev.xselection.property true,
        FilterCall.clutter_x11_untrap_x_errors ]
      ++ (if reply.trapped_error ≠ 0 ∨ reply.result ≠ Success then
            [FilterCall.g_warning "Clipboard: prop retrival failed"]
          else [])
      ++ [ FilterCall.callback filter_data.callback filter_data.clipboard reply.data
             filter_data.user_data,
           FilterCall.clutter_x11_remove_filter addr,
           FilterCall.g_free addr ]
      ++ (if reply.data.isSome then [FilterCall.XFree] else []))

/-- Body of `mx_clipboard_get_text` (lines 321-352) for a valid clipboard
object at address `clipboard`; `addr` is the block `g_new0` returns.  Returns
the filter registered (none when the `callback != NULL` check fails) and the
calls issued. -/
def mx_clipboard_get_text (st : Statics) (dpy : Nat) (priv : MxClipboardPrivate)
    (clipboard callback user_data addr : Nat) :
    Option (Nat × EventFilterData) × List FilterCall :=
  if callback = 0 then (none, [FilterCall.g_return_if_fail_warning "callback != NULL"])
  else
    (some (addr, { clipboard := clipboard, callback := callback, user_data := user_data }),
      [ FilterCall.clutter_x11_add_filter addr,
        FilterCall.clutter_x11_trap_x_errors,
        FilterCall.XConvertSelection dpy st.atom_clip st.utf8_string st.utf8_string
          priv.clipboard_window CurrentTime,
        FilterCall.clutter_x11_untrap_x_errors ])

/-- The event filters registered by pending `mx_clipboard_get_text` requests
(address of the data block and its contents, in registration order) and the
trace of calls, each tagged with the address of the filter that issued it. -/
structure FilterRegistry where
  filters : List (Nat × EventFilterData)
  log : List (Nat × FilterCall)
deriving DecidableEq, Repr

/-- Effect of a call on the registered filters: `clutter_x11_remove_filter`
drops the filter with that data block. -/
def applyCall (filters : List (Nat × EventFilterData)) (c : FilterCall) :
    List (Nat × EventFilterData) :=
  match c with
  | FilterCall.clutter_x11_remove_filter a => filters.filter (fun f => f.1 != a)
  | _ => filters

/-- Clutter's event filtering: the event is offered to the filters in order;
a filter that does not return `CLUTTER_X11_FILTER_CONTINUE` ends the
processing of the event. -/
def deliverTo (ev : XEventSelection × PropertyReply) :
    List (Nat × EventFilterData) → FilterRegistry → FilterRegistry
  | [], s => s
  | f :: rest, s =>
    let r := mx_clipboard_x11_event_filter ev.1 ev.2 f.1 f.2
    let s1 : FilterRegistry :=
      { filters := r.2.foldl applyCall s.filters
        log := s.log ++ r.2.map (fun c => (f.1, c)) }
    if r.1 = ClutterX11FilterReturn.CLUTTER_X11_FILTER_CONTINUE then deliverTo ev rest s1
    else s1

/-- Delivery of one X event (with the server's answer to a property read). -/
def deliver (s : FilterRegistry) (ev : XEventSelection × PropertyReply) : FilterRegistry :=
  deliverTo ev s.filters s

/-- Registration of the filter of a request made with `mx_clipboard_get_text`. -/
def request (s : FilterRegistry) (st : Statics) (dpy : Nat) (priv : MxClipboardPrivate)
    (clipboard callback user_data addr : Nat) : FilterRegistry :=
  match (mx_clipboard_get_text st dpy priv clipboard callback user_data addr).1 with
  | some f => { s with filters := s.filters ++ [f] }
  | none => s

/-- Whether the call is an invocation of the user's callback. -/
def isCallback : FilterCall → Bool
  | FilterCall.callback _ _ _ _ => true
  | _ => false

/-- The callback invocations issued by the filter at address `addr`. -/
def callbacksOf (addr : Nat) (log : List (Nat × FilterCall)) : List FilterCall :=
  (log.filter (fun p => p.1 == addr && isCallback p.2)).map Prod.snd

/-- A sample `SelectionNotify` event carrying property 555. -/
def sampleNotify : XEventSelection :=
  { type := 31
    xselection :=
      { type := 31, display := 1, requestor := 77, selection := 300, target := 301,
        property := 555, time := 1234 } }

/-- A sample event of another type (`PropertyNotify`, 28). -/
def sampleOther : XEventSelection := { sampleNotify with type := 28 }

/-- A sample successful property read returning "hi". -/
def sampleReply : PropertyReply := { trapped_error := 0, result := 0, data := some [104, 105] }

/-- A registry with one older pending request (block 40) and an empty trace. -/
def sampleRegistry : FilterRegistry :=
  { filters := [(40, { clipboard := 8, callback := 500, user_data := 1 })], log := [] }

/-- Whether the filter at address `addr` is registered. -/
def registered (addr : Nat) (s : FilterRegistry) : Bool :=
  s.filters.any (fun f => f.1 == addr)

end Clipboard

namespace Clipboard

/-- The state of one request (filter block `addr` with contents `d`) in a
registry: block addresses are distinct, the block holds `d`, and the callback
has not been invoked while the filter is registered and has been invoked
exactly once, with the clipboard and user data of the request, after that. -/
def RequestInv (addr : Nat) (d : EventFilterData) (s : FilterRegistry) : Prop :=
  (s.filters.map Prod.fst).Nodup ∧
  (∀ d', (addr, d') ∈ s.filters → d' = d) ∧
  (registered addr s = true → callbacksOf addr s.log = []) ∧
  (registered addr s = false →
    ∃ text, callbacksOf addr s.log
      = [FilterCall.callback d.callback d.clipboard text d.user_data])

end Clipboard

namespace Clipboard

/-- A sample event history: another event, a `SelectionNotify` (taken by the
older request), another event, a second `SelectionNotify`, and a third one. -/
def sampleHistory : List (XEventSelection × PropertyReply) :=
  [ (sampleOther, sampleReply), (sampleNotify, sampleReply), (sampleOther, sampleReply),
    (sampleNotify, sampleReply), (sampleNotify, sampleReply) ]

end Clipboard

namespace Clipboard

/-- Body of `mx_clipboard_get_default` (lines 298-309).  `default_clipboard` is
the function's static pointer (0 for NULL) and `fresh` the object `g_object_new`
would return if called.  Returns the new value of the static, the object
returned, and whether `g_object_new` was called. -/
def mx_clipboard_get_default (fresh : Nat) (default_clipboard : Nat) : Nat × Nat × Bool :=
  if default_clipboard = 0 then (fresh, fresh, true)
  else (default_clipboard, default_clipboard, false)

/-- A sequence of calls of `mx_clipboard_get_default`, one per element of
`fresh` (the object `g_object_new` would return at that call), starting from
the given value of the static.  Returns, per call, the object returned and
whether an object was created. -/
def get_default_calls : Nat → List Nat → List (Nat × Bool)
  | _, [] => []
  | default_clipboard, f :: rest =>
    let r := mx_clipboard_get_default f default_clipboard
    (r.2.1, r.2.2) :: get_default_calls r.1 rest

end Clipboard

/-! ## Tooltip: `src/nbtk/nbtk-tooltip.c` -/

namespace Tooltip

open Clutter

/-- Conversion of an integer to `guint` (32 bits, modulo 2^32). -/
def toGuint (v : Int) : Int := v % 4294967296

/-- Contents of `struct _NbtkTooltipPrivate`: the text held by the
`ClutterLabel` `priv->label` (`none` for NULL) and the associated widget. -/
structure NbtkTooltipPrivate where
  label : Option (List Nat)
  widget : Nat
deriving DecidableEq, Repr

/-- The tooltip object: its address, its private data, and the actor state
Clutter keeps for it (parent, 0 for none; visibility; the `show-on-set-parent`
property; the position in pixels last given to `clutter_actor_set_position`). -/
structure NbtkTooltip where
  id : Nat
  priv : NbtkTooltipPrivate
  parent : Nat
  visible : Bool
  show_on_set_parent : Bool
  x : Int
  y : Int
deriving DecidableEq, Repr

/-- The tooltip and the part of the scene graph it lives in: for every
container, its children from bottom to top. -/
structure Scene where
  tooltip : NbtkTooltip
  children : Nat → List Nat

/-- What Clutter (external library) reports about the actors, by actor:
`clutter_actor_get_stage` (0 when the actor is on no stage),
`clutter_actor_get_transformed_position` (`gint`),
`clutter_actor_get_transformed_size` (`guint`) and `clutter_actor_get_width`
(`guint`). -/
structure Actors where
  clutter_actor_get_stage : Nat → Nat
  clutter_actor_get_transformed_position : Nat → Int × Int
  clutter_actor_get_transformed_size : Nat → Nat × Nat
  clutter_actor_get_width : Nat → Nat

/-- The values `nbtk_tooltip_show` reads: the stage of the associated widget
(0 when it is on none), the widget's transformed position (`gint`) and size
(`guint`), and the tooltip's width (`guint`). -/
structure Geometry where
  stage : Nat
  x : Int
  y : Int
  w : Nat
  h : Nat
  tooltip_width : Nat
deriving DecidableEq, Repr

/-- The calls into Clutter and GLib issued by the tooltip, in program order. -/
inductive TooltipCall where
  | g_warning (message : String)
  | clutter_actor_reparent (actor new_parent : Nat)
  | clutter_container_raise_child (container actor : Nat)
  | clutter_actor_set_position (actor : Nat) (x y : Int)
  | clutter_actor_show (actor : Nat)
  | clutter_actor_hide (actor : Nat)
deriving DecidableEq, Repr

/-- Clutter `clutter_label_set_text`: the label keeps a copy of the text. -/
def clutter_label_set_text (_label : Option (List Nat)) (text : Option (List Nat)) :
    Option (List Nat) :=
  text.map Clipboard.g_strdup

/-- Clutter `clutter_label_get_text`: the text the label holds. -/
def clutter_label_get_text (label : Option (List Nat)) : Option (List Nat) := label

/-- Body of `nbtk_tooltip_set_label` (lines 198-211) for a valid tooltip. -/
def nbtk_tooltip_set_label (tooltip : NbtkTooltip) (text : Option (List Nat)) : NbtkTooltip :=
  { tooltip with
    priv := { tooltip.priv with label := clutter_label_set_text tooltip.priv.label text } }

/-- Body of `nbtk_tooltip_get_label` (lines 183-189) for a valid tooltip. -/
def nbtk_tooltip_get_label (tooltip : NbtkTooltip) : Option (List Nat) :=
  clutter_label_get_text tooltip.priv.label

/-- The object `g_object_new (NBTK_TYPE_TOOLTIP, ...)` builds before any
property is set (`nbtk_tooltip_init`, lines 117-130): a label without text, no
widget, and a new actor, which has no parent and is not visible. -/
def nbtk_tooltip_init (id : Nat) : NbtkTooltip :=
  { id := id
    priv := { label := none, widget := 0 }
    parent := 0
    visible := false
    show_on_set_parent := true
    x := 0
    y := 0 }

/-- Body of `nbtk_tooltip_new` (lines 149-173); `id` is the address of the new
object.  The `label` property is set through `nbtk_tooltip_set_label`
(`nbtk_tooltip_set_property`, lines 58-76) and `show-on-set-parent` is set to
FALSE; then the widget is remembered. -/
def nbtk_tooltip_new (id widget : Nat) (text : Option (List Nat)) : NbtkTooltip :=
  let tooltip := nbtk_tooltip_set_label (nbtk_tooltip_init id) text
  let tooltip := { tooltip with show_on_set_parent := false }
  { tooltip with priv := { tooltip.priv with widget := widget } }

/-- Clutter `clutter_actor_reparent` on the tooltip: nothing happens for a NULL
new parent; otherwise the actor leaves the children of its old parent and is
added on top of the children of the new one, and, as whenever a parent is set,
it is shown if its `show-on-set-parent` property is TRUE. -/
def clutter_actor_reparent (s : Scene) (new_parent : Nat) : Scene :=
  if new_parent = 0 then s
  else if s.tooltip.parent = new_parent then s
  else
    { tooltip :=
        { s.tooltip with
          parent := new_parent
          visible := s.tooltip.visible || s.tooltip.show_on_set_parent }
      children := fun c =>
        if c = new_parent then (s.children c).erase s.tooltip.id ++ [s.tooltip.id]
        else if c = s.tooltip.parent then (s.children c).erase s.tooltip.id
        else s.children c }

/-- Clutter `clutter_container_raise_child (container, actor, NULL)` on the
tooltip: when the container is the actor's parent the actor is moved on top of
its siblings; otherwise nothing happens. -/
def clutter_container_raise_child (s : Scene) (container : Nat) : Scene :=
  if container = 0 then s
  else if s.tooltip.parent ≠ container then s
  else
    { s with
      children := fun c =>
        if c = container then (s.children c).erase s.tooltip.id ++ [s.tooltip.id]
        else s.children c }

/-- The x argument `(x + w / 2) - clutter_actor_get_width (tooltip) / 2` of the
`clutter_actor_set_position` call: `x` is `gint`, `w` and the width are `guint`,
so the expression is evaluated in `guint` and converted to `gint`. -/
def position_x (g : Geometry) : Int :=
  wrap32 (toGuint (toGuint (toGuint g.x + (g.w : Int) / 2) - (g.tooltip_width : Int) / 2))

/-- The y argument `y + h` of the `clutter_actor_set_position` call, evaluated
in `guint` and converted to `gint`. -/
def position_y (g : Geometry) : Int :=
  wrap32 (toGuint (toGuint g.y + (g.h : Int)))

/-- The reads of `nbtk_tooltip_show` (lines 230 and 248-252): stage, position
and size of `tooltip->priv->widget`, and the width of the tooltip itself. -/
def geometry (a : Actors) (tooltip : NbtkTooltip) : Geometry :=
  { stage := a.clutter_actor_get_stage tooltip.priv.widget
    x := (a.clutter_actor_get_transformed_position tooltip.priv.widget).1
    y := (a.clutter_actor_get_transformed_position tooltip.priv.widget).2
    w := (a.clutter_actor_get_transformed_size tooltip.priv.widget).1
    h := (a.clutter_actor_get_transformed_size tooltip.priv.widget).2
    tooltip_width := a.clutter_actor_get_width tooltip.id }

/-- Body of `nbtk_tooltip_show` (lines 219-257).  Returns the scene and the
calls issued. -/
def nbtk_tooltip_show (a : Actors) (s : Scene) : Scene × List TooltipCall :=
  let g := geometry a s.tooltip
  let parent := s.tooltip.parent
  let stage := g.stage
  let s1 := if parent ≠ stage then clutter_actor_reparent s stage else s
  let calls1 :=
    if parent ≠ stage then
      (if parent ≠ 0 then
        [TooltipCall.g_warning "NbtkTooltip must be parented directly on the stage"]
       else [])
      ++ [TooltipCall.clutter_actor_reparent s.tooltip.id stage]
    else []
  let s2 := clutter_container_raise_child s1 stage
  let s3 : Scene :=
    { s2 with tooltip := { s2.tooltip with x := position_x g, y := position_y g } }
  let s4 : Scene := { s3 with tooltip := { s3.tooltip with visible := true } }
  (s4,
    calls1 ++
      [ TooltipCall.clutter_container_raise_child stage s.tooltip.id,
        TooltipCall.clutter_actor_set_position s.tooltip.id (position_x g) (position_y g),
        TooltipCall.clutter_actor_show s.tooltip.id ])

/-- Body of `nbtk_tooltip_hide` (lines 265-271). -/
def nbtk_tooltip_hide (s : Scene) : Scene × List TooltipCall :=
  ({ s with tooltip := { s.tooltip with visible := false } },
    [TooltipCall.clutter_actor_hide s.tooltip.id])

/-- A sample scene: stage 1 with children 20 and 21, and a new tooltip 30 for
widget 20. -/
def sampleScene : Scene :=
  { tooltip := nbtk_tooltip_new 30 20 (some [104, 105])
    children := fun c => if c = 1 then [20, 21] else [] }

/-- Sample actors: widget 20 at (100, 50) of size 41 x 20 on stage 1; every
other actor, the tooltip included, is 60 wide and on no stage. -/
def sampleActors : Actors :=
  { clutter_actor_get_stage := fun actor => if actor = 20 then 1 else 0
    clutter_actor_get_transformed_position := fun _ => (100, 50)
    clutter_actor_get_transformed_size := fun _ => (41, 20)
    clutter_actor_get_width := fun _ => 60 }

/-- The same actors with widget 20 on no stage. -/
def sampleActorsNoStage : Actors :=
  { sampleActors with clutter_actor_get_stage := fun _ => 0 }

/-- A sample scene in which the new tooltip 30 for widget 20 has been put into
the group 5. -/
def sampleSceneGroup : Scene :=
  clutter_actor_reparent
    { tooltip := nbtk_tooltip_new 30 20 (some [104, 105])
      children := fun c => if c = 5 then [21] else [] } 5

/-- The state after `nbtk_tooltip_show` as stated: the tooltip's parent is the
stage of its associated widget, it is the topmost (last) child of that stage,
and it is visible. -/
def shownOnStage (a : Actors) (s : Scene) : Prop :=
  (nbtk_tooltip_show a s).1.tooltip.parent
    = a.clutter_actor_get_stage s.tooltip.priv.widget ∧
  ((nbtk_tooltip_show a s).1.children
      (a.clutter_actor_get_stage s.tooltip.priv.widget)).getLast? = some s.tooltip.id ∧
  (nbtk_tooltip_show a s).1.tooltip.visible = true

end Tooltip

/-! ## Scroll bar: allocation, slider and adjustment property

`ClutterUnit` and `ClutterFixed` are 32-bit signed integers: every sum and
difference of box coordinates, the fixed-point primitives, the conversion from
`guint` pixels and the arithmetic of `move_slider` wrap to 32 bits. -/

namespace Clutter

/-- Macro `CLUTTER_UNITS_FROM_INT (x)`: `(x) << 16`, kept in 32 bits. -/
def CLUTTER_UNITS_FROM_INT (x : Int) : Int := wrap32 (x * 65536)

/-- GLib macro `MIN (a, b)`: `((a) < (b)) ? (a) : (b)`. -/
def MIN (a b : Int) : Int := if a < b then a else b

/-- GLib macro `MAX (a, b)`: `((a) > (b)) ? (a) : (b)`. -/
def MAX (a b : Int) : Int := if a > b then a else b

/-- GLib macro `CLAMP (x, low, high)`:
`((x) > (high)) ? (high) : (((x) < (low)) ? (low) : (x))`. -/
def CLAMP (x low high : Int) : Int := if x > high then high else if x < low then low else x

/-- GLib `G_MAXINT16`. -/
def G_MAXINT16 : Nat := 32767

/-- GLib `G_MAXUINT`. -/
def G_MAXUINT : Nat := 4294967295

end Clutter

namespace ScrollBar

open Clutter

/-- Nbtk `NbtkPadding`, in `ClutterUnit`s. -/
structure NbtkPadding where
  top : Int
  right : Int
  bottom : Int
  left : Int
deriving DecidableEq, Repr

/-- Clutter `ClutterActorBox`, in `ClutterUnit`s. -/
structure ClutterActorBox where
  x1 : Int
  y1 : Int
  x2 : Int
  y2 : Int
deriving DecidableEq, Repr

/-- The boxes `nbtk_scroll_bar_allocate` hands to `clutter_actor_allocate`: the
two steppers, the trough, and the handle when an adjustment is set. -/
structure Allocation where
  bw_box : ClutterActorBox
  fw_box : ClutterActorBox
  trough_box : ClutterActorBox
  handle_box : Option ClutterActorBox
deriving DecidableEq, Repr

/-- Lines 225-277 of `nbtk_scroll_bar_allocate`: the handle box for the
adjustment `adj`, the style values `min-size` and `max-size` (`guint`), and the
handle's current x position `handle_x` (its y is overwritten); the y of the
trough is the y it has just been allocated. -/
def handle_allocation (trough_box : ClutterActorBox) (adj : NbtkAdjustment)
    (min_size max_size : Nat) (handle_x : Int) : ClutterActorBox :=
  let lower := adj.lower
  let upper := adj.upper
  let page_size := adj.page_size
  let real_width := wrap32 (trough_box.x2 - trough_box.x1)
  let real_height := wrap32 (trough_box.y2 - trough_box.y1)
  let increment :=
    if upper = lower then CFX_ONE else clutter_qdivx page_size (wrap32 (upper - lower))
  let size := clutter_qmulx real_width increment
  let size := if size > real_width then real_width else size
  let min_sizeu := CLUTTER_UNITS_FROM_INT (min_size : Int)
  let max_sizeu := CLUTTER_UNITS_FROM_INT (max_size : Int)
  let x1 := if handle_x ≤ 0 then trough_box.x1 else handle_x
  let y1 := trough_box.y1
  { x1 := x1
    y1 := y1
    x2 := wrap32 (x1 + MIN max_sizeu (MAX min_sizeu size))
    y2 := wrap32 (y1 + real_height) }

/-- Body of `nbtk_scroll_bar_allocate` (lines 186-278): `width` and `height` are
`clutter_actor_get_widthu (actor)` and `clutter_actor_get_heightu (actor)` after
the chained-up allocation, `padding` the widget padding, `adjustment` the
values of `priv->adjustment` (`none` for NULL). -/
def nbtk_scroll_bar_allocate (width height : Int) (padding : NbtkPadding)
    (adjustment : Option NbtkAdjustment) (min_size max_size : Nat) (handle_x : Int) :
    Allocation :=
  let inner_height := wrap32 (wrap32 (height - padding.top) - padding.bottom)
  let bw_box : ClutterActorBox :=
    { x1 := padding.left
      y1 := padding.top
      x2 := wrap32 (padding.left + inner_height)
      y2 := wrap32 (padding.top + inner_height) }
  let fw_x1 := wrap32 (wrap32 (width - padding.right) - inner_height)
  let fw_box : ClutterActorBox :=
    { x1 := fw_x1
      y1 := padding.top
      x2 := wrap32 (fw_x1 + inner_height)
      y2 := wrap32 (padding.top + inner_height) }
  let trough_box : ClutterActorBox :=
    { x1 := bw_box.x2
      y1 := padding.top
      x2 := fw_box.x1
      y2 := wrap32 (padding.top + inner_height) }
  { bw_box := bw_box
    fw_box := fw_box
    trough_box := trough_box
    handle_box :=
      match adjustment with
      | none => none
      | some adj => some (handle_allocation trough_box adj min_size max_size handle_x) }

/-- What `move_slider` does with the adjustment. -/
inductive SliderAction where
  | nothing
  | nbtk_adjustment_set_valuex (position : Int)
  | nbtk_adjustment_interpolatex (position : Int) (n_frames fps : Nat)
deriving DecidableEq, Repr

/-- The clamped displacement `ux` of `move_slider` (lines 408-415): `ux` is the
pointer's x transformed into the trough's coordinates. -/
def displacement (ux trough_width handle_width x_origin : Int) : Int :=
  CLAMP (wrap32 (ux - x_origin)) 0 (wrap32 (trough_width - handle_width))

/-- Body of `move_slider` (lines 391-444).  `adjustment` holds the values of
`priv->adjustment` (`none` for NULL), `transformed` the result of
`clutter_actor_transform_stage_point` (`none` when it fails), `trough_width` and
`handle_width` the widths of the two actors, `mfreq` and `fps` the motion
event frequency and the default frame rate. -/
def move_slider (adjustment : Option NbtkAdjustment) (transformed : Option Int)
    (trough_width handle_width x_origin : Int) (interpolate : Bool) (mfreq fps : Nat) :
    SliderAction :=
  match adjustment with
  | none => SliderAction.nothing
  | some adj =>
    match transformed with
    | none => SliderAction.nothing
    | some ux =>
      let width := wrap32 (trough_width - handle_width)
      if width = 0 then SliderAction.nothing
      else
        let ux := displacement ux trough_width handle_width x_origin
        let position :=
          wrap32 (clutter_qmulx (clutter_qdivx ux width)
              (wrap32 (wrap32 (adj.upper - adj.lower) - adj.page_size))
            + adj.lower)
        if interpolate then
          SliderAction.nbtk_adjustment_interpolatex position (fps / mfreq) fps
        else SliderAction.nbtk_adjustment_set_valuex position

/-- The two callbacks the scroll bar connects to its adjustment. -/
inductive Handler where
  | adjustment_changed_cb
  | clutter_actor_queue_relayout
deriving DecidableEq, Repr

/-- A GObject signal connection: the emitting object, the detailed signal
name, the callback and its data (the bar). -/
structure Connection where
  object : Nat
  signal : String
  handler : Handler
  data : Nat
deriving DecidableEq, Repr

/-- The calls issued by `nbtk_scroll_bar_set_adjustment`, in program order. -/
inductive BarCall where
  | g_signal_handlers_disconnect_by_func (object : Nat) (handler : Handler) (data : Nat)
  | g_object_unref (object : Nat)
  | g_object_ref (object : Nat)
  | g_signal_connect_swapped (object : Nat) (signal : String) (handler : Handler) (data : Nat)
  | clutter_actor_queue_relayout (actor : Nat)
deriving DecidableEq, Repr

/-- The scroll bar object as `nbtk_scroll_bar_set_adjustment` sees it: its
address, the pointer `priv->adjustment` (0 for NULL), the refresh bookkeeping
of `BarState`, the signal connections whose data is the bar, and the number of
relayouts queued on the bar. -/
structure BarObject where
  bar : Nat
  adjustment : Nat
  state : BarState
  connections : List Connection
  relayouts : Nat
deriving DecidableEq, Repr

/-- GObject `g_signal_handlers_disconnect_by_func (object, func, data)`: every
connection of that object with that callback and data is dropped. -/
def g_signal_handlers_disconnect_by_func (connections : List Connection)
    (object : Nat) (handler : Handler) (data : Nat) : List Connection :=
  connections.filter
    (fun c => !(decide (c.object = object) && decide (c.handler = handler)
      && decide (c.data = data)))

/-- Body of `nbtk_scroll_bar_set_adjustment` (lines 614-648) for a valid bar.
Returns the bar and the calls issued. -/
def nbtk_scroll_bar_set_adjustment (s : BarObject) (adjustment : Nat) :
    BarObject × List BarCall :=
  let s1 : BarObject × List BarCall :=
    if s.adjustment ≠ 0 then
      ({ s with
          connections :=
            g_signal_handlers_disconnect_by_func
              (g_signal_handlers_disconnect_by_func s.connections s.adjustment
                Handler.clutter_actor_queue_relayout s.bar)
              s.adjustment Handler.adjustment_changed_cb s.bar
          adjustment := 0 },
        [ BarCall.g_signal_handlers_disconnect_by_func s.adjustment
            Handler.clutter_actor_queue_relayout s.bar,
          BarCall.g_signal_handlers_disconnect_by_func s.adjustment
            Handler.adjustment_changed_cb s.bar,
          BarCall.g_object_unref s.adjustment ])
    else (s, [])
  if adjustment ≠ 0 then
    ({ s1.1 with
        adjustment := adjustment
        connections := s1.1.connections ++
          [ { object := adjustment, signal := "notify::value",
              handler := Handler.adjustment_changed_cb, data := s.bar },
            { object := adjustment, signal := "changed",
              handler := Handler.clutter_actor_queue_relayout, data := s.bar } ]
        relayouts := s1.1.relayouts + 1 },
      s1.2 ++
        [ BarCall.g_object_ref adjustment,
          BarCall.g_signal_connect_swapped adjustment "notify::value"
            Handler.adjustment_changed_cb s.bar,
          BarCall.g_signal_connect_swapped adjustment "changed"
            Handler.clutter_actor_queue_relayout s.bar,
          BarCall.clutter_actor_queue_relayout s.bar ])
  else s1

/-- Body of `nbtk_scroll_bar_get_adjustment` (lines 650-656) for a valid bar. -/
def nbtk_scroll_bar_get_adjustment (s : BarObject) : Nat := s.adjustment

/-- One handler of the bar runs: `adjustment_changed_cb` (with the id
`g_idle_add_full` would return) or `clutter_actor_queue_relayout`. -/
def run_handler (id : Nat) (s : BarObject) (c : Connection) : BarObject :=
  match c.handler with
  | Handler.adjustment_changed_cb => { s with state := adjustment_changed_cb id s.state }
  | Handler.clutter_actor_queue_relayout => { s with relayouts := s.relayouts + 1 }

/-- Emission of the signal `signal` by `object`: the handlers connected to
that object and signal run in connection order. -/
def emit (s : BarObject) (object : Nat) (signal : String) (id : Nat) : BarObject :=
  (s.connections.filter (fun c => decide (c.object = object) && decide (c.signal = signal))).foldl
    (run_handler id) s

/-- A bar right after construction with `adjustment` NULL: nothing connected,
no refresh pending. -/
def newBar (bar : Nat) (adj : NbtkAdjustment) (trough handle : ClutterActor) : BarObject :=
  { bar := bar, adjustment := 0, state := initial adj trough handle, connections := [],
    relayouts := 0 }

/-- The bar after a sequence of `nbtk_scroll_bar_set_adjustment` calls. -/
def set_adjustments (s : BarObject) (adjustments : List Nat) : BarObject :=
  adjustments.foldl (fun t a => (nbtk_scroll_bar_set_adjustment t a).1) s

/-- The width `handle_box.x2 - handle_box.x1` of the allocated handle, a
`ClutterUnit` difference (0 when no handle is allocated). -/
def handle_width (a : Allocation) : Int :=
  match a.handle_box with
  | some box => wrap32 (box.x2 - box.x1)
  | none => 0

/-- The handle size property as stated: the allocated handle is at least
`min-size` pixels and at most `max-size` pixels wide (a pixel is 65536
units). -/
def handleSizeWithinStyle (a : Allocation) (min_size max_size : Nat) : Prop :=
  (min_size : Int) * 65536 ≤ handle_width a ∧ handle_width a ≤ (max_size : Int) * 65536

/-- The value is representable as a signed 32-bit integer. -/
def isInt32 (x : Int) : Prop := -2147483648 ≤ x ∧ x < 2147483648

instance (x : Int) : Decidable (isInt32 x) := by
  unfold isInt32
  infer_instance

/-- The point `(x, y)` lies in the box (far edges excluded). -/
def inBox (b : ClutterActorBox) (x y : Int) : Prop :=
  b.x1 ≤ x ∧ x < b.x2 ∧ b.y1 ≤ y ∧ y < b.y2

/-- None of the `ClutterUnit` sums and differences `nbtk_scroll_bar_allocate`
computes for the steppers and the trough leaves the signed 32-bit range. -/
def allocationFits (width height : Int) (padding : NbtkPadding) : Prop :=
  isInt32 (height - padding.top) ∧
  isInt32 (height - padding.top - padding.bottom) ∧
  isInt32 (padding.left + (height - padding.top - padding.bottom)) ∧
  isInt32 (padding.top + (height - padding.top - padding.bottom)) ∧
  isInt32 (width - padding.right) ∧
  isInt32 (width - padding.right - (height - padding.top - padding.bottom))

instance (width height : Int) (padding : NbtkPadding) :
    Decidable (allocationFits width height padding) := by
  unfold allocationFits
  infer_instance

/-- The geometry of the steppers and the trough as stated, with
inner = height - padding.top - padding.bottom: the backward stepper is the
square of side inner at (padding.left, padding.top), the forward stepper the
square of side inner whose right edge is at width - padding.right, the trough
runs from the one to the other with the same top and bottom, and the trough has
x1 <= x2 exactly when width - padding.left - padding.right >= 2 * inner. -/
def geometryAsStated (width height : Int) (padding : NbtkPadding) (a : Allocation) : Prop :=
  a.bw_box
    = { x1 := padding.left, y1 := padding.top,
        x2 := padding.left + (height - padding.top - padding.bottom),
        y2 := padding.top + (height - padding.top - padding.bottom) } ∧
  a.fw_box
    = { x1 := width - padding.right - (height - padding.top - padding.bottom),
        y1 := padding.top,
        x2 := width - padding.right,
        y2 := padding.top + (height - padding.top - padding.bottom) } ∧
  a.trough_box
    = { x1 := a.bw_box.x2, y1 := padding.top, x2 := a.fw_box.x1,
        y2 := padding.top + (height - padding.top - padding.bottom) } ∧
  (a.trough_box.x1 ≤ a.trough_box.x2
    ↔ width - padding.left - padding.right
        ≥ 2 * (height - padding.top - padding.bottom))

/-- A bar 32000 pixels wide and 20000 pixels high with a left padding of 20000
pixels (in units: 2097152000, 1310720000, 1310720000), without adjustment. -/
def sampleAllocationLarge : Allocation :=
  nbtk_scroll_bar_allocate 2097152000 1310720000
    { top := 0, right := 0, bottom := 0, left := 1310720000 } none 32 32767 0

/-- A sample allocation: a bar of 200 x 20 pixels without padding, the sample
adjustment, the default `min-size` 32 and a `max-size` of 10 pixels. -/
def sampleAllocation : Allocation :=
  nbtk_scroll_bar_allocate 13107200 1310720 { top := 0, right := 0, bottom := 0, left := 0 }
    (some sampleAdjustment) 32 10 0

/-- The same bar with the default style values `min-size` 32 and `max-size`
32767. -/
def sampleAllocationDefault : Allocation :=
  nbtk_scroll_bar_allocate 13107200 1310720 { top := 0, right := 0, bottom := 0, left := 0 }
    (some sampleAdjustment) 32 32767 0

end ScrollBar

namespace ScrollBar

/-- The two connections `nbtk_scroll_bar_set_adjustment` makes for the
adjustment `adjustment` and the bar `bar`. -/
def subscription (adjustment bar : Nat) : List Connection :=
  [ { object := adjustment, signal := "notify::value",
      handler := Handler.adjustment_changed_cb, data := bar },
    { object := adjustment, signal := "changed",
      handler := Handler.clutter_actor_queue_relayout, data := bar } ]

/-- The bar is connected to its current adjustment only: no connection when
`priv->adjustment` is NULL, the two connections of `subscription` otherwise. -/
def Connected (s : BarObject) : Prop :=
  s.connections = if s.adjustment = 0 then [] else subscription s.adjustment s.bar

/-- A sample bar at address 5 with no adjustment. -/
def sampleBar : BarObject := newBar 5 sampleAdjustment sampleTrough sampleHandle

end ScrollBar

/-! # Theorems -/

/-! ## Theorems: scroll bar -/

namespace ScrollBar

theorem refresh_clears (priv : NbtkScrollBarPrivate) :
    (nbtk_scroll_bar_refresh priv).1.refresh_source = 0 ∧
      (nbtk_scroll_bar_refresh priv).2.1 = false := by
  unfold nbtk_scroll_bar_refresh
  dsimp only
  split <;> exact ⟨rfl, rfl⟩

theorem notify_coalesced (s : BarState) (p : Nat × NbtkAdjustment)
    (h : Coalesced s) (hp : p.1 ≠ 0) :
    Coalesced (notify s p) ∧ (notify s p).priv.refresh_source ≠ 0 ∧
      (notify s p).refresh_calls = s.refresh_calls := by
  unfold Coalesced at h
  by_cases h0 : s.priv.refresh_source = 0
  · simp only [h0, if_true] at h
    simp [notify, adjustment_changed_cb, g_idle_add_full, Coalesced, h0, h, hp]
  · simp only [h0, if_false] at h
    simp [notify, adjustment_changed_cb, Coalesced, h0, h]

theorem idle_run_coalesced (s : BarState) (h : Coalesced s) :
    (idle_run s).idle_sources = [] ∧ (idle_run s).priv.refresh_source = 0 ∧
      (idle_run s).refresh_calls =
        s.refresh_calls + (if s.priv.refresh_source = 0 then 0 else 1) := by
  unfold Coalesced at h
  by_cases h0 : s.priv.refresh_source = 0
  · simp only [h0, if_true] at h
    simp [idle_run, h, h0]
  · simp only [h0, if_false] at h
    have hr := refresh_clears s.priv
    simp [idle_run, h, h0, dispatch_source, hr.1, hr.2]

theorem step_coalesced (s : BarState) (e : Event) (h : Coalesced s)
    (he : idsNonZero [e]) : Coalesced (step s e) := by
  cases e with
  | notify id adj => exact (notify_coalesced s (id, adj) h he.1).1
  | idle =>
    have hi := idle_run_coalesced s h
    simp [step, Coalesced, hi.1, hi.2.1]

theorem run_coalesced (evs : List Event) (s : BarState) (h : Coalesced s)
    (he : idsNonZero evs) : Coalesced (run s evs) := by
  induction evs generalizing s with
  | nil => exact h
  | cons e evs ih =>
    have hs : Coalesced (step s e) := by
      cases e with
      | notify id adj => exact step_coalesced s _ h ⟨he.1, trivial⟩
      | idle => exact step_coalesced s _ h trivial
    have he2 : idsNonZero evs := by
      cases e with
      | notify id adj => exact he.2
      | idle => exact he
    exact ih (step s e) hs he2

theorem notes_coalesced (notes : List (Nat × NbtkAdjustment)) (s : BarState)
    (h : Coalesced s) (hids : ∀ p ∈ notes, p.1 ≠ 0) :
    Coalesced (notes.foldl notify s) ∧
      (notes.foldl notify s).refresh_calls = s.refresh_calls ∧
      (notes ≠ [] → (notes.foldl notify s).priv.refresh_source ≠ 0) := by
  induction notes generalizing s with
  | nil => exact ⟨h, rfl, fun hn => absurd rfl hn⟩
  | cons p ps ih =>
    have hp := notify_coalesced s p h (hids p (List.mem_cons_self _ _))
    have hrest := ih (notify s p) hp.1 (fun q hq => hids q (List.mem_cons_of_mem _ hq))
    refine ⟨hrest.1, by rw [List.foldl_cons, hrest.2.1, hp.2.2], fun _ => ?_⟩
    by_cases hps : ps = []
    · subst hps
      exact hp.2.1
    · exact hrest.2.2 hps

theorem coalesced_pending (s : BarState) (h : Coalesced s) :
    s.idle_sources.length ≤ 1 ∧ (s.priv.refresh_source ≠ 0 ↔ s.idle_sources ≠ []) := by
  unfold Coalesced at h
  by_cases h0 : s.priv.refresh_source = 0
  · simp only [h0, if_true] at h
    simp [h, h0]
  · simp only [h0, if_false] at h
    simp [h, h0]

/-- C1: in every state reachable from a fresh bar by interleaving value
notifications and idle runs (source ids non-zero), at most one refresh source is
attached and `refresh_source` is non-zero exactly when one is attached; after
an idle run, any non-empty batch of notifications leaves exactly one source
attached and the next idle run calls `nbtk_scroll_bar_refresh` exactly once,
after which nothing is pending; the refresh clears `refresh_source` and returns
`FALSE` on both of its paths. -/
theorem refresh_coalescing (adj : NbtkAdjustment) (trough handle : ClutterActor)
    (evs : List Event) (notes : List (Nat × NbtkAdjustment))
    (hevs : idsNonZero evs) (hne : notes ≠ []) (hids : ∀ p ∈ notes, p.1 ≠ 0) :
    ((run (initial adj trough handle) evs).idle_sources.length ≤ 1 ∧
      ((run (initial adj trough handle) evs).priv.refresh_source ≠ 0 ↔
        (run (initial adj trough handle) evs).idle_sources ≠ [])) ∧
    ((notes.foldl notify (idle_run (run (initial adj trough handle) evs))).idle_sources.length
        = 1 ∧
      (idle_run (notes.foldl notify
          (idle_run (run (initial adj trough handle) evs)))).refresh_calls =
        (idle_run (run (initial adj trough handle) evs)).refresh_calls + 1 ∧
      (idle_run (notes.foldl notify
          (idle_run (run (initial adj trough handle) evs)))).priv.refresh_source = 0 ∧
      (idle_run (notes.foldl notify
          (idle_run (run (initial adj trough handle) evs)))).idle_sources = []) ∧
    (∀ priv : NbtkScrollBarPrivate,
      (nbtk_scroll_bar_refresh priv).1.refresh_source = 0 ∧
        (nbtk_scroll_bar_refresh priv).2.1 = false) := by
  have hinit : Coalesced (initial adj trough handle) := by simp [Coalesced, initial]
  have hs := run_coalesced evs _ hinit hevs
  have h1 := idle_run_coalesced _ hs
  have hs1 : Coalesced (idle_run (run (initial adj trough handle) evs)) := by
    simp [Coalesced, h1.1, h1.2.1]
  have h2 := notes_coalesced notes _ hs1 hids
  have h3 := idle_run_coalesced _ h2.1
  have hnz := h2.2.2 hne
  refine ⟨coalesced_pending _ hs, ⟨?_, ?_, h3.2.1, h3.1⟩, refresh_clears⟩
  · have hc := h2.1
    unfold Coalesced at hc
    rw [hc, if_neg hnz]
    rfl
  · rw [h3.2.2, if_neg hnz, h2.2.1]

/-- Witness for C1 at a sample history followed by a batch of three
notifications: the hypotheses hold there and exactly one refresh is run. -/
theorem refresh_coalescing_witness :
    idsNonZero sampleEvents ∧ sampleNotes ≠ [] ∧
    (idle_run (sampleNotes.foldl notify
        (idle_run (run (initial sampleAdjustment sampleTrough sampleHandle)
          sampleEvents)))).refresh_calls =
      (idle_run (run (initial sampleAdjustment sampleTrough sampleHandle)
          sampleEvents)).refresh_calls + 1 :=
  ⟨⟨by decide, by decide, by decide, trivial⟩, by decide,
    (refresh_coalescing sampleAdjustment sampleTrough sampleHandle sampleEvents sampleNotes
      ⟨by decide, by decide, by decide, trivial⟩ (by decide)
      (by decide)).2.1.2.1⟩

end ScrollBar

/-! ## Theorems: clipboard -/

namespace Clipboard

theorem strlen_g_strdup (t : List Nat) : strlen (g_strdup t) = strlen t := by
  unfold strlen g_strdup
  induction t with
  | nil => rfl
  | cons b bs ih =>
    by_cases hb : (b != 0) = true
    · simp [List.takeWhile_cons, hb, ih]
    · simp [List.takeWhile_cons, hb]

theorem take_strlen_g_strdup (t : List Nat) : (g_strdup t).take (strlen t) = g_strdup t := by
  unfold strlen g_strdup
  exact List.take_length _

/-- C10: after `mx_clipboard_set_text (clipboard, t)` with `t` non-NULL (also
when a rejected NULL call follows), every `SelectionRequest` whose target is not
TARGETS is answered by one `XChangeProperty` on the requestor's property with
type = the requested target, format 8, the copy of `t` as data and `strlen t`
elements (which is all of the copy), followed by one `SelectionNotify` sent to
the requestor, and the provider returns `CLUTTER_X11_FILTER_REMOVE`. -/
theorem set_text_provider_round_trip (st : Statics) (dpy : Nat) (priv : MxClipboardPrivate)
    (t : List Nat) (xev : XEvent)
    (htype : xev.type = SelectionRequest)
    (htarget : xev.xselectionrequest.target ≠ st.atom_targets) :
    mx_clipboard_provider st dpy xev (mx_clipboard_set_text st dpy priv (some t)).1 =
      (ClutterX11FilterReturn.CLUTTER_X11_FILTER_REMOVE,
        [ XCall.clutter_x11_trap_x_errors,
          XCall.XChangeProperty xev.xselectionrequest.display xev.xselectionrequest.requestor
            xev.xselectionrequest.property xev.xselectionrequest.target 8 PropModeReplace
            (g_strdup t) (strlen t),
          XCall.XSendEvent xev.xselectionrequest.display xev.xselectionrequest.requestor
            false 0 (notify_event xev.xselectionrequest),
          XCall.XSync dpy false,
          XCall.clutter_x11_untrap_x_errors ]) ∧
    (g_strdup t).take (strlen t) = g_strdup t ∧
    ((∀ b ∈ t, b ≠ 0) → g_strdup t = t) ∧
    (mx_clipboard_set_text st dpy (mx_clipboard_set_text st dpy priv (some t)).1 none).1 =
      (mx_clipboard_set_text st dpy priv (some t)).1 := by
  refine ⟨?_, take_strlen_g_strdup t, ?_, rfl⟩
  · simp [mx_clipboard_provider, mx_clipboard_set_text, htype, htarget, provider_tail,
      strlen_g_strdup]
  · intro h
    unfold g_strdup
    rw [List.takeWhile_eq_self_iff]
    intro b hb
    simpa using h b hb

/-- Witness for C10: the text "hi" set over an older text and a UTF8_STRING
request; two bytes 104, 105 are written to property 555. -/
theorem set_text_provider_round_trip_witness :
    sampleRequest.type = SelectionRequest ∧
    sampleRequest.xselectionrequest.target ≠ sampleStatics.atom_targets ∧
    mx_clipboard_provider sampleStatics 1 sampleRequest
        (mx_clipboard_set_text sampleStatics 1 sampleClipboard (some [104, 105])).1 =
      (ClutterX11FilterReturn.CLUTTER_X11_FILTER_REMOVE,
        [ XCall.clutter_x11_trap_x_errors,
          XCall.XChangeProperty 1 9 555 301 8 0 [104, 105] 2,
          XCall.XSendEvent 1 9 false 0
            { type := 31, display := 1, requestor := 9, selection := 300, target := 301,
              property := 555, time := 1234 },
          XCall.XSync 1 false,
          XCall.clutter_x11_untrap_x_errors ]) :=
  ⟨by decide, by decide,
    (set_text_provider_round_trip sampleStatics 1 sampleClipboard [104, 105] sampleRequest
      (by decide) (by decide)).1⟩

end Clipboard

/-! ## Theorems: grid track sizing -/

namespace Grid

theorem sum_indicator (l : List Nat) (hl : l.Nodup) (p : Nat → Bool) (q r : Int) (a : Nat) :
    (l.map (fun i => if p i = true then q + (if a = i then r else 0) else 0)).sum
      = q * ((l.filter p).length : Int) + (if a ∈ l.filter p then r else 0) := by
  induction l with
  | nil => simp
  | cons x xs ih =>
    have hx : x ∉ xs := (List.nodup_cons.mp hl).1
    have ih' := ih (List.nodup_cons.mp hl).2
    rw [List.map_cons, List.sum_cons, ih']
    by_cases hp : p x = true
    · by_cases ha : a = x
      · subst ha
        have hnot : a ∉ List.filter p xs := fun hm => hx (List.mem_of_mem_filter hm)
        simp [hp, List.filter_cons, hnot]
        ring
      · have hiff : (a ∈ List.filter p (x :: xs)) ↔ a ∈ List.filter p xs := by
          simp [List.filter_cons, hp, ha]
        have hlen : (List.filter p (x :: xs)).length = (List.filter p xs).length + 1 := by
          simp [List.filter_cons, hp]
        rw [if_congr hiff rfl rfl, hlen]
        simp only [hp, if_true, ha, if_false]
        push_cast
        ring
    · have hiff : (a ∈ List.filter p (x :: xs)) ↔ a ∈ List.filter p xs := by
        simp [List.filter_cons, hp]
      have hlen : (List.filter p (x :: xs)).length = (List.filter p xs).length := by
        simp [List.filter_cons, hp]
      rw [if_congr hiff rfl rfl, hlen]
      simp [hp]

theorem expandableTracks_mem (items : List AxisItem) (i : Nat) :
    i ∈ expandableTracks items ↔ i < trackCount items ∧ trackExpandable items i = true := by
  simp [expandableTracks, List.mem_filter]

theorem share_sum (items : List AxisItem) (spacing size : Int)
    (h : expandableTracks items ≠ []) :
    ((List.range (trackCount items)).map (share items spacing size)).sum
      = freeSpace items spacing size := by
  have hlast : (expandableTracks items).getLast? = some ((expandableTracks items).getLast h) :=
    List.getLast?_eq_getLast _ h
  have hmem : (expandableTracks items).getLast h ∈ expandableTracks items :=
    List.getLast_mem h
  have hk : (expandableTracks items).length ≠ 0 := by
    intro h0
    exact h (List.length_eq_zero.mp h0)
  have hfun : share items spacing size =
      (fun i => if trackExpandable items i = true then
          freeSpace items spacing size / ((expandableTracks items).length : Int)
            + (if (expandableTracks items).getLast h = i then
                freeSpace items spacing size % ((expandableTracks items).length : Int)
               else 0)
        else 0) := by
    funext i
    unfold share
    rw [if_neg hk, hlast]
    simp only [Option.some.injEq]
  rw [hfun, sum_indicator _ (List.nodup_range _)]
  have hmem' : (expandableTracks items).getLast h ∈
      List.filter (trackExpandable items) (List.range (trackCount items)) := hmem
  rw [if_pos hmem']
  have := Int.ediv_add_emod' (freeSpace items spacing size)
    ((expandableTracks items).length : Int)
  unfold expandableTracks at this ⊢
  linarith

theorem trackSizing_length (items : List AxisItem) (spacing size : Int) :
    (trackSizing items spacing size).length = trackCount items := by
  simp [trackSizing]

theorem trackSizing_sum (items : List AxisItem) (spacing size : Int) :
    ((trackSizing items spacing size).map Track.allocatedSize).sum
      = ((List.range (trackCount items)).map (trackNatural items)).sum
        + ((List.range (trackCount items)).map (share items spacing size)).sum := by
  unfold trackSizing
  rw [List.map_map, ← List.sum_map_add]
  rfl

theorem sizeAt_trackSizing (items : List AxisItem) (spacing size : Int) (i : Nat)
    (hi : i < trackCount items) :
    sizeAt (trackSizing items spacing size) i
      = trackNatural items i + share items spacing size i := by
  simp [sizeAt, trackSizing, List.get?_eq_getElem?, hi]

theorem axisTracks_onAllocate (naturalSize : Nat → Int × Int) (g : GridContainer)
    (boxWidth boxHeight : Int) (axis : Axis) :
    axisTracks axis (onAllocate naturalSize g boxWidth boxHeight).1
      = trackSizing (axisItems naturalSize axis g) (axisSpacing axis g)
          (contentSize axis g boxWidth boxHeight) := by
  cases axis <;> rfl

/-- C2: on either axis of any grid, when the free space is positive and some
track of the axis is expandable, the allocated sizes of the tracks stored by
the layout pass plus `(trackCount - 1) * spacing` add up to the content size
exactly; each expandable track gets the quotient of the free space by the
number of expandable tracks, the last expandable track gets the remainder on
top, and the other tracks keep their natural size. -/
theorem track_sizing_sum (naturalSize : Nat → Int × Int) (g : GridContainer)
    (boxWidth boxHeight : Int) (axis : Axis)
    (hfree : 0 < freeSpace (axisItems naturalSize axis g) (axisSpacing axis g)
      (contentSize axis g boxWidth boxHeight))
    (hexp : ∃ i, i < trackCount (axisItems naturalSize axis g) ∧
      trackExpandable (axisItems naturalSize axis g) i = true) :
    (((axisTracks axis (onAllocate naturalSize g boxWidth boxHeight).1).map
        Track.allocatedSize).sum
      + (((axisTracks axis (onAllocate naturalSize g boxWidth boxHeight).1).length - 1 : Nat)
          : Int) * axisSpacing axis g
      = contentSize axis g boxWidth boxHeight) ∧
    (∃ last, (expandableTracks (axisItems naturalSize axis g)).getLast? = some last ∧
      ∀ i, i < trackCount (axisItems naturalSize axis g) →
        sizeAt (axisTracks axis (onAllocate naturalSize g boxWidth boxHeight).1) i
          = trackNatural (axisItems naturalSize axis g) i
            + (if trackExpandable (axisItems naturalSize axis g) i = true then
                freeSpace (axisItems naturalSize axis g) (axisSpacing axis g)
                    (contentSize axis g boxWidth boxHeight)
                  / ((expandableTracks (axisItems naturalSize axis g)).length : Int)
                + (if i = last then
                    freeSpace (axisItems naturalSize axis g) (axisSpacing axis g)
                        (contentSize axis g boxWidth boxHeight)
                      % ((expandableTracks (axisItems naturalSize axis g)).length : Int)
                   else 0)
               else 0)) := by
  obtain ⟨i0, hi0, hp0⟩ := hexp
  have hne : expandableTracks (axisItems naturalSize axis g) ≠ [] := by
    intro h
    have hm := (expandableTracks_mem _ i0).mpr ⟨hi0, hp0⟩
    rw [h] at hm
    exact List.not_mem_nil _ hm
  have hk : (expandableTracks (axisItems naturalSize axis g)).length ≠ 0 := by
    intro h0
    exact hne (List.length_eq_zero.mp h0)
  rw [axisTracks_onAllocate]
  constructor
  · rw [trackSizing_sum, share_sum _ _ _ hne, trackSizing_length]
    have hF : freeSpace (axisItems naturalSize axis g) (axisSpacing axis g)
        (contentSize axis g boxWidth boxHeight)
        = contentSize axis g boxWidth boxHeight
          - totalNatural (axisItems naturalSize axis g) (axisSpacing axis g) := by
      unfold freeSpace at hfree ⊢
      omega
    rw [hF]
    unfold totalNatural
    ring
  · refine ⟨(expandableTracks (axisItems naturalSize axis g)).getLast hne,
      List.getLast?_eq_getLast _ hne, ?_⟩
    intro i hi
    rw [sizeAt_trackSizing _ _ _ _ hi]
    unfold share
    rw [if_neg hk, List.getLast?_eq_getLast _ hne]
    simp only [Option.some.injEq, eq_comm]

theorem buildTestTable_eq : buildTestTable testPadding = Except.ok testTable := by
  rfl

/-- Witness for C2: the rows of the test table in a 300 x 300 box (content
height 290, six rows, spacing 10). -/
theorem track_sizing_sum_witness :
    0 < freeSpace (axisItems (testNatural (0, 0) (0, 0) (0, 0)) Axis.vertical testTable)
      (axisSpacing Axis.vertical testTable) (contentSize Axis.vertical testTable 300 300) ∧
    ((axisTracks Axis.vertical
        (onAllocate (testNatural (0, 0) (0, 0) (0, 0)) testTable 300 300).1).map
        Track.allocatedSize).sum
      + (((axisTracks Axis.vertical
            (onAllocate (testNatural (0, 0) (0, 0) (0, 0)) testTable 300 300).1).length - 1 : Nat)
          : Int) * axisSpacing Axis.vertical testTable
      = contentSize Axis.vertical testTable 300 300 :=
  ⟨by decide,
    (track_sizing_sum (testNatural (0, 0) (0, 0) (0, 0)) testTable 300 300 Axis.vertical
      (by decide) ⟨0, by decide, by decide⟩).1⟩

end Grid

/-! ## Theorems: grid box allocation -/

namespace Grid

theorem trackOffset_succ (tracks : List Track) (spacing padStart : Int) (i : Nat) :
    trackOffset tracks spacing padStart (i + 1)
      = trackOffset tracks spacing padStart i + sizeAt tracks i + spacing := by
  unfold trackOffset
  rw [List.range_succ, List.map_append, List.sum_append]
  simp
  ring

theorem spanSize_two (tracks : List Track) (spacing : Int) (i : Nat) :
    spanSize tracks spacing i 2 = sizeAt tracks i + spacing + sizeAt tracks (i + 1) := by
  unfold spanSize
  simp [List.range_succ]
  ring

theorem spanSize_one (tracks : List Track) (spacing : Int) (i : Nat) :
    spanSize tracks spacing i 1 = sizeAt tracks i := by
  unfold spanSize
  simp [List.range_succ]

theorem childRect_fill_x (naturalSize : Nat → Int × Int) (g : GridContainer) (e : ChildEntry)
    (hk : e.keepAspectRatio = false) (hf : e.xFill = true) :
    (childRect naturalSize g e).x = ((cellStart Axis.horizontal g e.col : Int) : ℚ) ∧
    (childRect naturalSize g e).width
      = ((cellSize Axis.horizontal g e.col e.colSpan : Int) : ℚ) := by
  simp [childRect, placeChild, placeAxis, hk, hf]

theorem childRect_fill_y (naturalSize : Nat → Int × Int) (g : GridContainer) (e : ChildEntry)
    (hk : e.keepAspectRatio = false) (hf : e.yFill = true) :
    (childRect naturalSize g e).y = ((cellStart Axis.vertical g e.row : Int) : ℚ) ∧
    (childRect naturalSize g e).height
      = ((cellSize Axis.vertical g e.row e.rowSpan : Int) : ℚ) := by
  simp [childRect, placeChild, placeAxis, hk, hf]

/-- C3 (as stated) fails: in `spanSample` the child spans rows 0 and 1 (45 each,
gap 10) but, not filling its cell and being 10 high by nature, it is allocated
height 10 at y = 45, not height 100 at y = 0. -/
theorem spanning_rect_counterexample :
    ¬ (∀ e ∈ spanSample.children, e.rowSpan = 2 →
        (childRect (fun _ => (10, 10)) (onAllocate (fun _ => (10, 10)) spanSample 100 100).1 e).y
          = ((cellStart Axis.vertical
              (onAllocate (fun _ => (10, 10)) spanSample 100 100).1 e.row : Int) : ℚ) ∧
        (childRect (fun _ => (10, 10)) (onAllocate (fun _ => (10, 10)) spanSample 100 100).1
            e).height
          = ((sizeAt (onAllocate (fun _ => (10, 10)) spanSample 100 100).1.rows e.row
              + spanSample.rowSpacing
              + sizeAt (onAllocate (fun _ => (10, 10)) spanSample 100 100).1.rows (e.row + 1)
              : Int) : ℚ)) := by
  intro h
  have h7 := (h { child := 7, row := 0, col := 0, rowSpan := 2, colSpan := 2,
                  xFill := false, yFill := false } (by simp [spanSample]) rfl).2
  have hs : cellSize Axis.vertical (onAllocate (fun _ => (10, 10)) spanSample 100 100).1 0 2
      = 100 := by decide
  have h0 : sizeAt (onAllocate (fun _ => (10, 10)) spanSample 100 100).1.rows 0 = 45 := by
    decide
  have h1 : sizeAt (onAllocate (fun _ => (10, 10)) spanSample 100 100).1.rows (0 + 1) = 45 := by
    decide
  have hsp : spanSample.rowSpacing = 10 := rfl
  simp only [childRect, placeChild, placeAxis] at h7
  rw [hs, h0, h1, hsp] at h7
  norm_num at h7

/-- C3 (amended): for every child that does not keep its aspect ratio, if it
spans two rows from row r and fills vertically, its rectangle starts at the
start offset of row r, has height h(r) + rowSpacing + h(r+1), and ends where row
r+1 ends; symmetrically for a child spanning two columns that fills
horizontally. -/
theorem spanning_fill_rect_union (naturalSize : Nat → Int × Int) (g : GridContainer)
    (boxWidth boxHeight : Int) (e : ChildEntry) (hk : e.keepAspectRatio = false) :
    (e.rowSpan = 2 → e.yFill = true →
      (childRect naturalSize (onAllocate naturalSize g boxWidth boxHeight).1 e).y
        = ((trackOffset (onAllocate naturalSize g boxWidth boxHeight).1.rows g.rowSpacing
              g.padding.top e.row : Int) : ℚ) ∧
      (childRect naturalSize (onAllocate naturalSize g boxWidth boxHeight).1 e).height
        = ((sizeAt (onAllocate naturalSize g boxWidth boxHeight).1.rows e.row
            + g.rowSpacing
            + sizeAt (onAllocate naturalSize g boxWidth boxHeight).1.rows (e.row + 1)
            : Int) : ℚ) ∧
      (childRect naturalSize (onAllocate naturalSize g boxWidth boxHeight).1 e).y
          + (childRect naturalSize (onAllocate naturalSize g boxWidth boxHeight).1 e).height
        = ((trackOffset (onAllocate naturalSize g boxWidth boxHeight).1.rows g.rowSpacing
              g.padding.top (e.row + 1)
            + sizeAt (onAllocate naturalSize g boxWidth boxHeight).1.rows (e.row + 1)
            : Int) : ℚ)) ∧
    (e.colSpan = 2 → e.xFill = true →
      (childRect naturalSize (onAllocate naturalSize g boxWidth boxHeight).1 e).x
        = ((trackOffset (onAllocate naturalSize g boxWidth boxHeight).1.columns g.colSpacing
              g.padding.left e.col : Int) : ℚ) ∧
      (childRect naturalSize (onAllocate naturalSize g boxWidth boxHeight).1 e).width
        = ((sizeAt (onAllocate naturalSize g boxWidth boxHeight).1.columns e.col
            + g.colSpacing
            + sizeAt (onAllocate naturalSize g boxWidth boxHeight).1.columns (e.col + 1)
            : Int) : ℚ) ∧
      (childRect naturalSize (onAllocate naturalSize g boxWidth boxHeight).1 e).x
          + (childRect naturalSize (onAllocate naturalSize g boxWidth boxHeight).1 e).width
        = ((trackOffset (onAllocate naturalSize g boxWidth boxHeight).1.columns g.colSpacing
              g.padding.left (e.col + 1)
            + sizeAt (onAllocate naturalSize g boxWidth boxHeight).1.columns (e.col + 1)
            : Int) : ℚ)) := by
  constructor
  · intro hspan hfill
    have hr := childRect_fill_y naturalSize (onAllocate naturalSize g boxWidth boxHeight).1 e
      hk hfill
    rw [hr.1, hr.2, hspan]
    have hsz : cellSize Axis.vertical (onAllocate naturalSize g boxWidth boxHeight).1 e.row 2
        = sizeAt (onAllocate naturalSize g boxWidth boxHeight).1.rows e.row + g.rowSpacing
          + sizeAt (onAllocate naturalSize g boxWidth boxHeight).1.rows (e.row + 1) :=
      spanSize_two _ _ _
    have hst : cellStart Axis.vertical (onAllocate naturalSize g boxWidth boxHeight).1 e.row
        = trackOffset (onAllocate naturalSize g boxWidth boxHeight).1.rows g.rowSpacing
            g.padding.top e.row := rfl
    rw [hsz, hst, trackOffset_succ]
    refine ⟨rfl, rfl, ?_⟩
    push_cast
    ring
  · intro hspan hfill
    have hr := childRect_fill_x naturalSize (onAllocate naturalSize g boxWidth boxHeight).1 e
      hk hfill
    rw [hr.1, hr.2, hspan]
    have hsz : cellSize Axis.horizontal (onAllocate naturalSize g boxWidth boxHeight).1 e.col 2
        = sizeAt (onAllocate naturalSize g boxWidth boxHeight).1.columns e.col + g.colSpacing
          + sizeAt (onAllocate naturalSize g boxWidth boxHeight).1.columns (e.col + 1) :=
      spanSize_two _ _ _
    have hst : cellStart Axis.horizontal (onAllocate naturalSize g boxWidth boxHeight).1 e.col
        = trackOffset (onAllocate naturalSize g boxWidth boxHeight).1.columns g.colSpacing
            g.padding.left e.col := rfl
    rw [hsz, hst, trackOffset_succ]
    refine ⟨rfl, rfl, ?_⟩
    push_cast
    ring

/-- Witness for C3 (amended): the filling child of `spanFillSample` spans rows 0
and 1 (45 + 10 + 45) and is allocated height 100. -/
theorem spanning_fill_rect_union_witness :
    (childRect (fun _ => (10, 10)) (onAllocate (fun _ => (10, 10)) spanFillSample 100 100).1
        { child := 7, row := 0, col := 0, rowSpan := 2, colSpan := 2 }).height
      = ((sizeAt (onAllocate (fun _ => (10, 10)) spanFillSample 100 100).1.rows 0
          + 10
          + sizeAt (onAllocate (fun _ => (10, 10)) spanFillSample 100 100).1.rows (0 + 1)
          : Int) : ℚ) ∧
    sizeAt (onAllocate (fun _ => (10, 10)) spanFillSample 100 100).1.rows 0 + 10
      + sizeAt (onAllocate (fun _ => (10, 10)) spanFillSample 100 100).1.rows (0 + 1) = 100 :=
  ⟨((spanning_fill_rect_union (fun _ => (10, 10)) spanFillSample 100 100
      { child := 7, row := 0, col := 0, rowSpan := 2, colSpan := 2 } rfl).1 rfl rfl).2.1,
    by decide⟩

theorem aspectScale_40_20 : aspectScale 40 20 100 100 = 5 / 2 := by
  unfold aspectScale
  norm_num

theorem placeChild_aspect_40_20 (e : ChildEntry) (cellX cellY : Int)
    (hk : e.keepAspectRatio = true) (hx : e.xAlign = 1 / 2) (hy : e.yAlign = 1 / 2) :
    placeChild e (40, 20) cellX cellY 100 100
      = { x := (cellX : ℚ) + 0, y := (cellY : ℚ) + 25, width := 100, height := 50 } := by
  simp only [placeChild, hk, if_true, aspectScale_40_20, hx, hy]
  norm_num

theorem aspectSample_layout :
    (onAllocate (fun _ => (40, 20)) aspectSample 100 100).2
      = [(1, { x := 0, y := 25, width := 100, height := 50 })] := by
  have hx : cellStart Axis.horizontal (onAllocate (fun _ => (40, 20)) aspectSample 100 100).1 0
      = 0 := by decide
  have hy : cellStart Axis.vertical (onAllocate (fun _ => (40, 20)) aspectSample 100 100).1 0
      = 0 := by decide
  have hw : cellSize Axis.horizontal (onAllocate (fun _ => (40, 20)) aspectSample 100 100).1
      0 1 = 100 := by decide
  have hh : cellSize Axis.vertical (onAllocate (fun _ => (40, 20)) aspectSample 100 100).1
      0 1 = 100 := by decide
  have hl : (onAllocate (fun _ => (40, 20)) aspectSample 100 100).2
      = [(1, childRect (fun _ => (40, 20))
          (onAllocate (fun _ => (40, 20)) aspectSample 100 100).1
          { child := 1, row := 0, col := 0, keepAspectRatio := true })] := rfl
  rw [hl]
  unfold childRect
  simp only []
  rw [hx, hy, hw, hh, placeChild_aspect_40_20 _ 0 0 rfl rfl rfl]
  norm_num

/-- C4: the uniform scale for natural size (40, 20) in a 100 x 100 cell is 5/2;
the single child of `aspectSample`, of that natural size in a 100 x 100 cell
with both alignments 1/2, is allocated (x, y, width, height) =
(0, 25, 100, 50); at any cell position a 100 x 100 cell gives offset (0, 25) and
size (100, 50); and in general a child that keeps its aspect ratio gets
`natural * min (cellWidth / naturalWidth, cellHeight / naturalHeight)` on both
axes, placed by its alignment, whatever its fill flags are. -/
theorem aspect_ratio_fit :
    (aspectScale 40 20 100 100 = 5 / 2 ∧
      cellSize Axis.horizontal (onAllocate (fun _ => (40, 20)) aspectSample 100 100).1 0 1 = 100 ∧
      cellSize Axis.vertical (onAllocate (fun _ => (40, 20)) aspectSample 100 100).1 0 1 = 100 ∧
      (onAllocate (fun _ => (40, 20)) aspectSample 100 100).2
        = [(1, { x := 0, y := 25, width := 100, height := 50 })]) ∧
    (∀ (e : ChildEntry) (cellX cellY : Int), e.keepAspectRatio = true →
      e.xAlign = 1 / 2 → e.yAlign = 1 / 2 →
      placeChild e (40, 20) cellX cellY 100 100
        = { x := (cellX : ℚ) + 0, y := (cellY : ℚ) + 25, width := 100, height := 50 }) ∧
    (∀ (naturalSize : Nat → Int × Int) (g : GridContainer) (e : ChildEntry),
      e.keepAspectRatio = true →
      (childRect naturalSize g e).width
        = ((naturalSize e.child).1 : ℚ) *
          min (((cellSize Axis.horizontal g e.col e.colSpan : Int) : ℚ)
                / ((naturalSize e.child).1 : ℚ))
              (((cellSize Axis.vertical g e.row e.rowSpan : Int) : ℚ)
                / ((naturalSize e.child).2 : ℚ)) ∧
      (childRect naturalSize g e).height
        = ((naturalSize e.child).2 : ℚ) *
          min (((cellSize Axis.horizontal g e.col e.colSpan : Int) : ℚ)
                / ((naturalSize e.child).1 : ℚ))
              (((cellSize Axis.vertical g e.row e.rowSpan : Int) : ℚ)
                / ((naturalSize e.child).2 : ℚ)) ∧
      (childRect naturalSize g e).x
        = ((cellStart Axis.horizontal g e.col : Int) : ℚ)
          + e.xAlign * (((cellSize Axis.horizontal g e.col e.colSpan : Int) : ℚ)
              - (childRect naturalSize g e).width) ∧
      (childRect naturalSize g e).y
        = ((cellStart Axis.vertical g e.row : Int) : ℚ)
          + e.yAlign * (((cellSize Axis.vertical g e.row e.rowSpan : Int) : ℚ)
              - (childRect naturalSize g e).height) ∧
      (∀ xFill yFill : Bool,
        childRect naturalSize g { e with xFill := xFill, yFill := yFill }
          = childRect naturalSize g e)) := by
  refine ⟨⟨aspectScale_40_20, by decide, by decide, aspectSample_layout⟩,
    placeChild_aspect_40_20, ?_⟩
  intro naturalSize g e hk
  refine ⟨?_, ?_, ?_, ?_, ?_⟩
  · simp [childRect, placeChild, hk, aspectScale]
  · simp [childRect, placeChild, hk, aspectScale]
  · simp [childRect, placeChild, hk, aspectScale]
  · simp [childRect, placeChild, hk, aspectScale]
  · intro xFill yFill
    simp [childRect, placeChild, hk]

/-- Witness for C4: the general formula applied to the child of `aspectSample`
gives width 40 * min (100 / 40, 100 / 20). -/
theorem aspect_ratio_fit_witness :
    (childRect (fun _ => (40, 20)) (onAllocate (fun _ => (40, 20)) aspectSample 100 100).1
        { child := 1, row := 0, col := 0, keepAspectRatio := true }).width
      = (((40 : Int) : ℚ)) *
          min (((cellSize Axis.horizontal
                  (onAllocate (fun _ => (40, 20)) aspectSample 100 100).1 0 1 : Int) : ℚ)
                / ((40 : Int) : ℚ))
              (((cellSize Axis.vertical
                  (onAllocate (fun _ => (40, 20)) aspectSample 100 100).1 0 1 : Int) : ℚ)
                / ((20 : Int) : ℚ)) :=
  (aspect_ratio_fit.2.2 (fun _ => (40, 20))
    (onAllocate (fun _ => (40, 20)) aspectSample 100 100).1
    { child := 1, row := 0, col := 0, keepAspectRatio := true } rfl).1

theorem placeAxis_nofill (align : ℚ) (natural cellStart cellSize : Int)
    (h0 : 0 ≤ align) (h1 : align ≤ 1) :
    (placeAxis false align natural cellStart cellSize).2
        = min (natural : ℚ) (cellSize : ℚ) ∧
    (placeAxis false align natural cellStart cellSize).1
        = (cellStart : ℚ) + align * ((cellSize : ℚ)
            - (placeAxis false align natural cellStart cellSize).2) ∧
    (cellStart : ℚ) ≤ (placeAxis false align natural cellStart cellSize).1 ∧
    (placeAxis false align natural cellStart cellSize).1
        + (placeAxis false align natural cellStart cellSize).2
      ≤ (cellStart : ℚ) + (cellSize : ℚ) := by
  have hmin : ((min natural cellSize : Int) : ℚ) ≤ (cellSize : ℚ) := by
    exact_mod_cast min_le_right natural cellSize
  have hnn : 0 ≤ (cellSize : ℚ) - ((min natural cellSize : Int) : ℚ) := by linarith
  have hmul : align * ((cellSize : ℚ) - ((min natural cellSize : Int) : ℚ))
      ≤ (cellSize : ℚ) - ((min natural cellSize : Int) : ℚ) := by
    calc align * ((cellSize : ℚ) - ((min natural cellSize : Int) : ℚ))
        ≤ 1 * ((cellSize : ℚ) - ((min natural cellSize : Int) : ℚ)) :=
          mul_le_mul_of_nonneg_right h1 hnn
      _ = (cellSize : ℚ) - ((min natural cellSize : Int) : ℚ) := one_mul _
  have hpos : 0 ≤ align * ((cellSize : ℚ) - ((min natural cellSize : Int) : ℚ)) :=
    mul_nonneg h0 hnn
  simp only [placeAxis, Bool.false_eq_true, if_false]
  refine ⟨Int.cast_min, trivial, ?_, ?_⟩
  · linarith
  · linarith

/-- C8: for every child that does not keep its aspect ratio and whose
alignments lie in [0,1]: on an axis where fill is false its size is
min (natural size, cell size), its position is
cellStart + align * (cellSize - childSize), and it lies inside its cell; on an
axis where fill is true its extent is the cell's extent. -/
theorem non_fill_placement (naturalSize : Nat → Int × Int) (g : GridContainer)
    (e : ChildEntry) (hk : e.keepAspectRatio = false)
    (hx0 : 0 ≤ e.xAlign) (hx1 : e.xAlign ≤ 1) (hy0 : 0 ≤ e.yAlign) (hy1 : e.yAlign ≤ 1) :
    (e.xFill = false →
      (childRect naturalSize g e).width
        = min ((naturalSize e.child).1 : ℚ)
            ((cellSize Axis.horizontal g e.col e.colSpan : Int) : ℚ) ∧
      (childRect naturalSize g e).x
        = ((cellStart Axis.horizontal g e.col : Int) : ℚ)
          + e.xAlign * (((cellSize Axis.horizontal g e.col e.colSpan : Int) : ℚ)
              - (childRect naturalSize g e).width) ∧
      ((cellStart Axis.horizontal g e.col : Int) : ℚ) ≤ (childRect naturalSize g e).x ∧
      (childRect naturalSize g e).x + (childRect naturalSize g e).width
        ≤ ((cellStart Axis.horizontal g e.col : Int) : ℚ)
          + ((cellSize Axis.horizontal g e.col e.colSpan : Int) : ℚ)) ∧
    (e.yFill = false →
      (childRect naturalSize g e).height
        = min ((naturalSize e.child).2 : ℚ)
            ((cellSize Axis.vertical g e.row e.rowSpan : Int) : ℚ) ∧
      (childRect naturalSize g e).y
        = ((cellStart Axis.vertical g e.row : Int) : ℚ)
          + e.yAlign * (((cellSize Axis.vertical g e.row e.rowSpan : Int) : ℚ)
              - (childRect naturalSize g e).height) ∧
      ((cellStart Axis.vertical g e.row : Int) : ℚ) ≤ (childRect naturalSize g e).y ∧
      (childRect naturalSize g e).y + (childRect naturalSize g e).height
        ≤ ((cellStart Axis.vertical g e.row : Int) : ℚ)
          + ((cellSize Axis.vertical g e.row e.rowSpan : Int) : ℚ)) ∧
    (e.xFill = true →
      (childRect naturalSize g e).x = ((cellStart Axis.horizontal g e.col : Int) : ℚ) ∧
      (childRect naturalSize g e).width
        = ((cellSize Axis.horizontal g e.col e.colSpan : Int) : ℚ)) ∧
    (e.yFill = true →
      (childRect naturalSize g e).y = ((cellStart Axis.vertical g e.row : Int) : ℚ) ∧
      (childRect naturalSize g e).height
        = ((cellSize Axis.vertical g e.row e.rowSpan : Int) : ℚ)) := by
  refine ⟨?_, ?_, childRect_fill_x naturalSize g e hk, childRect_fill_y naturalSize g e hk⟩
  · intro hf
    have h := placeAxis_nofill e.xAlign (naturalSize e.child).1
      (cellStart Axis.horizontal g e.col) (cellSize Axis.horizontal g e.col e.colSpan) hx0 hx1
    simpa [childRect, placeChild, hk, hf] using h
  · intro hf
    have h := placeAxis_nofill e.yAlign (naturalSize e.child).2
      (cellStart Axis.vertical g e.row) (cellSize Axis.vertical g e.row e.rowSpan) hy0 hy1
    simpa [childRect, placeChild, hk, hf] using h

/-- Witness for C8: `button7` of the test table (fill false on both axes,
alignment 1/2, natural size 100 x 20) is 100 wide, the minimum of its natural
width and its cell's width. -/
theorem non_fill_placement_witness :
    button7Entry.keepAspectRatio = false ∧
    (0 : ℚ) ≤ button7Entry.xAlign ∧ button7Entry.xAlign ≤ 1 ∧
    (childRect (testNatural (0, 0) (0, 0) (100, 20))
        (onAllocate (testNatural (0, 0) (0, 0) (100, 20)) testTable 300 300).1
        button7Entry).width
      = min (((testNatural (0, 0) (0, 0) (100, 20)) button7Entry.child).1 : ℚ)
          ((cellSize Axis.horizontal
              (onAllocate (testNatural (0, 0) (0, 0) (100, 20)) testTable 300 300).1
              button7Entry.col button7Entry.colSpan : Int) : ℚ) :=
  ⟨rfl, by norm_num [button7Entry], by norm_num [button7Entry],
    ((non_fill_placement (testNatural (0, 0) (0, 0) (100, 20))
      (onAllocate (testNatural (0, 0) (0, 0) (100, 20)) testTable 300 300).1 button7Entry rfl
      (by norm_num [button7Entry]) (by norm_num [button7Entry])
      (by norm_num [button7Entry]) (by norm_num [button7Entry])).1 rfl).1⟩

theorem hasChild_iff (g : GridContainer) (child : Nat) :
    hasChild g child = true ↔ ∃ e ∈ g.children, e.child = child := by
  simp [hasChild, List.any_eq_true]

/-- C9: `addChild (child, row, col)` fails with `DuplicateChildError` exactly
when `child` is already present (no new grid is produced, so the caller's grid
is unchanged) and fails with no other error; otherwise it returns the grid with
one entry appended at (row, col) carrying the default flags (spans 1, expand and
fill true, alignments 1/2, keepAspectRatio false), all earlier entries,
spacing and padding being kept. -/
theorem addChild_duplicate (g : GridContainer) (child row col : Nat) :
    (addChild g child row col = Except.error GridError.DuplicateChildError ↔
      ∃ e ∈ g.children, e.child = child) ∧
    (∀ err, addChild g child row col = Except.error err →
      err = GridError.DuplicateChildError) ∧
    ((¬ ∃ e ∈ g.children, e.child = child) →
      addChild g child row col = Except.ok
        { g with
          children := g.children ++
            [ { child := child, row := row, col := col, rowSpan := 1, colSpan := 1,
                xExpand := true, yExpand := true, xFill := true, yFill := true,
                xAlign := 1 / 2, yAlign := 1 / 2, keepAspectRatio := false } ]
          layoutDirty := true }) := by
  by_cases h : hasChild g child = true
  · have hex := (hasChild_iff g child).mp h
    refine ⟨?_, ?_, ?_⟩
    · simp [addChild, h, hex]
    · intro err herr
      simp only [addChild, h, if_true] at herr
      injection herr with herr
      exact herr.symm
    · intro hn
      exact absurd hex hn
  · have hex : ¬ ∃ e ∈ g.children, e.child = child := fun hc => h ((hasChild_iff g child).mpr hc)
    refine ⟨?_, ?_, ?_⟩
    · simp only [addChild, h]
      constructor
      · intro hc
        simp at hc
      · intro hc
        exact absurd hc hex
    · intro err herr
      simp only [addChild, h] at herr
      simp at herr
    · intro _
      simp only [addChild, h]
      rfl

end Grid

/-! ## Theorems: grid tiling -/

namespace Grid

theorem foldl_natural_nonneg (items : List AxisItem) (i : Nat) (m : Int) (hm : 0 ≤ m) :
    0 ≤ items.foldl
      (fun m it => if it.span = 1 ∧ it.index = i then max m it.natural else m) m := by
  induction items generalizing m with
  | nil => exact hm
  | cons it rest ih =>
    rw [List.foldl_cons]
    apply ih
    split
    · exact le_trans hm (le_max_left _ _)
    · exact hm

theorem trackNatural_nonneg (items : List AxisItem) (i : Nat) : 0 ≤ trackNatural items i :=
  foldl_natural_nonneg items i 0 (le_refl 0)

theorem freeSpace_nonneg (items : List AxisItem) (spacing size : Int) :
    0 ≤ freeSpace items spacing size :=
  le_max_left _ _

theorem share_nonneg (items : List AxisItem) (spacing size : Int) (i : Nat) :
    0 ≤ share items spacing size i := by
  unfold share
  by_cases hk : (expandableTracks items).length = 0
  · rw [if_pos hk]
  · rw [if_neg hk]
    have hk' : ((expandableTracks items).length : Int) ≠ 0 := by exact_mod_cast hk
    have hkpos : (0 : Int) ≤ ((expandableTracks items).length : Int) := Int.natCast_nonneg _
    have hq := Int.ediv_nonneg (freeSpace_nonneg items spacing size) hkpos
    have hr := Int.emod_nonneg (freeSpace items spacing size) hk'
    split
    · split
      · exact add_nonneg hq hr
      · simpa using hq
    · exact le_refl 0

theorem sizeAt_of_le (tracks : List Track) (i : Nat) (h : tracks.length ≤ i) :
    sizeAt tracks i = 0 := by
  unfold sizeAt
  rw [List.get?_eq_none.mpr h]

theorem sizeAt_trackSizing_nonneg (items : List AxisItem) (spacing size : Int) (i : Nat) :
    0 ≤ sizeAt (trackSizing items spacing size) i := by
  by_cases hi : i < trackCount items
  · rw [sizeAt_trackSizing _ _ _ _ hi]
    exact add_nonneg (trackNatural_nonneg items i) (share_nonneg items spacing size i)
  · rw [sizeAt_of_le]
    rw [trackSizing_length]
    omega

theorem trackOffset_zero (tracks : List Track) (spacing padStart : Int) :
    trackOffset tracks spacing padStart 0 = padStart := by
  simp [trackOffset]

theorem trackOffset_mono (tracks : List Track) (spacing padStart : Int)
    (hsz : ∀ k, 0 ≤ sizeAt tracks k) (hsp : 0 ≤ spacing) (i j : Nat) (hij : i < j) :
    trackOffset tracks spacing padStart i + sizeAt tracks i + spacing
      ≤ trackOffset tracks spacing padStart j := by
  induction j with
  | zero => omega
  | succ j ih =>
    rw [trackOffset_succ]
    by_cases h : i = j
    · subst h
      exact le_refl _
    · have hlt : i < j := by omega
      have := ih hlt
      have hj := hsz j
      linarith

theorem trackOffset_eq (tracks : List Track) (spacing padStart : Int) (m : Nat) :
    trackOffset tracks spacing padStart m
      = padStart + ((List.range m).map (sizeAt tracks)).sum + (m : Int) * spacing := by
  induction m with
  | zero => simp [trackOffset]
  | succ m ih =>
    rw [trackOffset_succ, ih, List.range_succ, List.map_append, List.sum_append]
    simp
    ring

theorem foldl_count_ge (items : List AxisItem) (m : Nat) :
    m ≤ items.foldl (fun m it => max m (it.index + it.span)) m ∧
    ∀ it ∈ items, it.index + it.span
      ≤ items.foldl (fun m it => max m (it.index + it.span)) m := by
  induction items generalizing m with
  | nil => exact ⟨le_refl m, fun it h => absurd h (List.not_mem_nil it)⟩
  | cons a rest ih =>
    rw [List.foldl_cons]
    have h := ih (max m (a.index + a.span))
    refine ⟨le_trans (le_max_left _ _) h.1, ?_⟩
    intro it hit
    rcases List.mem_cons.mp hit with heq | hmem
    · subst heq
      exact le_trans (le_max_right _ _) h.1
    · exact h.2 it hmem

theorem trackCount_ge (items : List AxisItem) (it : AxisItem) (h : it ∈ items) :
    it.index + it.span ≤ trackCount items :=
  (foldl_count_ge items 0).2 it h

theorem sum_sizeAt_trackSizing (items : List AxisItem) (spacing size : Int) :
    ((List.range (trackCount items)).map (sizeAt (trackSizing items spacing size))).sum
      = ((List.range (trackCount items)).map (trackNatural items)).sum
        + ((List.range (trackCount items)).map (share items spacing size)).sum := by
  rw [← List.sum_map_add]
  congr 1
  apply List.map_congr_left
  intro i hi
  exact sizeAt_trackSizing items spacing size i (List.mem_range.mp hi)

theorem trackSizing_end (items : List AxisItem) (spacing size padStart : Int)
    (hfree : 0 < freeSpace items spacing size)
    (hexp : ∃ i, i < trackCount items ∧ trackExpandable items i = true) :
    trackOffset (trackSizing items spacing size) spacing padStart (trackCount items - 1)
      + sizeAt (trackSizing items spacing size) (trackCount items - 1)
      = padStart + size := by
  obtain ⟨i0, hi0, hp0⟩ := hexp
  have hne : expandableTracks items ≠ [] := by
    intro h
    have hm := (expandableTracks_mem _ i0).mpr ⟨hi0, hp0⟩
    rw [h] at hm
    exact List.not_mem_nil _ hm
  have hn : trackCount items - 1 + 1 = trackCount items := by omega
  have hsum := sum_sizeAt_trackSizing items spacing size
  rw [share_sum _ _ _ hne] at hsum
  have hsplit : ((List.range (trackCount items)).map
        (sizeAt (trackSizing items spacing size))).sum
      = ((List.range (trackCount items - 1)).map
          (sizeAt (trackSizing items spacing size))).sum
        + sizeAt (trackSizing items spacing size) (trackCount items - 1) := by
    conv_lhs => rw [← hn, List.range_succ, List.map_append, List.sum_append]
    simp
  have hF : freeSpace items spacing size = size - totalNatural items spacing := by
    unfold freeSpace at hfree ⊢
    omega
  rw [trackOffset_eq]
  unfold totalNatural at hF
  linarith

theorem locate_track (tracks : List Track) (spacing padStart : Int) (t : ℚ) (m : Nat)
    (h0 : ((trackOffset tracks spacing padStart 0 : Int) : ℚ) ≤ t)
    (h1 : t < ((trackOffset tracks spacing padStart m + sizeAt tracks m : Int) : ℚ)) :
    ∃ i, i ≤ m ∧
      ((((trackOffset tracks spacing padStart i : Int) : ℚ) ≤ t ∧
          t < ((trackOffset tracks spacing padStart i + sizeAt tracks i : Int) : ℚ)) ∨
        (i < m ∧
          ((trackOffset tracks spacing padStart i + sizeAt tracks i : Int) : ℚ) ≤ t ∧
          t < ((trackOffset tracks spacing padStart (i + 1) : Int) : ℚ))) := by
  induction m with
  | zero => exact ⟨0, le_refl 0, Or.inl ⟨h0, h1⟩⟩
  | succ m ih =>
    by_cases hA : t < ((trackOffset tracks spacing padStart m + sizeAt tracks m : Int) : ℚ)
    · obtain ⟨i, him, hcase⟩ := ih hA
      refine ⟨i, Nat.le_succ_of_le him, ?_⟩
      rcases hcase with hin | ⟨hlt, hgap⟩
      · exact Or.inl hin
      · exact Or.inr ⟨Nat.lt_succ_of_lt hlt, hgap⟩
    · by_cases hB : t < ((trackOffset tracks spacing padStart (m + 1) : Int) : ℚ)
      · exact ⟨m, Nat.le_succ m, Or.inr ⟨Nat.lt_succ_self m, le_of_not_lt hA, hB⟩⟩
      · exact ⟨m + 1, le_refl _, Or.inl ⟨le_of_not_lt hB, h1⟩⟩

theorem axisItem_mem (naturalSize : Nat → Int × Int) (axis : Axis) (g : GridContainer)
    (e : ChildEntry) (he : e ∈ g.children) :
    axisItem naturalSize axis e ∈ axisItems naturalSize axis g :=
  List.mem_map_of_mem _ he

theorem col_lt_trackCount (naturalSize : Nat → Int × Int) (g : GridContainer)
    (e : ChildEntry) (he : e ∈ g.children) (hs : e.colSpan = 1) :
    e.col < trackCount (axisItems naturalSize Axis.horizontal g) := by
  have h := trackCount_ge _ _ (axisItem_mem naturalSize Axis.horizontal g e he)
  simp only [axisItem] at h
  omega

theorem row_lt_trackCount (naturalSize : Nat → Int × Int) (g : GridContainer)
    (e : ChildEntry) (he : e ∈ g.children) (hs : e.rowSpan = 1) :
    e.row < trackCount (axisItems naturalSize Axis.vertical g) := by
  have h := trackCount_ge _ _ (axisItem_mem naturalSize Axis.vertical g e he)
  simp only [axisItem] at h
  omega

theorem childRect_cell (naturalSize : Nat → Int × Int) (g : GridContainer) (e : ChildEntry)
    (hr : e.rowSpan = 1) (hc : e.colSpan = 1) (hx : e.xFill = true) (hy : e.yFill = true)
    (hk : e.keepAspectRatio = false) :
    childRect naturalSize g e = cellRectOf g e.row e.col := by
  simp [childRect, placeChild, placeAxis, cellRectOf, hk, hx, hy, hr, hc]

/-- On one axis, the cells of two different tracks are separated. -/
theorem cells_separated (tracks : List Track) (spacing padStart : Int)
    (hsz : ∀ k, 0 ≤ sizeAt tracks k) (hsp : 0 ≤ spacing) (i j : Nat) (hij : i ≠ j) :
    trackOffset tracks spacing padStart i + spanSize tracks spacing i 1
        ≤ trackOffset tracks spacing padStart j ∨
    trackOffset tracks spacing padStart j + spanSize tracks spacing j 1
        ≤ trackOffset tracks spacing padStart i := by
  rw [spanSize_one, spanSize_one]
  rcases Nat.lt_or_gt_of_ne hij with h | h
  · left
    have := trackOffset_mono tracks spacing padStart hsz hsp i j h
    linarith
  · right
    have := trackOffset_mono tracks spacing padStart hsz hsp j i h
    linarith

theorem sizeTracks_columns (naturalSize : Nat → Int × Int) (g : GridContainer)
    (boxWidth boxHeight : Int) :
    (onAllocate naturalSize g boxWidth boxHeight).1.columns
      = trackSizing (axisItems naturalSize Axis.horizontal g) g.colSpacing
          (contentSize Axis.horizontal g boxWidth boxHeight) := rfl

theorem sizeTracks_rows (naturalSize : Nat → Int × Int) (g : GridContainer)
    (boxWidth boxHeight : Int) :
    (onAllocate naturalSize g boxWidth boxHeight).1.rows
      = trackSizing (axisItems naturalSize Axis.vertical g) g.rowSpacing
          (contentSize Axis.vertical g boxWidth boxHeight) := rfl

theorem cellRects_disjoint (naturalSize : Nat → Int × Int) (g : GridContainer)
    (boxWidth boxHeight : Int) (hrs : 0 ≤ g.rowSpacing) (hcs : 0 ≤ g.colSpacing)
    (r1 c1 r2 c2 : Nat) (h : r1 ≠ r2 ∨ c1 ≠ c2) :
    disjointRects (cellRectOf (onAllocate naturalSize g boxWidth boxHeight).1 r1 c1)
      (cellRectOf (onAllocate naturalSize g boxWidth boxHeight).1 r2 c2) := by
  unfold disjointRects cellRectOf
  simp only
  rcases h with hr | hc
  · have hs := cells_separated (onAllocate naturalSize g boxWidth boxHeight).1.rows
      g.rowSpacing g.padding.top
      (by rw [sizeTracks_rows]; exact sizeAt_trackSizing_nonneg _ _ _) hrs r1 r2 hr
    rcases hs with hs | hs
    · right; right; left
      exact_mod_cast hs
    · right; right; right
      exact_mod_cast hs
  · have hs := cells_separated (onAllocate naturalSize g boxWidth boxHeight).1.columns
      g.colSpacing g.padding.left
      (by rw [sizeTracks_columns]; exact sizeAt_trackSizing_nonneg _ _ _) hcs c1 c2 hc
    rcases hs with hs | hs
    · left
      exact_mod_cast hs
    · right; left
      exact_mod_cast hs

theorem rectWithin_refl (r : Rect) : rectWithin r r :=
  ⟨le_refl _, le_refl _, le_refl _, le_refl _⟩

theorem disjoint_of_within (a b ca cb : Rect) (ha : rectWithin a ca) (hb : rectWithin b cb)
    (hd : disjointRects ca cb) : disjointRects a b := by
  obtain ⟨ha1, ha2, ha3, ha4⟩ := ha
  obtain ⟨hb1, hb2, hb3, hb4⟩ := hb
  rcases hd with h | h | h | h
  · exact Or.inl (by linarith)
  · exact Or.inr (Or.inl (by linarith))
  · exact Or.inr (Or.inr (Or.inl (by linarith)))
  · exact Or.inr (Or.inr (Or.inr (by linarith)))

/-- A scaled extent `n * min (w / n) (h / m)` does not exceed `w`. -/
theorem scaled_le (n m w h : ℚ) (hn : 0 ≤ n) (hw : 0 ≤ w) :
    n * min (w / n) (h / m) ≤ w := by
  by_cases h0 : n = 0
  · subst h0
    simpa using hw
  · calc n * min (w / n) (h / m) ≤ n * (w / n) :=
          mul_le_mul_of_nonneg_left (min_le_left _ _) hn
      _ = w := mul_div_cancel₀ w h0

theorem aligned_within (start size inner align : ℚ) (h0 : 0 ≤ align) (h1 : align ≤ 1)
    (hle : inner ≤ size) :
    start ≤ start + align * (size - inner) ∧
    start + align * (size - inner) + inner ≤ start + size := by
  have hnn : 0 ≤ size - inner := by linarith
  have hmul : align * (size - inner) ≤ size - inner := by
    calc align * (size - inner) ≤ 1 * (size - inner) := mul_le_mul_of_nonneg_right h1 hnn
      _ = size - inner := one_mul _
  have hpos : 0 ≤ align * (size - inner) := mul_nonneg h0 hnn
  constructor <;> linarith

/-- A child that keeps its aspect ratio lies within its cell when its natural
size and the cell size are non-negative and its alignments lie in [0,1]. -/
theorem placeChild_aspect_within (e : ChildEntry) (natural : Int × Int)
    (cellX cellY cellWidth cellHeight : Int) (hk : e.keepAspectRatio = true)
    (hn1 : 0 ≤ natural.1) (hn2 : 0 ≤ natural.2)
    (hw : 0 ≤ cellWidth) (hh : 0 ≤ cellHeight)
    (hx0 : 0 ≤ e.xAlign) (hx1 : e.xAlign ≤ 1) (hy0 : 0 ≤ e.yAlign) (hy1 : e.yAlign ≤ 1) :
    rectWithin (placeChild e natural cellX cellY cellWidth cellHeight)
      { x := (cellX : ℚ), y := (cellY : ℚ), width := (cellWidth : ℚ),
        height := (cellHeight : ℚ) } := by
  have hwq : (0 : ℚ) ≤ (cellWidth : ℚ) := by exact_mod_cast hw
  have hhq : (0 : ℚ) ≤ (cellHeight : ℚ) := by exact_mod_cast hh
  have hn1q : (0 : ℚ) ≤ (natural.1 : ℚ) := by exact_mod_cast hn1
  have hn2q : (0 : ℚ) ≤ (natural.2 : ℚ) := by exact_mod_cast hn2
  have hsw : (natural.1 : ℚ) * aspectScale natural.1 natural.2 cellWidth cellHeight
      ≤ (cellWidth : ℚ) := scaled_le _ _ _ _ hn1q hwq
  have hsh : (natural.2 : ℚ) * aspectScale natural.1 natural.2 cellWidth cellHeight
      ≤ (cellHeight : ℚ) := by
    unfold aspectScale
    rw [min_comm]
    exact scaled_le _ _ _ _ hn2q hhq
  have hxw := aligned_within (cellX : ℚ) (cellWidth : ℚ) _ e.xAlign hx0 hx1 hsw
  have hyw := aligned_within (cellY : ℚ) (cellHeight : ℚ) _ e.yAlign hy0 hy1 hsh
  simp only [placeChild, hk, if_true, rectWithin]
  exact ⟨hxw.1, hxw.2, hyw.1, hyw.2⟩

/-- A single-span child that fills on both axes lies within its cell: it is the
cell when it does not keep its aspect ratio, and it is fitted inside otherwise. -/
theorem childRect_within_cell (naturalSize : Nat → Int × Int) (g : GridContainer)
    (boxWidth boxHeight : Int) (e : ChildEntry)
    (hr : e.rowSpan = 1) (hc : e.colSpan = 1) (hx : e.xFill = true) (hy : e.yFill = true)
    (hasp : e.keepAspectRatio = true →
      0 ≤ (naturalSize e.child).1 ∧ 0 ≤ (naturalSize e.child).2 ∧
      0 ≤ e.xAlign ∧ e.xAlign ≤ 1 ∧ 0 ≤ e.yAlign ∧ e.yAlign ≤ 1) :
    rectWithin (childRect naturalSize (onAllocate naturalSize g boxWidth boxHeight).1 e)
      (cellRectOf (onAllocate naturalSize g boxWidth boxHeight).1 e.row e.col) := by
  by_cases hk : e.keepAspectRatio = true
  · obtain ⟨hn1, hn2, hx0, hx1, hy0, hy1⟩ := hasp hk
    have hw : 0 ≤ cellSize Axis.horizontal (onAllocate naturalSize g boxWidth boxHeight).1
        e.col 1 := by
      unfold cellSize
      rw [spanSize_one]
      exact sizeAt_trackSizing_nonneg _ _ _ _
    have hh : 0 ≤ cellSize Axis.vertical (onAllocate naturalSize g boxWidth boxHeight).1
        e.row 1 := by
      unfold cellSize
      rw [spanSize_one]
      exact sizeAt_trackSizing_nonneg _ _ _ _
    have := placeChild_aspect_within e (naturalSize e.child)
      (cellStart Axis.horizontal (onAllocate naturalSize g boxWidth boxHeight).1 e.col)
      (cellStart Axis.vertical (onAllocate naturalSize g boxWidth boxHeight).1 e.row)
      _ _ hk hn1 hn2 hw hh hx0 hx1 hy0 hy1
    unfold childRect cellRectOf
    rw [hr, hc]
    exact this
  · have hk' : e.keepAspectRatio = false := by simpa using hk
    rw [childRect_cell naturalSize _ e hr hc hx hy hk']
    exact rectWithin_refl _

theorem rects_pairwise_disjoint (naturalSize : Nat → Int × Int) (g : GridContainer)
    (boxWidth boxHeight : Int)
    (hwithin : ∀ e ∈ g.children,
      rectWithin (childRect naturalSize (onAllocate naturalSize g boxWidth boxHeight).1 e)
        (cellRectOf (onAllocate naturalSize g boxWidth boxHeight).1 e.row e.col))
    (hdist : g.children.Pairwise (fun a b => a.row ≠ b.row ∨ a.col ≠ b.col))
    (hrs : 0 ≤ g.rowSpacing) (hcs : 0 ≤ g.colSpacing) :
    (onAllocate naturalSize g boxWidth boxHeight).2.Pairwise
      (fun p q => disjointRects p.2 q.2) := by
  have hout : (onAllocate naturalSize g boxWidth boxHeight).2
      = g.children.map (fun e =>
          (e.child, childRect naturalSize (onAllocate naturalSize g boxWidth boxHeight).1 e)) :=
    rfl
  rw [hout, List.pairwise_map]
  have hmem : g.children.Pairwise (fun a b => (a ∈ g.children ∧ b ∈ g.children)
      ∧ (a.row ≠ b.row ∨ a.col ≠ b.col)) := by
    have hall : g.children.Pairwise (fun a b => a ∈ g.children ∧ b ∈ g.children) :=
      List.pairwise_of_forall_mem_list (fun a ha b hb => ⟨ha, hb⟩)
    exact hall.and hdist
  refine hmem.imp ?_
  intro a b hab
  obtain ⟨⟨ha, hb⟩, hne⟩ := hab
  simp only
  exact disjoint_of_within _ _ _ _ (hwithin a ha) (hwithin b hb)
    (cellRects_disjoint naturalSize g boxWidth boxHeight hrs hcs _ _ _ _ hne)

/-- On one axis with positive free space and an expandable track, every track
lies between the padding and the end of the content. -/
theorem track_in_content (items : List AxisItem) (spacing size padStart : Int)
    (hsp : 0 ≤ spacing) (hfree : 0 < freeSpace items spacing size)
    (hexp : ∃ i, i < trackCount items ∧ trackExpandable items i = true)
    (i : Nat) (hi : i < trackCount items) :
    padStart ≤ trackOffset (trackSizing items spacing size) spacing padStart i ∧
    trackOffset (trackSizing items spacing size) spacing padStart i
        + sizeAt (trackSizing items spacing size) i ≤ padStart + size := by
  have hsz := sizeAt_trackSizing_nonneg items spacing size
  have hend := trackSizing_end items spacing size padStart hfree hexp
  constructor
  · by_cases h0 : i = 0
    · subst h0
      rw [trackOffset_zero]
    · have hm := trackOffset_mono (trackSizing items spacing size) spacing padStart hsz hsp
        0 i (by omega)
      rw [trackOffset_zero] at hm
      have := hsz 0
      linarith
  · by_cases hl : i = trackCount items - 1
    · subst hl
      exact le_of_eq hend
    · have hm := trackOffset_mono (trackSizing items spacing size) spacing padStart hsz hsp
        i (trackCount items - 1) (by omega)
      have := hsz (trackCount items - 1)
      linarith

/-- On one axis with positive free space and an expandable track, every
coordinate of the content lies in a track or in a spacing gap. -/
theorem axis_covered (items : List AxisItem) (spacing size padStart : Int)
    (hfree : 0 < freeSpace items spacing size)
    (hexp : ∃ i, i < trackCount items ∧ trackExpandable items i = true)
    (t : ℚ) (h0 : (padStart : ℚ) ≤ t) (h1 : t < ((padStart + size : Int) : ℚ)) :
    (∃ i, i < trackCount items ∧
      ((trackOffset (trackSizing items spacing size) spacing padStart i : Int) : ℚ) ≤ t ∧
      t < ((trackOffset (trackSizing items spacing size) spacing padStart i : Int) : ℚ)
            + ((spanSize (trackSizing items spacing size) spacing i 1 : Int) : ℚ)) ∨
    inGap (trackSizing items spacing size) spacing padStart t := by
  have hend := trackSizing_end items spacing size padStart hfree hexp
  have hn : 0 < trackCount items := by
    obtain ⟨i0, hi0, _⟩ := hexp
    omega
  have hloc := locate_track (trackSizing items spacing size) spacing padStart t
    (trackCount items - 1)
    (by rw [trackOffset_zero]; exact h0)
    (by rw [hend]; exact h1)
  obtain ⟨i, hi, hcase⟩ := hloc
  rcases hcase with ⟨ha, hb⟩ | ⟨hlt, ha, hb⟩
  · left
    refine ⟨i, by omega, ha, ?_⟩
    rw [spanSize_one]
    push_cast at hb ⊢
    exact hb
  · right
    refine ⟨i, ?_, ha, hb⟩
    rw [trackSizing_length]
    omega

/-- C5 (amended): for single-span children in pairwise distinct cells that fill
on both axes, with non-negative spacing (and, for a child that keeps its aspect
ratio, non-negative natural size and alignments in [0,1]), the allocated
rectangles are pairwise non-overlapping and each lies within the rectangle of
its cell, being exactly that rectangle when the child does not keep its aspect
ratio; if moreover no child keeps its aspect ratio, each axis has positive free
space and an expandable track, and every cell of the grid is occupied, the
rectangles lie in the content area and every point of the content area is in
one of them or in a declared row or column gap. -/
theorem grid_tiling (naturalSize : Nat → Int × Int) (g : GridContainer)
    (boxWidth boxHeight : Int)
    (hspan : ∀ e ∈ g.children, e.rowSpan = 1 ∧ e.colSpan = 1)
    (hfill : ∀ e ∈ g.children, e.xFill = true ∧ e.yFill = true)
    (hdist : g.children.Pairwise (fun a b => a.row ≠ b.row ∨ a.col ≠ b.col))
    (hrs : 0 ≤ g.rowSpacing) (hcs : 0 ≤ g.colSpacing)
    (hasp : ∀ e ∈ g.children, e.keepAspectRatio = true →
      0 ≤ (naturalSize e.child).1 ∧ 0 ≤ (naturalSize e.child).2 ∧
      0 ≤ e.xAlign ∧ e.xAlign ≤ 1 ∧ 0 ≤ e.yAlign ∧ e.yAlign ≤ 1) :
    (onAllocate naturalSize g boxWidth boxHeight).2.Pairwise
      (fun p q => disjointRects p.2 q.2) ∧
    (∀ e ∈ g.children,
      rectWithin (childRect naturalSize (onAllocate naturalSize g boxWidth boxHeight).1 e)
        (cellRectOf (onAllocate naturalSize g boxWidth boxHeight).1 e.row e.col)) ∧
    (∀ e ∈ g.children, e.keepAspectRatio = false →
      childRect naturalSize (onAllocate naturalSize g boxWidth boxHeight).1 e
        = cellRectOf (onAllocate naturalSize g boxWidth boxHeight).1 e.row e.col) ∧
    ((∀ e ∈ g.children, e.keepAspectRatio = false) →
      (∀ axis : Axis,
        0 < freeSpace (axisItems naturalSize axis g) (axisSpacing axis g)
          (contentSize axis g boxWidth boxHeight) ∧
        ∃ i, i < trackCount (axisItems naturalSize axis g) ∧
          trackExpandable (axisItems naturalSize axis g) i = true) →
      (∀ row col, row < trackCount (axisItems naturalSize Axis.vertical g) →
        col < trackCount (axisItems naturalSize Axis.horizontal g) →
        ∃ e ∈ g.children, e.row = row ∧ e.col = col) →
      tilesContent naturalSize g boxWidth boxHeight) := by
  have hwithin : ∀ e ∈ g.children,
      rectWithin (childRect naturalSize (onAllocate naturalSize g boxWidth boxHeight).1 e)
        (cellRectOf (onAllocate naturalSize g boxWidth boxHeight).1 e.row e.col) := by
    intro e he
    exact childRect_within_cell naturalSize g boxWidth boxHeight e (hspan e he).1
      (hspan e he).2 (hfill e he).1 (hfill e he).2 (hasp e he)
  have hpair := rects_pairwise_disjoint naturalSize g boxWidth boxHeight hwithin hdist
    hrs hcs
  have hcell' : ∀ e ∈ g.children, e.keepAspectRatio = false →
      childRect naturalSize (onAllocate naturalSize g boxWidth boxHeight).1 e
        = cellRectOf (onAllocate naturalSize g boxWidth boxHeight).1 e.row e.col := by
    intro e he hk
    exact childRect_cell naturalSize _ e (hspan e he).1 (hspan e he).2 (hfill e he).1
      (hfill e he).2 hk
  refine ⟨hpair, hwithin, hcell', ?_⟩
  intro hnoasp
  have hcell : ∀ e ∈ g.children,
      childRect naturalSize (onAllocate naturalSize g boxWidth boxHeight).1 e
        = cellRectOf (onAllocate naturalSize g boxWidth boxHeight).1 e.row e.col :=
    fun e he => hcell' e he (hnoasp e he)
  intro haxis hfull
  have hH := haxis Axis.horizontal
  have hV := haxis Axis.vertical
  refine ⟨hpair, ?_, ?_⟩
  · intro p hp
    have hout : (onAllocate naturalSize g boxWidth boxHeight).2
        = g.children.map (fun e =>
            (e.child,
              childRect naturalSize (onAllocate naturalSize g boxWidth boxHeight).1 e)) := rfl
    rw [hout] at hp
    obtain ⟨e, he, hpe⟩ := List.mem_map.mp hp
    subst hpe
    simp only
    rw [hcell e he]
    have hc := track_in_content (axisItems naturalSize Axis.horizontal g) g.colSpacing
      (contentSize Axis.horizontal g boxWidth boxHeight) g.padding.left hcs hH.1 hH.2 e.col
      (col_lt_trackCount naturalSize g e he (hspan e he).2)
    have hr := track_in_content (axisItems naturalSize Axis.vertical g) g.rowSpacing
      (contentSize Axis.vertical g boxWidth boxHeight) g.padding.top hrs hV.1 hV.2 e.row
      (row_lt_trackCount naturalSize g e he (hspan e he).1)
    unfold rectInContent cellRectOf cellStart cellSize
    simp only [axisTracks, axisSpacing, axisPadStart, sizeTracks_columns, sizeTracks_rows,
      spanSize_one]
    refine ⟨?_, ?_, ?_, ?_⟩
    · exact_mod_cast hc.1
    · exact_mod_cast hc.2
    · exact_mod_cast hr.1
    · exact_mod_cast hr.2
  · intro x y hxy
    obtain ⟨hx0, hx1, hy0, hy1⟩ := hxy
    have hcx := axis_covered (axisItems naturalSize Axis.horizontal g) g.colSpacing
      (contentSize Axis.horizontal g boxWidth boxHeight) g.padding.left hH.1 hH.2 x hx0 hx1
    have hcy := axis_covered (axisItems naturalSize Axis.vertical g) g.rowSpacing
      (contentSize Axis.vertical g boxWidth boxHeight) g.padding.top hV.1 hV.2 y hy0 hy1
    rcases hcx with ⟨c, hc, hxa, hxb⟩ | hgx
    · rcases hcy with ⟨r, hr, hya, hyb⟩ | hgy
      · left
        obtain ⟨e, he, her, hec⟩ := hfull r c hr hc
        refine ⟨(e.child,
          childRect naturalSize (onAllocate naturalSize g boxWidth boxHeight).1 e), ?_, ?_⟩
        · exact List.mem_map_of_mem _ he
        · simp only
          rw [hcell e he, her, hec]
          exact ⟨hxa, hxb, hya, hyb⟩
      · right; right
        exact hgy
    · right; left
      exact hgx

theorem tileSampleNoExpand_layout :
    (onAllocate (fun _ => (10, 10)) tileSampleNoExpand 100 100).2
      = [(1, { x := 0, y := 0, width := 10, height := 10 })] := by
  have hx : cellStart Axis.horizontal
      (onAllocate (fun _ => (10, 10)) tileSampleNoExpand 100 100).1 0 = 0 := by decide
  have hy : cellStart Axis.vertical
      (onAllocate (fun _ => (10, 10)) tileSampleNoExpand 100 100).1 0 = 0 := by decide
  have hw : cellSize Axis.horizontal
      (onAllocate (fun _ => (10, 10)) tileSampleNoExpand 100 100).1 0 1 = 10 := by decide
  have hh : cellSize Axis.vertical
      (onAllocate (fun _ => (10, 10)) tileSampleNoExpand 100 100).1 0 1 = 10 := by decide
  have hl : (onAllocate (fun _ => (10, 10)) tileSampleNoExpand 100 100).2
      = [(1, childRect (fun _ => (10, 10))
          (onAllocate (fun _ => (10, 10)) tileSampleNoExpand 100 100).1
          { child := 1, row := 0, col := 0, xExpand := false, yExpand := false })] := rfl
  rw [hl]
  unfold childRect
  simp only []
  rw [hx, hy, hw, hh]
  simp [placeChild, placeAxis]

theorem tileSampleHoles_layout :
    (onAllocate (fun _ => (0, 0)) tileSampleHoles 100 100).2
      = [(1, { x := 0, y := 0, width := 50, height := 50 }),
         (2, { x := 50, y := 50, width := 50, height := 50 })] := by
  have hx0 : cellStart Axis.horizontal
      (onAllocate (fun _ => (0, 0)) tileSampleHoles 100 100).1 0 = 0 := by decide
  have hy0 : cellStart Axis.vertical
      (onAllocate (fun _ => (0, 0)) tileSampleHoles 100 100).1 0 = 0 := by decide
  have hx1 : cellStart Axis.horizontal
      (onAllocate (fun _ => (0, 0)) tileSampleHoles 100 100).1 1 = 50 := by decide
  have hy1 : cellStart Axis.vertical
      (onAllocate (fun _ => (0, 0)) tileSampleHoles 100 100).1 1 = 50 := by decide
  have hw0 : cellSize Axis.horizontal
      (onAllocate (fun _ => (0, 0)) tileSampleHoles 100 100).1 0 1 = 50 := by decide
  have hh0 : cellSize Axis.vertical
      (onAllocate (fun _ => (0, 0)) tileSampleHoles 100 100).1 0 1 = 50 := by decide
  have hw1 : cellSize Axis.horizontal
      (onAllocate (fun _ => (0, 0)) tileSampleHoles 100 100).1 1 1 = 50 := by decide
  have hh1 : cellSize Axis.vertical
      (onAllocate (fun _ => (0, 0)) tileSampleHoles 100 100).1 1 1 = 50 := by decide
  have hl : (onAllocate (fun _ => (0, 0)) tileSampleHoles 100 100).2
      = [(1, childRect (fun _ => (0, 0))
          (onAllocate (fun _ => (0, 0)) tileSampleHoles 100 100).1
          { child := 1, row := 0, col := 0 }),
         (2, childRect (fun _ => (0, 0))
          (onAllocate (fun _ => (0, 0)) tileSampleHoles 100 100).1
          { child := 2, row := 1, col := 1 })] := rfl
  rw [hl]
  unfold childRect
  simp only []
  rw [hx0, hy0, hw0, hh0, hx1, hy1, hw1, hh1]
  simp [placeChild, placeAxis]

/-- C5 (as stated) fails in three ways, each with single-span children in
distinct cells and `xFill = yFill = true`: a child that does not expand leaves
free space uncovered (point (50, 50) of a 100 x 100 content area, rectangle
10 x 10); an unoccupied cell is not covered (point (75, 25), children on the
diagonal of a 2 x 2 grid); a child that keeps its aspect ratio does not cover
its cell (point (50, 10), rectangle (0, 25, 100, 50)). -/
theorem grid_tiling_counterexample :
    (singleSpanFilled tileSampleNoExpand ∧
      ¬ tilesContent (fun _ => (10, 10)) tileSampleNoExpand 100 100) ∧
    (singleSpanFilled tileSampleHoles ∧
      ¬ tilesContent (fun _ => (0, 0)) tileSampleHoles 100 100) ∧
    (singleSpanFilled aspectSample ∧
      ¬ tilesContent (fun _ => (40, 20)) aspectSample 100 100) := by
  refine ⟨⟨?_, ?_⟩, ⟨?_, ?_⟩, ⟨?_, ?_⟩⟩
  · simp [singleSpanFilled, tileSampleNoExpand, emptyGrid]
  · rintro ⟨_, _, hcov⟩
    have hin : inContent tileSampleNoExpand 100 100 50 50 := by
      simp only [inContent, contentSize, tileSampleNoExpand, emptyGrid]
      norm_num
    have hlen : (onAllocate (fun _ => (10, 10)) tileSampleNoExpand 100 100).1.columns.length
        = 1 := by decide
    have hlen2 : (onAllocate (fun _ => (10, 10)) tileSampleNoExpand 100 100).1.rows.length
        = 1 := by decide
    rcases hcov 50 50 hin with ⟨p, hp, hr⟩ | ⟨i, hi, _⟩ | ⟨i, hi, _⟩
    · rw [tileSampleNoExpand_layout] at hp
      simp only [List.mem_singleton] at hp
      subst hp
      simp only [inRect] at hr
      norm_num at hr
    · omega
    · omega
  · simp [singleSpanFilled, tileSampleHoles, emptyGrid]
  · rintro ⟨_, _, hcov⟩
    have hin : inContent tileSampleHoles 100 100 75 25 := by
      simp only [inContent, contentSize, tileSampleHoles, emptyGrid]
      norm_num
    have hlen : (onAllocate (fun _ => (0, 0)) tileSampleHoles 100 100).1.columns.length
        = 2 := by decide
    have hlen2 : (onAllocate (fun _ => (0, 0)) tileSampleHoles 100 100).1.rows.length
        = 2 := by decide
    have hc0 : trackOffset (onAllocate (fun _ => (0, 0)) tileSampleHoles 100 100).1.columns
        tileSampleHoles.colSpacing tileSampleHoles.padding.left 0
        + sizeAt (onAllocate (fun _ => (0, 0)) tileSampleHoles 100 100).1.columns 0 = 50 := by
      decide
    have hc1 : trackOffset (onAllocate (fun _ => (0, 0)) tileSampleHoles 100 100).1.columns
        tileSampleHoles.colSpacing tileSampleHoles.padding.left (0 + 1) = 50 := by decide
    have hr0 : trackOffset (onAllocate (fun _ => (0, 0)) tileSampleHoles 100 100).1.rows
        tileSampleHoles.rowSpacing tileSampleHoles.padding.top 0
        + sizeAt (onAllocate (fun _ => (0, 0)) tileSampleHoles 100 100).1.rows 0 = 50 := by
      decide
    have hr1 : trackOffset (onAllocate (fun _ => (0, 0)) tileSampleHoles 100 100).1.rows
        tileSampleHoles.rowSpacing tileSampleHoles.padding.top (0 + 1) = 50 := by decide
    rcases hcov 75 25 hin with ⟨p, hp, hr⟩ | ⟨i, hi, ha, hb⟩ | ⟨i, hi, ha, hb⟩
    · rw [tileSampleHoles_layout] at hp
      simp only [List.mem_cons, List.mem_singleton, List.not_mem_nil, or_false] at hp
      rcases hp with hp | hp
      · subst hp
        simp only [inRect] at hr
        norm_num at hr
      · subst hp
        simp only [inRect] at hr
        norm_num at hr
    · have hi0 : i = 0 := by omega
      subst hi0
      rw [hc0] at ha
      rw [hc1] at hb
      norm_num at ha hb
    · have hi0 : i = 0 := by omega
      subst hi0
      rw [hr0] at ha
      rw [hr1] at hb
      norm_num at ha hb
  · simp [singleSpanFilled, aspectSample, emptyGrid]
  · rintro ⟨_, _, hcov⟩
    have hin : inContent aspectSample 100 100 50 10 := by
      simp only [inContent, contentSize, aspectSample, emptyGrid]
      norm_num
    have hlen : (onAllocate (fun _ => (40, 20)) aspectSample 100 100).1.columns.length
        = 1 := by decide
    have hlen2 : (onAllocate (fun _ => (40, 20)) aspectSample 100 100).1.rows.length
        = 1 := by decide
    rcases hcov 50 10 hin with ⟨p, hp, hr⟩ | ⟨i, hi, _⟩ | ⟨i, hi, _⟩
    · rw [aspectSample_layout] at hp
      simp only [List.mem_singleton] at hp
      subst hp
      simp only [inRect] at hr
      norm_num at hr
    · omega
    · omega

/-- Witness for C5 (amended): the full 2 x 2 grid `tileSampleFull` in a
100 x 100 box meets every hypothesis and its four rectangles tile the content
area. -/
theorem grid_tiling_witness :
    (∀ e ∈ tileSampleFull.children, e.rowSpan = 1 ∧ e.colSpan = 1) ∧
    (∀ e ∈ tileSampleFull.children, e.xFill = true ∧ e.yFill = true) ∧
    (0 ≤ tileSampleFull.rowSpacing ∧ 0 ≤ tileSampleFull.colSpacing) ∧
    tilesContent (fun _ => (0, 0)) tileSampleFull 100 100 :=
  ⟨by simp [tileSampleFull, emptyGrid], by simp [tileSampleFull, emptyGrid],
    ⟨by decide, by decide⟩,
    (grid_tiling (fun _ => (0, 0)) tileSampleFull 100 100
      (by simp [tileSampleFull, emptyGrid]) (by simp [tileSampleFull, emptyGrid])
      (by simp [tileSampleFull, emptyGrid]) (by decide) (by decide)
      (by simp [tileSampleFull, emptyGrid])).2.2.2
      (by simp [tileSampleFull, emptyGrid])
      (fun axis => by cases axis <;> exact ⟨by decide, 0, by decide, by decide⟩)
      (fun row col hr hc => by
        have h1 : trackCount (axisItems (fun _ => (0, 0)) Axis.vertical tileSampleFull) = 2 := by
          decide
        have h2 : trackCount (axisItems (fun _ => (0, 0)) Axis.horizontal tileSampleFull)
            = 2 := by decide
        rw [h1] at hr
        rw [h2] at hc
        interval_cases row <;> interval_cases col <;> simp [tileSampleFull, emptyGrid])⟩

end Grid

/-! ## Theorems: the calibration scenario -/

namespace Grid

theorem testTable_tracks :
    (onAllocate scenarioNatural testTable 300 300).1.columns
      = [⟨0, 125⟩, ⟨20, 145⟩] ∧
    (onAllocate scenarioNatural testTable 300 300).1.rows
      = [⟨20, 56⟩, ⟨0, 36⟩, ⟨0, 36⟩, ⟨0, 36⟩, ⟨0, 36⟩, ⟨0, 40⟩] := by
  constructor <;> decide

theorem testTable_layout :
    (onAllocate scenarioNatural testTable 300 300).2
      = [ (1, { x := 10, y := 5, width := 125, height := 102 }),
          (2, { x := 379 / 2, y := 5, width := 56, height := 56 }),
          (3, { x := 145, y := 71, width := 145, height := 36 }),
          (4, { x := 10, y := 117, width := 280, height := 36 }),
          (5, { x := 10, y := 163, width := 125, height := 36 }),
          (6, { x := 145, y := 163, width := 145, height := 36 }),
          (7, { x := 435 / 2, y := 252, width := 0, height := 0 }),
          (8, { x := 10, y := 209, width := 125, height := 36 }),
          (9, { x := 10, y := 255, width := 125, height := 40 }) ] := by
  have hx0 : cellStart Axis.horizontal (onAllocate scenarioNatural testTable 300 300).1 0
      = 10 := by decide
  have hx1 : cellStart Axis.horizontal (onAllocate scenarioNatural testTable 300 300).1 1
      = 145 := by decide
  have hy0 : cellStart Axis.vertical (onAllocate scenarioNatural testTable 300 300).1 0
      = 5 := by decide
  have hy1 : cellStart Axis.vertical (onAllocate scenarioNatural testTable 300 300).1 1
      = 71 := by decide
  have hy2 : cellStart Axis.vertical (onAllocate scenarioNatural testTable 300 300).1 2
      = 117 := by decide
  have hy3 : cellStart Axis.vertical (onAllocate scenarioNatural testTable 300 300).1 3
      = 163 := by decide
  have hy4 : cellStart Axis.vertical (onAllocate scenarioNatural testTable 300 300).1 4
      = 209 := by decide
  have hy5 : cellStart Axis.vertical (onAllocate scenarioNatural testTable 300 300).1 5
      = 255 := by decide
  have hw0 : cellSize Axis.horizontal (onAllocate scenarioNatural testTable 300 300).1 0 1
      = 125 := by decide
  have hw1 : cellSize Axis.horizontal (onAllocate scenarioNatural testTable 300 300).1 1 1
      = 145 := by decide
  have hw02 : cellSize Axis.horizontal (onAllocate scenarioNatural testTable 300 300).1 0 2
      = 280 := by decide
  have hh02 : cellSize Axis.vertical (onAllocate scenarioNatural testTable 300 300).1 0 2
      = 102 := by decide
  have hh0 : cellSize Axis.vertical (onAllocate scenarioNatural testTable 300 300).1 0 1
      = 56 := by decide
  have hh1 : cellSize Axis.vertical (onAllocate scenarioNatural testTable 300 300).1 1 1
      = 36 := by decide
  have hh2 : cellSize Axis.vertical (onAllocate scenarioNatural testTable 300 300).1 2 1
      = 36 := by decide
  have hh3 : cellSize Axis.vertical (onAllocate scenarioNatural testTable 300 300).1 3 1
      = 36 := by decide
  have hh42 : cellSize Axis.vertical (onAllocate scenarioNatural testTable 300 300).1 4 2
      = 86 := by decide
  have hh4 : cellSize Axis.vertical (onAllocate scenarioNatural testTable 300 300).1 4 1
      = 36 := by decide
  have hh5 : cellSize Axis.vertical (onAllocate scenarioNatural testTable 300 300).1 5 1
      = 40 := by decide
  have hl : (onAllocate scenarioNatural testTable 300 300).2
      = testTable.children.map (fun e =>
          (e.child, childRect scenarioNatural
            (onAllocate scenarioNatural testTable 300 300).1 e)) := rfl
  have hs : aspectScale 20 20 145 56 = 14 / 5 := by
    unfold aspectScale
    norm_num
  rw [hl]
  clear hl
  generalize (onAllocate scenarioNatural testTable 300 300).1 = G at *
  simp only [testTable, List.map_cons, List.map_nil, childRect]
  rw [hx0, hx1, hy0, hy1, hy2, hy3, hy4, hy5, hw0, hw1, hw02, hh02, hh0, hh1, hh2, hh3, hh42,
    hh4, hh5]
  simp only [scenarioNatural, testNatural, placeChild, placeAxis]
  norm_num [hs]

theorem testTable_layout_wide :
    (onAllocate scenarioNatural testTable 320 310).2
      = [ (1, { x := 10, y := 5, width := 135, height := 106 }),
          (2, { x := 407 / 2, y := 5, width := 58, height := 58 }),
          (3, { x := 155, y := 73, width := 155, height := 38 }),
          (4, { x := 10, y := 121, width := 300, height := 38 }),
          (5, { x := 10, y := 169, width := 135, height := 38 }),
          (6, { x := 155, y := 169, width := 155, height := 38 }),
          (7, { x := 465 / 2, y := 261, width := 0, height := 0 }),
          (8, { x := 10, y := 217, width := 135, height := 38 }),
          (9, { x := 10, y := 265, width := 135, height := 40 }) ] := by
  have hx0 : cellStart Axis.horizontal (onAllocate scenarioNatural testTable 320 310).1 0
      = 10 := by decide
  have hx1 : cellStart Axis.horizontal (onAllocate scenarioNatural testTable 320 310).1 1
      = 155 := by decide
  have hy0 : cellStart Axis.vertical (onAllocate scenarioNatural testTable 320 310).1 0
      = 5 := by decide
  have hy1 : cellStart Axis.vertical (onAllocate scenarioNatural testTable 320 310).1 1
      = 73 := by decide
  have hy2 : cellStart Axis.vertical (onAllocate scenarioNatural testTable 320 310).1 2
      = 121 := by decide
  have hy3 : cellStart Axis.vertical (onAllocate scenarioNatural testTable 320 310).1 3
      = 169 := by decide
  have hy4 : cellStart Axis.vertical (onAllocate scenarioNatural testTable 320 310).1 4
      = 217 := by decide
  have hy5 : cellStart Axis.vertical (onAllocate scenarioNatural testTable 320 310).1 5
      = 265 := by decide
  have hw0 : cellSize Axis.horizontal (onAllocate scenarioNatural testTable 320 310).1 0 1
      = 135 := by decide
  have hw1 : cellSize Axis.horizontal (onAllocate scenarioNatural testTable 320 310).1 1 1
      = 155 := by decide
  have hw02 : cellSize Axis.horizontal (onAllocate scenarioNatural testTable 320 310).1 0 2
      = 300 := by decide
  have hh02 : cellSize Axis.vertical (onAllocate scenarioNatural testTable 320 310).1 0 2
      = 106 := by decide
  have hh0 : cellSize Axis.vertical (onAllocate scenarioNatural testTable 320 310).1 0 1
      = 58 := by decide
  have hh1 : cellSize Axis.vertical (onAllocate scenarioNatural testTable 320 310).1 1 1
      = 38 := by decide
  have hh2 : cellSize Axis.vertical (onAllocate scenarioNatural testTable 320 310).1 2 1
      = 38 := by decide
  have hh3 : cellSize Axis.vertical (onAllocate scenarioNatural testTable 320 310).1 3 1
      = 38 := by decide
  have hh42 : cellSize Axis.vertical (onAllocate scenarioNatural testTable 320 310).1 4 2
      = 88 := by decide
  have hh4 : cellSize Axis.vertical (onAllocate scenarioNatural testTable 320 310).1 4 1
      = 38 := by decide
  have hh5 : cellSize Axis.vertical (onAllocate scenarioNatural testTable 320 310).1 5 1
      = 40 := by decide
  have hl : (onAllocate scenarioNatural testTable 320 310).2
      = testTable.children.map (fun e =>
          (e.child, childRect scenarioNatural
            (onAllocate scenarioNatural testTable 320 310).1 e)) := rfl
  have hs : aspectScale 20 20 155 58 = 29 / 10 := by
    unfold aspectScale
    norm_num
  rw [hl]
  clear hl
  generalize (onAllocate scenarioNatural testTable 320 310).1 = G at *
  simp only [testTable, List.map_cons, List.map_nil, childRect]
  rw [hx0, hx1, hy0, hy1, hy2, hy3, hy4, hy5, hw0, hw1, hw02, hh02, hh0, hh1, hh2, hh3, hh42,
    hh4, hh5]
  simp only [scenarioNatural, testNatural, placeChild, placeAxis]
  norm_num [hs]


theorem childRect_eq_union (naturalSize : Nat → Int × Int) (g : GridContainer) (e : ChildEntry)
    (hk : e.keepAspectRatio = false) (hx : e.xFill = true) (hy : e.yFill = true) :
    childRect naturalSize g e = spanUnionRect g e := by
  simp [childRect, placeChild, placeAxis, spanUnionRect, hk, hx, hy]

theorem button7_rect (boxWidth boxHeight : Int) :
    childRect scenarioNatural (onAllocate scenarioNatural testTable boxWidth boxHeight).1
        button7Entry
      = { x := ((cellStart Axis.horizontal
                  (onAllocate scenarioNatural testTable boxWidth boxHeight).1 1 : Int) : ℚ)
            + 1 / 2 * (((cellSize Axis.horizontal
                  (onAllocate scenarioNatural testTable boxWidth boxHeight).1 1 1 : Int) : ℚ)
                - ((min 0 (cellSize Axis.horizontal
                  (onAllocate scenarioNatural testTable boxWidth boxHeight).1 1 1) : Int) : ℚ))
          y := ((cellStart Axis.vertical
                  (onAllocate scenarioNatural testTable boxWidth boxHeight).1 4 : Int) : ℚ)
            + 1 / 2 * (((cellSize Axis.vertical
                  (onAllocate scenarioNatural testTable boxWidth boxHeight).1 4 2 : Int) : ℚ)
                - ((min 0 (cellSize Axis.vertical
                  (onAllocate scenarioNatural testTable boxWidth boxHeight).1 4 2) : Int) : ℚ))
          width := ((min 0 (cellSize Axis.horizontal
                  (onAllocate scenarioNatural testTable boxWidth boxHeight).1 1 1) : Int) : ℚ)
          height := ((min 0 (cellSize Axis.vertical
                  (onAllocate scenarioNatural testTable boxWidth boxHeight).1 4 2) : Int) : ℚ) } := by
  simp [childRect, placeChild, placeAxis, button7Entry, scenarioNatural, testNatural]

/-- C7 (as stated) fails: in the calibration scenario `button7` spans rows 4
and 5 (union 145 x 86 at (145, 209)) but, with `x-fill = y-fill = FALSE` and
natural size 0 x 0, its rectangle has width 0, not the union's width 145. -/
theorem calibration_counterexample :
    ¬ calibrationProperty scenarioNatural testTable 300 300 := by
  rintro ⟨_, h⟩
  have h7 := h button7Entry (by simp [testTable, button7Entry])
    (Or.inl (by decide))
  have hw := congrArg Rect.width h7
  rw [button7_rect] at hw
  have hw1 : cellSize Axis.horizontal (onAllocate scenarioNatural testTable 300 300).1 1 1
      = 145 := by decide
  simp only [spanUnionRect, button7Entry] at hw
  rw [hw1] at hw
  norm_num at hw

theorem foldl_count_congr (xs ys : List AxisItem) (h : List.Forall₂ sizingEquivalent xs ys)
    (m : Nat) :
    xs.foldl (fun m it => max m (it.index + it.span)) m
      = ys.foldl (fun m it => max m (it.index + it.span)) m := by
  induction h generalizing m with
  | nil => rfl
  | cons hab _ ih =>
    simp only [List.foldl_cons]
    rw [hab.1, hab.2.1]
    exact ih _

theorem foldl_natural_congr (xs ys : List AxisItem) (h : List.Forall₂ sizingEquivalent xs ys)
    (i : Nat) (m : Int) :
    xs.foldl (fun m it => if it.span = 1 ∧ it.index = i then max m it.natural else m) m
      = ys.foldl (fun m it => if it.span = 1 ∧ it.index = i then max m it.natural else m) m := by
  induction h generalizing m with
  | nil => rfl
  | @cons a b _ _ hab _ ih =>
    simp only [List.foldl_cons]
    have hstep : (if a.span = 1 ∧ a.index = i then max m a.natural else m)
        = (if b.span = 1 ∧ b.index = i then max m b.natural else m) := by
      rw [← hab.1, ← hab.2.1]
      by_cases hc : a.span = 1 ∧ a.index = i
      · rw [if_pos hc, if_pos hc, hab.2.2.2 hc.1]
      · rw [if_neg hc, if_neg hc]
    rw [hstep]
    exact ih _

theorem trackExpandable_congr (xs ys : List AxisItem)
    (h : List.Forall₂ sizingEquivalent xs ys) (i : Nat) :
    trackExpandable xs i = trackExpandable ys i := by
  unfold trackExpandable
  induction h with
  | nil => rfl
  | @cons a b _ _ hab _ ih =>
    simp only [List.any_cons]
    rw [ih]
    unfold covers
    rw [hab.1, hab.2.1, hab.2.2.1]

theorem trackSizing_congr (xs ys : List AxisItem) (h : List.Forall₂ sizingEquivalent xs ys)
    (spacing size : Int) : trackSizing xs spacing size = trackSizing ys spacing size := by
  have hc : trackCount xs = trackCount ys := foldl_count_congr xs ys h 0
  have hn : trackNatural xs = trackNatural ys := by
    funext i
    exact foldl_natural_congr xs ys h i 0
  have he : trackExpandable xs = trackExpandable ys := by
    funext i
    exact trackExpandable_congr xs ys h i
  have hex : expandableTracks xs = expandableTracks ys := by
    unfold expandableTracks
    rw [hc, he]
  have ht : totalNatural xs spacing = totalNatural ys spacing := by
    unfold totalNatural
    rw [hc, hn]
  have hf : freeSpace xs spacing size = freeSpace ys spacing size := by
    unfold freeSpace
    rw [ht]
  have hs : share xs spacing size = share ys spacing size := by
    funext i
    unfold share
    rw [hex, he, hf]
  unfold trackSizing
  rw [hc, hn, hs]

theorem axisItems_equivalent (n1 n2 : Nat → Int × Int) (axis : Axis) (children : List ChildEntry)
    (h : ∀ e ∈ children,
      sizingEquivalent (axisItem n1 axis e) (axisItem n2 axis e)) :
    List.Forall₂ sizingEquivalent (children.map (axisItem n1 axis))
      (children.map (axisItem n2 axis)) := by
  induction children with
  | nil => exact List.Forall₂.nil
  | cons e rest ih =>
    simp only [List.map_cons]
    exact List.Forall₂.cons (h e (List.mem_cons_self _ _))
      (ih (fun e' he' => h e' (List.mem_cons_of_mem _ he')))

/-- The rows of the test table do not depend on the natural sizes of `button1`
and `button7` (both span two rows) nor on the natural width of `button4`. -/
theorem testTable_rows_independent (s1 s7 : Int × Int) (w4 : Int)
    (boxWidth boxHeight : Int) :
    (onAllocate (testNatural s1 (w4, 0) s7) testTable boxWidth boxHeight).1.rows
      = (onAllocate scenarioNatural testTable boxWidth boxHeight).1.rows := by
  rw [sizeTracks_rows, sizeTracks_rows]
  apply trackSizing_congr
  apply axisItems_equivalent
  intro e he
  simp only [testTable, List.mem_cons, List.mem_singleton, List.not_mem_nil, or_false] at he
  rcases he with rfl | rfl | rfl | rfl | rfl | rfl | rfl | rfl | rfl <;>
    simp [sizingEquivalent, axisItem, scenarioNatural, testNatural]

theorem button7_height (s1 s7 : Int × Int) (w4 : Int) (boxWidth boxHeight : Int) :
    (childRect (testNatural s1 (w4, 0) s7)
        (onAllocate (testNatural s1 (w4, 0) s7) testTable boxWidth boxHeight).1
        button7Entry).height
      = ((min s7.2
          (cellSize Axis.vertical (onAllocate scenarioNatural testTable boxWidth boxHeight).1
            4 2) : Int) : ℚ) := by
  have hh : cellSize Axis.vertical
      (onAllocate (testNatural s1 (w4, 0) s7) testTable boxWidth boxHeight).1 4 2
      = cellSize Axis.vertical (onAllocate scenarioNatural testTable boxWidth boxHeight).1
          4 2 := by
    unfold cellSize
    simp only [axisTracks, axisSpacing]
    rw [testTable_rows_independent]
    rfl
  simp only [childRect, placeChild, placeAxis, button7Entry, testNatural]
  rw [hh]
  simp

theorem testTable_spanning_fill (g : GridContainer) (e : ChildEntry)
    (he : e ∈ testTable.children) (hs : 1 < e.rowSpan ∨ 1 < e.colSpan)
    (hx : e.xFill = true) (hy : e.yFill = true) :
    childRect scenarioNatural g e = spanUnionRect g e := by
  apply childRect_eq_union _ _ _ _ hx hy
  simp only [testTable, List.mem_cons, List.mem_singleton, List.not_mem_nil, or_false] at he
  rcases he with rfl | rfl | rfl | rfl | rfl | rfl | rfl | rfl | rfl
  · rfl
  · simp at hs
  · rfl
  · rfl
  · rfl
  · rfl
  · rfl
  · rfl
  · rfl

/-- C7 (amended): the table built by the calls of `test-container-matching.c`
has six rows and two columns; with spacing 10, the padding (5, 10, 5, 10) of
the scenario, `button2` 20 x 20 and every other natural size 0 x 0, both in a
300 x 300 container and in a 320 x 310 container (content area 300 x 300):
every child's rectangle lies within the container; every spanning child that
fills its cell (`button1`, `button4`) gets exactly the union of its spanned
tracks with the interior spacing; `button7`, which spans two rows but fills on
neither axis, lies within that union at its natural size.  With other natural
sizes for `button1` and `button7` and another natural width for `button4`
(natural height 0), the height of `button7` is the minimum of its natural
height and the height of that union, 86 in the 300 x 300 container and 88 in
the 320 x 310 one.  The rectangles for both containers are listed. -/
theorem calibration_layout :
    buildTestTable testPadding = Except.ok testTable ∧
    trackCount (axisItems scenarioNatural Axis.vertical testTable) = 6 ∧
    trackCount (axisItems scenarioNatural Axis.horizontal testTable) = 2 ∧
    (∀ box ∈ [((300 : Int), (300 : Int)), (320, 310)],
      (∀ p ∈ (onAllocate scenarioNatural testTable box.1 box.2).2,
        rectInBox box.1 box.2 p.2) ∧
      (∀ e ∈ testTable.children, (1 < e.rowSpan ∨ 1 < e.colSpan) →
        e.xFill = true → e.yFill = true →
        childRect scenarioNatural (onAllocate scenarioNatural testTable box.1 box.2).1 e
          = spanUnionRect (onAllocate scenarioNatural testTable box.1 box.2).1 e) ∧
      rectWithin
        (childRect scenarioNatural (onAllocate scenarioNatural testTable box.1 box.2).1
          button7Entry)
        (spanUnionRect (onAllocate scenarioNatural testTable box.1 box.2).1 button7Entry)) ∧
    (∀ (s1 s7 : Int × Int) (w4 : Int),
      (childRect (testNatural s1 (w4, 0) s7)
          (onAllocate (testNatural s1 (w4, 0) s7) testTable 300 300).1 button7Entry).height
        = ((min s7.2 86 : Int) : ℚ) ∧
      (childRect (testNatural s1 (w4, 0) s7)
          (onAllocate (testNatural s1 (w4, 0) s7) testTable 320 310).1 button7Entry).height
        = ((min s7.2 88 : Int) : ℚ)) ∧
    (onAllocate scenarioNatural testTable 300 300).2
      = [ (1, { x := 10, y := 5, width := 125, height := 102 }),
          (2, { x := 379 / 2, y := 5, width := 56, height := 56 }),
          (3, { x := 145, y := 71, width := 145, height := 36 }),
          (4, { x := 10, y := 117, width := 280, height := 36 }),
          (5, { x := 10, y := 163, width := 125, height := 36 }),
          (6, { x := 145, y := 163, width := 145, height := 36 }),
          (7, { x := 435 / 2, y := 252, width := 0, height := 0 }),
          (8, { x := 10, y := 209, width := 125, height := 36 }),
          (9, { x := 10, y := 255, width := 125, height := 40 }) ] ∧
    (onAllocate scenarioNatural testTable 320 310).2
      = [ (1, { x := 10, y := 5, width := 135, height := 106 }),
          (2, { x := 407 / 2, y := 5, width := 58, height := 58 }),
          (3, { x := 155, y := 73, width := 155, height := 38 }),
          (4, { x := 10, y := 121, width := 300, height := 38 }),
          (5, { x := 10, y := 169, width := 135, height := 38 }),
          (6, { x := 155, y := 169, width := 155, height := 38 }),
          (7, { x := 465 / 2, y := 261, width := 0, height := 0 }),
          (8, { x := 10, y := 217, width := 135, height := 38 }),
          (9, { x := 10, y := 265, width := 135, height := 40 }) ] := by
  refine ⟨rfl, by decide, by decide, ?_, ?_, testTable_layout, testTable_layout_wide⟩
  swap
  · intro s1 s7 w4
    have h86 : cellSize Axis.vertical (onAllocate scenarioNatural testTable 300 300).1 4 2
        = 86 := by decide
    have h88 : cellSize Axis.vertical (onAllocate scenarioNatural testTable 320 310).1 4 2
        = 88 := by decide
    have ha := button7_height s1 s7 w4 300 300
    have hb := button7_height s1 s7 w4 320 310
    rw [h86] at ha
    rw [h88] at hb
    exact ⟨ha, hb⟩
  intro box hbox
  simp only [List.mem_cons, List.mem_singleton, List.not_mem_nil, or_false] at hbox
  rcases hbox with rfl | rfl
  · refine ⟨?_, fun e he hs hx hy => testTable_spanning_fill _ e he hs hx hy, ?_⟩
    · intro p hp
      simp only [] at hp
      rw [testTable_layout] at hp
      simp only [List.mem_cons, List.mem_singleton, List.not_mem_nil, or_false] at hp
      rcases hp with rfl | rfl | rfl | rfl | rfl | rfl | rfl | rfl | rfl <;>
        norm_num [rectInBox]
    · have hx1 : cellStart Axis.horizontal (onAllocate scenarioNatural testTable 300 300).1 1
          = 145 := by decide
      have hy4 : cellStart Axis.vertical (onAllocate scenarioNatural testTable 300 300).1 4
          = 209 := by decide
      have hw1 : cellSize Axis.horizontal (onAllocate scenarioNatural testTable 300 300).1 1 1
          = 145 := by decide
      have hh42 : cellSize Axis.vertical (onAllocate scenarioNatural testTable 300 300).1 4 2
          = 86 := by decide
      simp only []
      rw [button7_rect]
      simp only [rectWithin, spanUnionRect, button7Entry]
      rw [hx1, hy4, hw1, hh42]
      norm_num
  · refine ⟨?_, fun e he hs hx hy => testTable_spanning_fill _ e he hs hx hy, ?_⟩
    · intro p hp
      simp only [] at hp
      rw [testTable_layout_wide] at hp
      simp only [List.mem_cons, List.mem_singleton, List.not_mem_nil, or_false] at hp
      rcases hp with rfl | rfl | rfl | rfl | rfl | rfl | rfl | rfl | rfl <;>
        norm_num [rectInBox]
    · have hx1 : cellStart Axis.horizontal (onAllocate scenarioNatural testTable 320 310).1 1
          = 155 := by decide
      have hy4 : cellStart Axis.vertical (onAllocate scenarioNatural testTable 320 310).1 4
          = 217 := by decide
      have hw1 : cellSize Axis.horizontal (onAllocate scenarioNatural testTable 320 310).1 1 1
          = 155 := by decide
      have hh42 : cellSize Axis.vertical (onAllocate scenarioNatural testTable 320 310).1 4 2
          = 88 := by decide
      simp only []
      rw [button7_rect]
      simp only [rectWithin, spanUnionRect, button7Entry]
      rw [hx1, hy4, hw1, hh42]
      norm_num

end Grid

/-! ## Theorems: clipboard targets, text requests and the default object -/

namespace Clipboard

theorem set_text_keeps_targets (st : Statics) (dpy : Nat) (priv : MxClipboardPrivate)
    (text : Option (List Nat)) :
    (mx_clipboard_set_text st dpy priv text).1.supported_targets = priv.supported_targets ∧
    (mx_clipboard_set_text st dpy priv text).1.n_targets = priv.n_targets := by
  cases text <;> exact ⟨rfl, rfl⟩

theorem set_texts_keeps_targets (st : Statics) (dpy : Nat) (texts : List (Option (List Nat)))
    (priv : MxClipboardPrivate) :
    (set_texts st dpy priv texts).supported_targets = priv.supported_targets ∧
    (set_texts st dpy priv texts).n_targets = priv.n_targets := by
  induction texts generalizing priv with
  | nil => exact ⟨rfl, rfl⟩
  | cons t ts ih =>
    have h1 := set_text_keeps_targets st dpy priv t
    have h2 := ih (mx_clipboard_set_text st dpy priv t).1
    unfold set_texts at h2 ⊢
    rw [List.foldl_cons]
    exact ⟨h2.1.trans h1.1, h2.2.trans h1.2⟩

/-- C18: for a clipboard initialised by `mx_clipboard_init`, after any sequence
of `mx_clipboard_set_text` calls (none, NULL or real texts), a `SelectionRequest`
whose target is TARGETS is answered by one `XChangeProperty` of type `XA_ATOM`,
format 32, with exactly the two atoms UTF8_STRING, TARGETS in this order and
2 elements, followed by one `SelectionNotify` whose property is the request's
property, or the request's target when that property is `None`; the provider
returns `CLUTTER_X11_FILTER_REMOVE`.  From the initial atoms the two advertised
atoms are the interned "UTF8_STRING" and "TARGETS". -/
theorem targets_request_answer (XInternAtom : String → Nat) (window dpy : Nat) (st : Statics)
    (texts : List (Option (List Nat))) (xev : XEvent)
    (htype : xev.type = SelectionRequest)
    (htarget : xev.xselectionrequest.target
      = (mx_clipboard_init XInternAtom window st).1.atom_targets) :
    mx_clipboard_provider (mx_clipboard_init XInternAtom window st).1 dpy xev
        (set_texts (mx_clipboard_init XInternAtom window st).1 dpy
          (mx_clipboard_init XInternAtom window st).2 texts)
      = (ClutterX11FilterReturn.CLUTTER_X11_FILTER_REMOVE,
          [ XCall.clutter_x11_trap_x_errors,
            XCall.XChangeProperty xev.xselectionrequest.display
              xev.xselectionrequest.requestor xev.xselectionrequest.property XA_ATOM 32
              PropModeReplace
              [ (mx_clipboard_init XInternAtom window st).1.utf8_string,
                (mx_clipboard_init XInternAtom window st).1.atom_targets ] 2,
            XCall.XSendEvent xev.xselectionrequest.display xev.xselectionrequest.requestor
              false 0 (notify_event xev.xselectionrequest),
            XCall.XSync dpy false,
            XCall.clutter_x11_untrap_x_errors ]) ∧
    (notify_event xev.xselectionrequest).type = SelectionNotify ∧
    (notify_event xev.xselectionrequest).property
      = (if xev.xselectionrequest.property = None then xev.xselectionrequest.target
         else xev.xselectionrequest.property) ∧
    (mx_clipboard_init XInternAtom window initialStatics).1.utf8_string
      = XInternAtom "UTF8_STRING" ∧
    (mx_clipboard_init XInternAtom window initialStatics).1.atom_targets
      = XInternAtom "TARGETS" := by
  have hk := set_texts_keeps_targets (mx_clipboard_init XInternAtom window st).1 dpy texts
    (mx_clipboard_init XInternAtom window st).2
  refine ⟨?_, rfl, rfl, rfl, rfl⟩
  unfold mx_clipboard_provider
  simp only [htype, ne_eq, not_true_eq_false, if_false, htarget, if_true, hk.1, hk.2,
    provider_tail]
  rfl

/-- Witness for C18: a TARGETS request with property `None` to a clipboard on
which "hi" was set; atoms 301 and 302 are advertised and the notify property is
the target 302. -/
theorem targets_request_answer_witness :
    sampleTargetsRequest.type = SelectionRequest ∧
    mx_clipboard_provider (mx_clipboard_init sampleInternAtom 77 initialStatics).1 1
        sampleTargetsRequest
        (set_texts (mx_clipboard_init sampleInternAtom 77 initialStatics).1 1
          (mx_clipboard_init sampleInternAtom 77 initialStatics).2 [some [104, 105], none])
      = (ClutterX11FilterReturn.CLUTTER_X11_FILTER_REMOVE,
          [ XCall.clutter_x11_trap_x_errors,
            XCall.XChangeProperty 1 9 0 4 32 0 [301, 302] 2,
            XCall.XSendEvent 1 9 false 0
              { type := 31, display := 1, requestor := 9, selection := 300, target := 302,
                property := 302, time := 1234 },
            XCall.XSync 1 false,
            XCall.clutter_x11_untrap_x_errors ]) :=
  ⟨by decide,
    (targets_request_answer sampleInternAtom 77 1 initialStatics [some [104, 105], none]
      sampleTargetsRequest (by decide) (by decide)).1⟩

end Clipboard

namespace Clipboard

theorem filter_other (xev : XEventSelection) (reply : PropertyReply) (addr : Nat)
    (d : EventFilterData) (h : xev.type ≠ SelectionNotify) :
    mx_clipboard_x11_event_filter xev reply addr d
      = (ClutterX11FilterReturn.CLUTTER_X11_FILTER_CONTINUE, []) := by
  unfold mx_clipboard_x11_event_filter
  rw [if_pos h]

theorem filter_notify (xev : XEventSelection) (reply : PropertyReply) (addr : Nat)
    (d : EventFilterData) (h : xev.type = SelectionNotify) :
    (mx_clipboard_x11_event_filter xev reply addr d).1
      = ClutterX11FilterReturn.CLUTTER_X11_FILTER_REMOVE ∧
    (mx_clipboard_x11_event_filter xev reply addr d).2.filter isCallback
      = [FilterCall.callback d.callback d.clipboard
          (if xev.xselection.property = None then none else reply.data) d.user_data] ∧
    (mx_clipboard_x11_event_filter xev reply addr d).2.filter
        (fun c => c == FilterCall.clutter_x11_remove_filter addr)
      = [FilterCall.clutter_x11_remove_filter addr] ∧
    (∀ filters : List (Nat × EventFilterData),
      (mx_clipboard_x11_event_filter xev reply addr d).2.foldl applyCall filters
        = filters.filter (fun f => f.1 != addr)) := by
  unfold mx_clipboard_x11_event_filter
  have h' : ¬ xev.type ≠ SelectionNotify := fun hn => hn h
  rw [if_neg h']
  by_cases hp : xev.xselection.property = None
  · simp [hp, isCallback, applyCall]
  · by_cases he : reply.trapped_error ≠ 0 ∨ reply.result ≠ Success <;>
      cases hd : reply.data <;>
      simp [hp, he, hd, isCallback, applyCall, List.filter_cons]

end Clipboard

namespace Clipboard

theorem deliverTo_other (ev : XEventSelection × PropertyReply)
    (h : ev.1.type ≠ SelectionNotify) (l : List (Nat × EventFilterData))
    (s : FilterRegistry) : deliverTo ev l s = s := by
  induction l generalizing s with
  | nil => rfl
  | cons f rest ih =>
    unfold deliverTo
    simp only [filter_other ev.1 ev.2 f.1 f.2 h, List.foldl_nil, List.map_nil,
      List.append_nil, if_true]
    exact ih s

theorem deliver_notify (ev : XEventSelection × PropertyReply)
    (h : ev.1.type = SelectionNotify) (s : FilterRegistry) (f : Nat × EventFilterData)
    (rest : List (Nat × EventFilterData)) (hf : s.filters = f :: rest) :
    deliver s ev
      = { filters := s.filters.filter (fun g => g.1 != f.1)
          log := s.log ++
            (mx_clipboard_x11_event_filter ev.1 ev.2 f.1 f.2).2.map (fun c => (f.1, c)) } := by
  have hn := filter_notify ev.1 ev.2 f.1 f.2 h
  unfold deliver
  rw [hf]
  unfold deliverTo
  simp only [hn.1, hn.2.2.2]
  rw [if_neg (by decide)]
  rw [hf]

theorem deliver_empty (ev : XEventSelection × PropertyReply) (s : FilterRegistry)
    (hf : s.filters = []) : deliver s ev = s := by
  unfold deliver
  rw [hf]
  rfl

theorem callbacksOf_append (addr : Nat) (l1 l2 : List (Nat × FilterCall)) :
    callbacksOf addr (l1 ++ l2) = callbacksOf addr l1 ++ callbacksOf addr l2 := by
  simp [callbacksOf]

theorem callbacksOf_tagged (addr a : Nat) (calls : List FilterCall) :
    callbacksOf addr (calls.map (fun c => (a, c)))
      = if a = addr then calls.filter isCallback else [] := by
  unfold callbacksOf
  by_cases h : a = addr
  · subst h
    rw [if_pos rfl, List.filter_map, List.map_map]
    simp [Function.comp_def]
  · rw [if_neg h, List.filter_map]
    simp [Function.comp_def, h]

theorem registered_iff (addr : Nat) (s : FilterRegistry) :
    registered addr s = true ↔ addr ∈ s.filters.map Prod.fst := by
  simp [registered, List.any_eq_true]

theorem requestInv_deliver (addr : Nat) (d : EventFilterData) (s : FilterRegistry)
    (ev : XEventSelection × PropertyReply) (h : RequestInv addr d s) :
    RequestInv addr d (deliver s ev) := by
  by_cases ht : ev.1.type = SelectionNotify
  · cases hf : s.filters with
    | nil => rw [deliver_empty ev s hf]; exact h
    | cons f rest =>
      rw [deliver_notify ev ht s f rest hf]
      obtain ⟨hnd, hd, hreg, hunreg⟩ := h
      have hn := filter_notify ev.1 ev.2 f.1 f.2 ht
      have hsub : List.Sublist (s.filters.filter (fun g => g.1 != f.1)) s.filters :=
        List.filter_sublist _
      have hfmem : f ∈ s.filters := by rw [hf]; exact List.mem_cons_self _ _
      refine ⟨hnd.sublist (hsub.map Prod.fst), ?_, ?_, ?_⟩
      · intro d' hm
        exact hd d' (hsub.subset hm)
      · intro hr
        have hr' := (registered_iff addr _).mp hr
        simp only [List.mem_map, List.mem_filter] at hr'
        obtain ⟨g, ⟨hg, hgne⟩, hga⟩ := hr'
        have hne : f.1 ≠ addr := by
          intro he
          rw [← hga] at he
          simp [he] at hgne
        have hwas : registered addr s = true :=
          (registered_iff addr s).mpr (List.mem_map.mpr ⟨g, hg, hga⟩)
        simp only []
        rw [callbacksOf_append, callbacksOf_tagged, if_neg hne, hreg hwas]
        rfl
      · intro hr
        simp only []
        rw [callbacksOf_append, callbacksOf_tagged]
        by_cases he : f.1 = addr
        · have hfd : f.2 = d := hd f.2 (by rw [← he]; exact hfmem)
          have hwas : registered addr s = true :=
            (registered_iff addr s).mpr (List.mem_map.mpr ⟨f, hfmem, he⟩)
          rw [if_pos he, hreg hwas, hn.2.1, hfd]
          exact ⟨_, rfl⟩
        · have hwas : registered addr s = false := by
            cases hc : registered addr s with
            | false => rfl
            | true =>
              exfalso
              have hm := (registered_iff addr s).mp hc
              obtain ⟨g, hg, hga⟩ := List.mem_map.mp hm
              have hg1 : g.1 ≠ f.1 := by rw [hga]; exact fun hx => he hx.symm
              have : registered addr
                  { filters := s.filters.filter (fun g => g.1 != f.1)
                    log := s.log ++ (mx_clipboard_x11_event_filter ev.1 ev.2 f.1 f.2).2.map
                      (fun c => (f.1, c)) } = true := by
                apply (registered_iff addr _).mpr
                simp only [List.mem_map, List.mem_filter]
                exact ⟨g, ⟨hg, by simpa using hg1⟩, hga⟩
              rw [this] at hr
              exact Bool.noConfusion hr
          rw [if_neg he, List.append_nil]
          exact hunreg hwas
  · rw [show deliver s ev = s from deliverTo_other ev ht s.filters s]
    exact h

theorem requestInv_run (addr : Nat) (d : EventFilterData)
    (evs : List (XEventSelection × PropertyReply)) (s : FilterRegistry)
    (h : RequestInv addr d s) : RequestInv addr d (evs.foldl deliver s) := by
  induction evs generalizing s with
  | nil => exact h
  | cons ev rest ih => exact ih (deliver s ev) (requestInv_deliver addr d s ev h)

theorem requestInv_request (st : Statics) (dpy : Nat) (priv : MxClipboardPrivate)
    (clipboard callback user_data addr : Nat) (s : FilterRegistry)
    (hcb : callback ≠ 0) (hfresh : registered addr s = false)
    (hlog : callbacksOf addr s.log = []) (hnodup : (s.filters.map Prod.fst).Nodup) :
    RequestInv addr { clipboard := clipboard, callback := callback, user_data := user_data }
      (request s st dpy priv clipboard callback user_data addr) ∧
    registered addr (request s st dpy priv clipboard callback user_data addr) = true := by
  have hnot : addr ∉ s.filters.map Prod.fst := by
    intro hm
    have := (registered_iff addr s).mpr hm
    rw [hfresh] at this
    exact Bool.noConfusion this
  have hreq : request s st dpy priv clipboard callback user_data addr
      = { s with filters := s.filters ++
            [(addr, { clipboard := clipboard, callback := callback,
                      user_data := user_data })] } := by
    simp [request, mx_clipboard_get_text, hcb]
  have hregd : registered addr (request s st dpy priv clipboard callback user_data addr)
      = true := by
    rw [hreq]
    simp [registered]
  refine ⟨⟨?_, ?_, ?_, ?_⟩, hregd⟩
  · rw [hreq]
    simp only [List.map_append, List.map_cons, List.map_nil]
    rw [List.nodup_append]
    refine ⟨hnodup, List.nodup_singleton _, ?_⟩
    intro a ha hb
    rw [List.mem_singleton] at hb
    exact hnot (hb ▸ ha)
  · intro d' hm
    rw [hreq] at hm
    simp only [List.mem_append, List.mem_singleton] at hm
    rcases hm with hm | hm
    · exact absurd (List.mem_map.mpr ⟨(addr, d'), hm, rfl⟩) hnot
    · exact (Prod.mk.inj hm).2
  · intro _
    rw [hreq]
    exact hlog
  · intro hr
    rw [hregd] at hr
    exact Bool.noConfusion hr

end Clipboard

namespace Clipboard

/-- C11: for a request made with `mx_clipboard_get_text (clipboard, callback,
user_data)` (callback non-NULL, fresh data block): its filter returns
`CLUTTER_X11_FILTER_CONTINUE` on an event whose type is not `SelectionNotify`,
issuing no call, and such an event changes no registry; on a `SelectionNotify`
event it returns `CLUTTER_X11_FILTER_REMOVE`, invokes the callback exactly once
with that clipboard and user data (text NULL when the event's property is
`None`, the data read otherwise) and removes itself once; and after any
sequence of events the callback of the request has not been invoked while its
filter is registered and has been invoked exactly once otherwise.  When no other
request is pending, the first `SelectionNotify` unregisters the filter. -/
theorem get_text_callback_once (st : Statics) (dpy : Nat) (priv : MxClipboardPrivate)
    (clipboard callback user_data addr : Nat) (s : FilterRegistry)
    (evs : List (XEventSelection × PropertyReply)) (xev : XEventSelection)
    (reply : PropertyReply)
    (hcb : callback ≠ 0) (hfresh : registered addr s = false)
    (hlog : callbacksOf addr s.log = []) (hnodup : (s.filters.map Prod.fst).Nodup) :
    (xev.type ≠ SelectionNotify →
      mx_clipboard_x11_event_filter xev reply addr
          { clipboard := clipboard, callback := callback, user_data := user_data }
        = (ClutterX11FilterReturn.CLUTTER_X11_FILTER_CONTINUE, []) ∧
      ∀ r : FilterRegistry, deliver r (xev, reply) = r) ∧
    (xev.type = SelectionNotify →
      (mx_clipboard_x11_event_filter xev reply addr
          { clipboard := clipboard, callback := callback, user_data := user_data }).1
        = ClutterX11FilterReturn.CLUTTER_X11_FILTER_REMOVE ∧
      (mx_clipboard_x11_event_filter xev reply addr
          { clipboard := clipboard, callback := callback, user_data := user_data }).2.filter
          isCallback
        = [FilterCall.callback callback clipboard
            (if xev.xselection.property = None then none else reply.data) user_data] ∧
      (mx_clipboard_x11_event_filter xev reply addr
          { clipboard := clipboard, callback := callback, user_data := user_data }).2.filter
          (fun c => c == FilterCall.clutter_x11_remove_filter addr)
        = [FilterCall.clutter_x11_remove_filter addr] ∧
      (s.filters = [] →
        registered addr
            (deliver (request s st dpy priv clipboard callback user_data addr) (xev, reply))
          = false ∧
        callbacksOf addr
            (deliver (request s st dpy priv clipboard callback user_data addr)
              (xev, reply)).log
          = [FilterCall.callback callback clipboard
              (if xev.xselection.property = None then none else reply.data) user_data])) ∧
    (registered addr
        (evs.foldl deliver (request s st dpy priv clipboard callback user_data addr)) = true →
      callbacksOf addr
        (evs.foldl deliver (request s st dpy priv clipboard callback user_data addr)).log
        = []) ∧
    (registered addr
        (evs.foldl deliver (request s st dpy priv clipboard callback user_data addr)) = false →
      ∃ text, callbacksOf addr
        (evs.foldl deliver (request s st dpy priv clipboard callback user_data addr)).log
        = [FilterCall.callback callback clipboard text user_data]) := by
  have hreq := requestInv_request st dpy priv clipboard callback user_data addr s hcb hfresh
    hlog hnodup
  have hrun := requestInv_run addr
    { clipboard := clipboard, callback := callback, user_data := user_data } evs _ hreq.1
  refine ⟨?_, ?_, hrun.2.2.1, hrun.2.2.2⟩
  · intro ht
    exact ⟨filter_other xev reply addr _ ht,
      fun r => deliverTo_other (xev, reply) ht r.filters r⟩
  · intro ht
    have hn := filter_notify xev reply addr
      { clipboard := clipboard, callback := callback, user_data := user_data } ht
    refine ⟨hn.1, hn.2.1, hn.2.2.1, ?_⟩
    intro hempty
    have hfil : (request s st dpy priv clipboard callback user_data addr).filters
        = [(addr, { clipboard := clipboard, callback := callback,
                    user_data := user_data })] := by
      simp [request, mx_clipboard_get_text, hcb, hempty]
    have hlg : (request s st dpy priv clipboard callback user_data addr).log = s.log := by
      simp [request, mx_clipboard_get_text, hcb]
    rw [deliver_notify (xev, reply) ht _ _ [] hfil]
    constructor
    · simp [registered, hfil]
    · simp only []
      rw [callbacksOf_append, callbacksOf_tagged, if_pos rfl, hlg, hlog, hn.2.1]
      rfl

/-- Witness for C11: a request (block 41, callback 600, clipboard 8, user data
2) made while an older request is pending; in the sample history the second
`SelectionNotify` reaches its filter and the callback ran exactly once. -/
theorem get_text_callback_once_witness :
    registered 41 sampleRegistry = false ∧
    callbacksOf 41 sampleRegistry.log = [] ∧
    (∃ text, callbacksOf 41
        (sampleHistory.foldl deliver
          (request sampleRegistry sampleStatics 1 sampleClipboard 8 600 2 41)).log
      = [FilterCall.callback 600 8 text 2]) :=
  ⟨by decide, by decide,
    (get_text_callback_once sampleStatics 1 sampleClipboard 8 600 2 41 sampleRegistry
      sampleHistory sampleNotify sampleReply (by decide) (by decide) (by decide)
      (by decide)).2.2.2 (by decide)⟩

end Clipboard

namespace Clipboard

theorem get_default_calls_set (d : Nat) (hd : d ≠ 0) (fresh : List Nat) :
    get_default_calls d fresh = fresh.map (fun _ => (d, false)) := by
  induction fresh with
  | nil => rfl
  | cons f rest ih =>
    simp only [get_default_calls, mx_clipboard_get_default, if_neg hd, List.map_cons]
    rw [ih]

/-- C12: starting from the NULL static, in any sequence of calls of
`mx_clipboard_get_default` (objects handed out by `g_object_new` being
non-NULL) the first call creates the object and returns it, and every later
call returns that same object and creates nothing. -/
theorem get_default_singleton (first : Nat) (later : List Nat) (hfirst : first ≠ 0) :
    get_default_calls 0 (first :: later)
      = (first, true) :: later.map (fun _ => (first, false)) ∧
    (∀ r ∈ get_default_calls 0 (first :: later), r.1 = first) ∧
    ((get_default_calls 0 (first :: later)).filter (fun r => r.2)).length = 1 := by
  have h : get_default_calls 0 (first :: later)
      = (first, true) :: later.map (fun _ => (first, false)) := by
    simp only [get_default_calls, mx_clipboard_get_default, if_true]
    rw [get_default_calls_set first hfirst]
  refine ⟨h, ?_, ?_⟩
  · intro r hr
    rw [h] at hr
    rcases List.mem_cons.mp hr with rfl | hm
    · rfl
    · obtain ⟨_, _, rfl⟩ := List.mem_map.mp hm
      rfl
  · rw [h]
    simp [List.filter_cons, List.filter_map, Function.comp_def]

/-- Witness for C12: three calls; `g_object_new` would hand out 9000, 9001,
9002, and all three calls return 9000. -/
theorem get_default_singleton_witness :
    (9000 : Nat) ≠ 0 ∧
    get_default_calls 0 [9000, 9001, 9002] = [(9000, true), (9000, false), (9000, false)] :=
  ⟨by decide, (get_default_singleton 9000 [9001, 9002] (by decide)).1⟩

end Clipboard

/-! ## Theorems: tooltip -/

namespace Tooltip

open Clutter

theorem show_position (a : Actors) (s : Scene) :
    (nbtk_tooltip_show a s).1.tooltip.x = position_x (geometry a s.tooltip) ∧
    (nbtk_tooltip_show a s).1.tooltip.y = position_y (geometry a s.tooltip) := by
  unfold nbtk_tooltip_show
  exact ⟨rfl, rfl⟩

theorem position_exact (g : Geometry)
    (hx : -2147483648 ≤ g.x + (g.w : Int) / 2 - (g.tooltip_width : Int) / 2 ∧
      g.x + (g.w : Int) / 2 - (g.tooltip_width : Int) / 2 < 2147483648)
    (hy : -2147483648 ≤ g.y + (g.h : Int) ∧ g.y + (g.h : Int) < 2147483648) :
    position_x g = g.x + (g.w : Int) / 2 - (g.tooltip_width : Int) / 2 ∧
    position_y g = g.y + (g.h : Int) := by
  constructor
  · unfold position_x wrap32 toGuint
    omega
  · unfold position_y wrap32 toGuint
    omega

theorem position_congruent (g : Geometry) :
    (position_x g - (g.x + (g.w : Int) / 2 - (g.tooltip_width : Int) / 2)) % 4294967296 = 0 ∧
    (position_y g - (g.y + (g.h : Int))) % 4294967296 = 0 := by
  constructor
  · unfold position_x wrap32 toGuint
    omega
  · unfold position_y wrap32 toGuint
    omega

/-- C13: `nbtk_tooltip_show` reads the transformed position (wx, wy) and size
(ww, wh) of the tooltip's widget and the tooltip's width tw, and gives the
tooltip a position that is congruent modulo 2^32 to x = (wx + ww / 2) - tw / 2
and y = wy + wh; whenever these two values fit in a signed 32-bit integer the
position is exactly (x, y), so the tooltip's top edge is the widget's bottom
edge, and twice the distance between the two horizontal centres is at most one
pixel. -/
theorem tooltip_placement (a : Actors) (s : Scene)
    (hx : -2147483648 ≤ (geometry a s.tooltip).x + ((geometry a s.tooltip).w : Int) / 2
          - ((geometry a s.tooltip).tooltip_width : Int) / 2 ∧
      (geometry a s.tooltip).x + ((geometry a s.tooltip).w : Int) / 2
          - ((geometry a s.tooltip).tooltip_width : Int) / 2 < 2147483648)
    (hy : -2147483648 ≤ (geometry a s.tooltip).y + ((geometry a s.tooltip).h : Int) ∧
      (geometry a s.tooltip).y + ((geometry a s.tooltip).h : Int) < 2147483648) :
    (geometry a s.tooltip).x
      = (a.clutter_actor_get_transformed_position s.tooltip.priv.widget).1 ∧
    (geometry a s.tooltip).y
      = (a.clutter_actor_get_transformed_position s.tooltip.priv.widget).2 ∧
    (geometry a s.tooltip).w
      = (a.clutter_actor_get_transformed_size s.tooltip.priv.widget).1 ∧
    (geometry a s.tooltip).h
      = (a.clutter_actor_get_transformed_size s.tooltip.priv.widget).2 ∧
    (geometry a s.tooltip).tooltip_width = a.clutter_actor_get_width s.tooltip.id ∧
    (nbtk_tooltip_show a s).1.tooltip.x
      = (geometry a s.tooltip).x + ((geometry a s.tooltip).w : Int) / 2
        - ((geometry a s.tooltip).tooltip_width : Int) / 2 ∧
    (nbtk_tooltip_show a s).1.tooltip.y
      = (geometry a s.tooltip).y + ((geometry a s.tooltip).h : Int) ∧
    TooltipCall.clutter_actor_set_position s.tooltip.id
        ((geometry a s.tooltip).x + ((geometry a s.tooltip).w : Int) / 2
          - ((geometry a s.tooltip).tooltip_width : Int) / 2)
        ((geometry a s.tooltip).y + ((geometry a s.tooltip).h : Int))
      ∈ (nbtk_tooltip_show a s).2 ∧
    -1 ≤ (2 * (nbtk_tooltip_show a s).1.tooltip.x
            + ((geometry a s.tooltip).tooltip_width : Int))
          - (2 * (geometry a s.tooltip).x + ((geometry a s.tooltip).w : Int)) ∧
    (2 * (nbtk_tooltip_show a s).1.tooltip.x
            + ((geometry a s.tooltip).tooltip_width : Int))
          - (2 * (geometry a s.tooltip).x + ((geometry a s.tooltip).w : Int)) ≤ 1 ∧
    (position_x (geometry a s.tooltip)
        - ((geometry a s.tooltip).x + ((geometry a s.tooltip).w : Int) / 2
          - ((geometry a s.tooltip).tooltip_width : Int) / 2)) % 4294967296 = 0 ∧
    (position_y (geometry a s.tooltip)
        - ((geometry a s.tooltip).y + ((geometry a s.tooltip).h : Int))) % 4294967296 = 0 := by
  have hp := show_position a s
  have he := position_exact (geometry a s.tooltip) hx hy
  have hmem : TooltipCall.clutter_actor_set_position s.tooltip.id
      (position_x (geometry a s.tooltip)) (position_y (geometry a s.tooltip))
      ∈ (nbtk_tooltip_show a s).2 := by
    unfold nbtk_tooltip_show
    simp
  rw [he.1, he.2] at hmem
  rw [hp.1, hp.2, he.1, he.2]
  refine ⟨rfl, rfl, rfl, rfl, rfl, rfl, rfl, hmem, ?_, ?_, ?_, ?_⟩
  · omega
  · omega
  · simp
  · simp

/-- Witness for C13: widget 20 at (100, 50) of size 41 x 20 and a tooltip 60
wide: the tooltip goes to (90, 70). -/
theorem tooltip_placement_witness :
    (-2147483648 ≤ (geometry sampleActors sampleScene.tooltip).x
        + ((geometry sampleActors sampleScene.tooltip).w : Int) / 2
        - ((geometry sampleActors sampleScene.tooltip).tooltip_width : Int) / 2) ∧
    (nbtk_tooltip_show sampleActors sampleScene).1.tooltip.x = 90 ∧
    (nbtk_tooltip_show sampleActors sampleScene).1.tooltip.y = 70 :=
  have h := tooltip_placement sampleActors sampleScene ⟨by decide, by decide⟩
    ⟨by decide, by decide⟩
  ⟨by decide, h.2.2.2.2.2.1, h.2.2.2.2.2.2.1⟩

theorem getLast_erase_append (l : List Nat) (a : Nat) :
    (l.erase a ++ [a]).getLast? = some a := by
  simp

theorem show_parent (a : Actors) (s : Scene)
    (hstage : a.clutter_actor_get_stage s.tooltip.priv.widget ≠ 0) :
    (nbtk_tooltip_show a s).1.tooltip.parent
      = a.clutter_actor_get_stage s.tooltip.priv.widget ∧
    ((nbtk_tooltip_show a s).1.children
        (a.clutter_actor_get_stage s.tooltip.priv.widget)).getLast? = some s.tooltip.id ∧
    (nbtk_tooltip_show a s).1.tooltip.visible = true := by
  unfold nbtk_tooltip_show
  by_cases hp : s.tooltip.parent = a.clutter_actor_get_stage s.tooltip.priv.widget
  · simp [geometry, hp, clutter_container_raise_child, hstage]
  · simp [geometry, hp, clutter_actor_reparent, clutter_container_raise_child, hstage]

theorem show_reparent_call (a : Actors) (s : Scene) :
    (TooltipCall.clutter_actor_reparent s.tooltip.id
          (a.clutter_actor_get_stage s.tooltip.priv.widget)
        ∈ (nbtk_tooltip_show a s).2
      ↔ s.tooltip.parent ≠ a.clutter_actor_get_stage s.tooltip.priv.widget) ∧
    (s.tooltip.parent = a.clutter_actor_get_stage s.tooltip.priv.widget →
      (nbtk_tooltip_show a s).2
        = [ TooltipCall.clutter_container_raise_child
              (a.clutter_actor_get_stage s.tooltip.priv.widget) s.tooltip.id,
            TooltipCall.clutter_actor_set_position s.tooltip.id
              (position_x (geometry a s.tooltip)) (position_y (geometry a s.tooltip)),
            TooltipCall.clutter_actor_show s.tooltip.id ]) := by
  unfold nbtk_tooltip_show
  by_cases hp : s.tooltip.parent = a.clutter_actor_get_stage s.tooltip.priv.widget
  · simp [geometry, hp]
  · by_cases h0 : s.tooltip.parent = 0 <;> simp [geometry, hp, h0]

theorem new_tooltip_hidden (id widget : Nat) (text : Option (List Nat))
    (children : Nat → List Nat) (container : Nat) :
    (nbtk_tooltip_new id widget text).visible = false ∧
    (nbtk_tooltip_new id widget text).parent = 0 ∧
    (nbtk_tooltip_new id widget text).priv.widget = widget ∧
    (nbtk_tooltip_new id widget text).id = id ∧
    (clutter_actor_reparent
        { tooltip := nbtk_tooltip_new id widget text, children := children }
        container).tooltip.visible = false := by
  refine ⟨rfl, rfl, rfl, rfl, ?_⟩
  unfold clutter_actor_reparent
  split
  · rfl
  · split
    · rfl
    · rfl

/-- C14 (as stated) fails: tooltip 30 for widget 20, which is on no stage,
sits in the group 5; `nbtk_tooltip_show` leaves it in that group (there is no
stage to reparent it to), so its parent is not the stage of its widget and it
is the topmost child of no stage. -/
theorem tooltip_show_counterexample :
    sampleActorsNoStage.clutter_actor_get_stage sampleSceneGroup.tooltip.priv.widget = 0 ∧
    (nbtk_tooltip_show sampleActorsNoStage sampleSceneGroup).1.tooltip.parent = 5 ∧
    ¬ shownOnStage sampleActorsNoStage sampleSceneGroup := by
  refine ⟨by decide, by decide, ?_⟩
  intro h
  have hp : (nbtk_tooltip_show sampleActorsNoStage sampleSceneGroup).1.tooltip.parent = 5 := by
    decide
  have h1 := h.1
  rw [hp] at h1
  revert h1
  decide

/-- C14 (amended): a tooltip created by `nbtk_tooltip_new (widget, text)`
remembers `widget`, has no parent and is not visible, and putting it into a
container does not show it.  When the tooltip's widget is on a stage, after
`nbtk_tooltip_show` the tooltip's parent is that stage, `clutter_actor_reparent`
is called exactly when the parent was not already that stage, the tooltip is
the last (topmost) child of the stage and it is visible; in particular a new
tooltip for a widget on a stage ends up on the stage of that widget.  After
`nbtk_tooltip_hide` the tooltip is not visible and its parent and the children
of every container are unchanged. -/
theorem tooltip_show_hide (a : Actors) (id widget : Nat) (text : Option (List Nat))
    (children : Nat → List Nat) (container : Nat) (s : Scene)
    (hstage : a.clutter_actor_get_stage s.tooltip.priv.widget ≠ 0) :
    (nbtk_tooltip_new id widget text).visible = false ∧
    (nbtk_tooltip_new id widget text).parent = 0 ∧
    (clutter_actor_reparent
        { tooltip := nbtk_tooltip_new id widget text, children := children }
        container).tooltip.visible = false ∧
    (a.clutter_actor_get_stage widget ≠ 0 →
      shownOnStage a { tooltip := nbtk_tooltip_new id widget text, children := children } ∧
      (nbtk_tooltip_show a
          { tooltip := nbtk_tooltip_new id widget text, children := children }).1.tooltip.parent
        = a.clutter_actor_get_stage widget ∧
      TooltipCall.clutter_actor_reparent id (a.clutter_actor_get_stage widget)
        ∈ (nbtk_tooltip_show a
            { tooltip := nbtk_tooltip_new id widget text, children := children }).2) ∧
    shownOnStage a s ∧
    (TooltipCall.clutter_actor_reparent s.tooltip.id
          (a.clutter_actor_get_stage s.tooltip.priv.widget)
        ∈ (nbtk_tooltip_show a s).2
      ↔ s.tooltip.parent ≠ a.clutter_actor_get_stage s.tooltip.priv.widget) ∧
    (nbtk_tooltip_hide s).1.tooltip.visible = false ∧
    (nbtk_tooltip_hide s).1.tooltip.parent = s.tooltip.parent ∧
    (nbtk_tooltip_hide s).1.children = s.children ∧
    (nbtk_tooltip_hide (nbtk_tooltip_show a s).1).1.tooltip.visible = false ∧
    (nbtk_tooltip_hide (nbtk_tooltip_show a s).1).1.tooltip.parent
      = a.clutter_actor_get_stage s.tooltip.priv.widget := by
  have hn := new_tooltip_hidden id widget text children container
  have hs := show_parent a s hstage
  refine ⟨hn.1, hn.2.1, hn.2.2.2.2, ?_, hs, (show_reparent_call a s).1, rfl, rfl, rfl, rfl,
    hs.1⟩
  intro hw
  have hf := show_parent a
    { tooltip := nbtk_tooltip_new id widget text, children := children } hw
  refine ⟨hf, hf.1, ?_⟩
  have hc := (show_reparent_call a
    { tooltip := nbtk_tooltip_new id widget text, children := children }).1
  exact hc.mpr (fun h => hw h.symm)

/-- Witness for C14 (amended): the new tooltip 30 shown for widget 20, which
is on stage 1 (children 20, 21), becomes the topmost of the children 20, 21,
30. -/
theorem tooltip_show_hide_witness :
    sampleActors.clutter_actor_get_stage sampleScene.tooltip.priv.widget ≠ 0 ∧
    shownOnStage sampleActors sampleScene ∧
    (nbtk_tooltip_show sampleActors sampleScene).1.children 1 = [20, 21, 30] :=
  ⟨by decide,
    (tooltip_show_hide sampleActors 30 20 (some [104, 105]) (fun _ => []) 1 sampleScene
      (by decide)).2.2.2.2.1,
    by decide⟩

theorem set_labels_last (texts : List (Option (List Nat))) (text : Option (List Nat))
    (tooltip : NbtkTooltip) :
    nbtk_tooltip_get_label ((texts ++ [text]).foldl nbtk_tooltip_set_label tooltip)
      = text.map Clipboard.g_strdup := by
  rw [List.foldl_append]
  rfl

/-- C16: `nbtk_tooltip_get_label` returns (a copy of) the text most recently
passed to `nbtk_tooltip_set_label`, whatever was set before, NULL for NULL and
the very bytes for a text without an embedded NUL; for a tooltip returned by
`nbtk_tooltip_new (widget, text)` it returns `text`. -/
theorem tooltip_label_round_trip (tooltip : NbtkTooltip) (text : Option (List Nat))
    (earlier : List (Option (List Nat))) (id widget : Nat) :
    nbtk_tooltip_get_label (nbtk_tooltip_set_label tooltip text)
      = text.map Clipboard.g_strdup ∧
    nbtk_tooltip_get_label ((earlier ++ [text]).foldl nbtk_tooltip_set_label tooltip)
      = text.map Clipboard.g_strdup ∧
    nbtk_tooltip_get_label (nbtk_tooltip_new id widget text)
      = text.map Clipboard.g_strdup ∧
    nbtk_tooltip_get_label ((earlier ++ [text]).foldl nbtk_tooltip_set_label
        (nbtk_tooltip_new id widget none))
      = text.map Clipboard.g_strdup ∧
    (∀ t : List Nat, (∀ b ∈ t, b ≠ 0) → Clipboard.g_strdup t = t) ∧
    (none : Option (List Nat)).map Clipboard.g_strdup = none := by
  refine ⟨rfl, set_labels_last earlier text tooltip, rfl, set_labels_last earlier text _, ?_,
    rfl⟩
  intro t h
  unfold Clipboard.g_strdup
  rw [List.takeWhile_eq_self_iff]
  intro b hb
  simpa using h b hb

end Tooltip

/-! ## Theorems: scroll bar allocation and slider -/

namespace ScrollBar

open Clutter

theorem wrap32_id (x : Int) (h : isInt32 x) : wrap32 x = x := by
  unfold isInt32 at h
  unfold wrap32
  omega

theorem wrap32_range (x : Int) : isInt32 (wrap32 x) := by
  unfold isInt32 wrap32
  omega

theorem wrap32_add_sub (x m : Int) (h : isInt32 m) : wrap32 (wrap32 (x + m) - x) = m := by
  unfold isInt32 at h
  unfold wrap32
  omega

theorem units_from_int_small (n : Nat) (h : n ≤ G_MAXINT16) :
    CLUTTER_UNITS_FROM_INT (n : Int) = (n : Int) * 65536 := by
  unfold CLUTTER_UNITS_FROM_INT wrap32
  unfold G_MAXINT16 at h
  omega

theorem min_max_range (a b c : Int) (ha : isInt32 a) (hb : isInt32 b) (hc : isInt32 c) :
    isInt32 (MIN a (MAX b c)) := by
  unfold isInt32 at ha hb hc ⊢
  unfold MIN MAX
  split_ifs <;> omega

theorem handle_allocation_width (trough_box : ClutterActorBox) (adj : NbtkAdjustment)
    (min_size max_size : Nat) (handle_x : Int) :
    ∃ size : Int,
      wrap32 ((handle_allocation trough_box adj min_size max_size handle_x).x2
          - (handle_allocation trough_box adj min_size max_size handle_x).x1)
        = MIN (CLUTTER_UNITS_FROM_INT (max_size : Int))
            (MAX (CLUTTER_UNITS_FROM_INT (min_size : Int)) size) := by
  unfold handle_allocation
  refine ⟨_, wrap32_add_sub _ _ (min_max_range _ _ _ (wrap32_range _) (wrap32_range _) ?_)⟩
  split_ifs <;> exact wrap32_range _

theorem handle_width_some (width height : Int) (padding : NbtkPadding) (adj : NbtkAdjustment)
    (min_size max_size : Nat) (handle_x : Int) :
    ∃ size : Int,
      handle_width (nbtk_scroll_bar_allocate width height padding (some adj) min_size
          max_size handle_x)
        = MIN (CLUTTER_UNITS_FROM_INT (max_size : Int))
            (MAX (CLUTTER_UNITS_FROM_INT (min_size : Int)) size) := by
  simp only [handle_width, nbtk_scroll_bar_allocate]
  exact handle_allocation_width _ adj min_size max_size handle_x

/-- C15 (as stated) fails: with the default `min-size` of 32 pixels and a
`max-size` of 10 pixels, both in their declared ranges, the handle of the sample
bar is allocated 10 pixels (655360 units), less than `min-size`. -/
theorem handle_size_counterexample :
    (32 : Nat) ≤ G_MAXUINT ∧ (10 : Nat) ≤ G_MAXINT16 ∧
    handle_width sampleAllocation = 655360 ∧
    ¬ handleSizeWithinStyle sampleAllocation 32 10 := by
  refine ⟨by decide, by decide, by decide, ?_⟩
  intro h
  have hw : handle_width sampleAllocation = 655360 := by decide
  unfold handleSizeWithinStyle at h
  rw [hw] at h
  omega

/-- C15 (amended): for every bar size, padding, adjustment and handle position,
and every `max-size` in its declared range 0..G_MAXINT16, the allocated handle
is at most `max-size` pixels wide whatever `min-size` is; it is at least
`min-size` pixels wide when `min-size <= max-size`; and when
`max-size < min-size <= G_MAXINT16` it is exactly `max-size` pixels wide. -/
theorem handle_size_limits (width height : Int) (padding : NbtkPadding) (adj : NbtkAdjustment)
    (min_size max_size : Nat) (handle_x : Int) (hmax : max_size ≤ G_MAXINT16) :
    handle_width (nbtk_scroll_bar_allocate width height padding (some adj) min_size max_size
        handle_x) ≤ (max_size : Int) * 65536 ∧
    (min_size ≤ max_size →
      handleSizeWithinStyle
        (nbtk_scroll_bar_allocate width height padding (some adj) min_size max_size handle_x)
        min_size max_size) ∧
    (max_size < min_size → min_size ≤ G_MAXINT16 →
      handle_width (nbtk_scroll_bar_allocate width height padding (some adj) min_size max_size
        handle_x) = (max_size : Int) * 65536) := by
  obtain ⟨size, hsize⟩ := handle_width_some width height padding adj min_size max_size handle_x
  have hmaxu := units_from_int_small max_size hmax
  have hle : handle_width (nbtk_scroll_bar_allocate width height padding (some adj) min_size
      max_size handle_x) ≤ (max_size : Int) * 65536 := by
    rw [hsize, hmaxu]
    unfold MIN
    split <;> omega
  refine ⟨hle, ?_, ?_⟩
  · intro hmm
    have hminu := units_from_int_small min_size (le_trans hmm hmax)
    refine ⟨?_, hle⟩
    rw [hsize, hmaxu, hminu]
    unfold MIN MAX
    split <;> split <;> omega
  · intro hlt hmin
    have hminu := units_from_int_small min_size hmin
    rw [hsize, hmaxu, hminu]
    unfold MIN MAX
    split <;> split <;> omega

/-- Witness for C15 (amended): the sample bar with the default style values
(`min-size` 32, `max-size` 32767) gets a handle within the two limits. -/
theorem handle_size_limits_witness :
    (32767 : Nat) ≤ G_MAXINT16 ∧
    handleSizeWithinStyle sampleAllocationDefault 32 32767 :=
  ⟨by decide,
    (handle_size_limits 13107200 1310720 { top := 0, right := 0, bottom := 0, left := 0 }
      sampleAdjustment 32 32767 0 (by decide)).2.1 (by decide)⟩

theorem allocate_exact (width height : Int) (padding : NbtkPadding)
    (adjustment : Option NbtkAdjustment) (min_size max_size : Nat) (handle_x : Int)
    (hfit : allocationFits width height padding) :
    (nbtk_scroll_bar_allocate width height padding adjustment min_size max_size handle_x).bw_box
      = { x1 := padding.left, y1 := padding.top,
          x2 := padding.left + (height - padding.top - padding.bottom),
          y2 := padding.top + (height - padding.top - padding.bottom) } ∧
    (nbtk_scroll_bar_allocate width height padding adjustment min_size max_size handle_x).fw_box
      = { x1 := width - padding.right - (height - padding.top - padding.bottom),
          y1 := padding.top,
          x2 := width - padding.right,
          y2 := padding.top + (height - padding.top - padding.bottom) } ∧
    (nbtk_scroll_bar_allocate width height padding adjustment min_size max_size
        handle_x).trough_box
      = { x1 := padding.left + (height - padding.top - padding.bottom),
          y1 := padding.top,
          x2 := width - padding.right - (height - padding.top - padding.bottom),
          y2 := padding.top + (height - padding.top - padding.bottom) } := by
  obtain ⟨h1, h2, h3, h4, h5, h6⟩ := hfit
  have h7 : isInt32 (width - padding.right - (height - padding.top - padding.bottom)
      + (height - padding.top - padding.bottom)) := by
    unfold isInt32 at h5 ⊢
    omega
  have e7 : width - padding.right - (height - padding.top - padding.bottom)
      + (height - padding.top - padding.bottom) = width - padding.right := by
    omega
  simp only [nbtk_scroll_bar_allocate, wrap32_id _ h1, wrap32_id _ h2, wrap32_id _ h3,
    wrap32_id _ h4, wrap32_id _ h5, wrap32_id _ h6, wrap32_id _ h7, e7, and_self]

/-- C19 (as stated) fails: for a bar 32000 pixels wide and 20000 pixels high
with a left padding of 20000 pixels, `padding.left + inner` does not fit in 32
bits; the backward stepper's right edge (and the trough's left edge) is
-1673527296, the trough has x1 <= x2 although width - padding.left -
padding.right (786432000) is less than 2 * inner (2621440000). -/
theorem allocate_geometry_counterexample :
    sampleAllocationLarge.bw_box.x2 = -1673527296 ∧
    sampleAllocationLarge.trough_box.x1 ≤ sampleAllocationLarge.trough_box.x2 ∧
    ¬ geometryAsStated 2097152000 1310720000
        { top := 0, right := 0, bottom := 0, left := 1310720000 } sampleAllocationLarge := by
  refine ⟨by decide, by decide, ?_⟩
  intro h
  have hx : sampleAllocationLarge.trough_box.x1 ≤ sampleAllocationLarge.trough_box.x2 := by
    decide
  have h2 := h.2.2.2.mp hx
  simp only at h2
  omega

/-- C19 (amended): in `nbtk_scroll_bar_allocate`, whenever none of the 32-bit
sums and differences of the computation overflows, with inner = height -
padding.top - padding.bottom, the backward stepper is the square of side inner
at (padding.left, padding.top), the forward stepper the square of side inner
whose right edge is at width - padding.right, and the trough runs from the
backward stepper's right edge to the forward stepper's left edge with the same
top and bottom; the bottom is height - padding.bottom; the trough has x1 <= x2
exactly when width - padding.left - padding.right >= 2 * inner, which for
inner >= 0 is also exactly when the two steppers do not overlap; and then every
point of the padded content box lies in exactly one of the three boxes. -/
theorem allocate_geometry (width height : Int) (padding : NbtkPadding)
    (adjustment : Option NbtkAdjustment) (min_size max_size : Nat) (handle_x : Int)
    (hfit : allocationFits width height padding) :
    geometryAsStated width height padding
      (nbtk_scroll_bar_allocate width height padding adjustment min_size max_size handle_x) ∧
    (nbtk_scroll_bar_allocate width height padding adjustment min_size max_size
        handle_x).trough_box.y2 = height - padding.bottom ∧
    (0 ≤ height - padding.top - padding.bottom →
      ((nbtk_scroll_bar_allocate width height padding adjustment min_size max_size
            handle_x).bw_box.x2
          ≤ (nbtk_scroll_bar_allocate width height padding adjustment min_size max_size
            handle_x).fw_box.x1
        ↔ width - padding.left - padding.right
            ≥ 2 * (height - padding.top - padding.bottom))) ∧
    (∀ x y : Int, 0 ≤ height - padding.top - padding.bottom →
      width - padding.left - padding.right ≥ 2 * (height - padding.top - padding.bottom) →
      padding.left ≤ x → x < width - padding.right →
      padding.top ≤ y → y < height - padding.bottom →
      (inBox (nbtk_scroll_bar_allocate width height padding adjustment min_size max_size
          handle_x).bw_box x y ∧
        ¬ inBox (nbtk_scroll_bar_allocate width height padding adjustment min_size max_size
          handle_x).trough_box x y ∧
        ¬ inBox (nbtk_scroll_bar_allocate width height padding adjustment min_size max_size
          handle_x).fw_box x y) ∨
      (¬ inBox (nbtk_scroll_bar_allocate width height padding adjustment min_size max_size
          handle_x).bw_box x y ∧
        inBox (nbtk_scroll_bar_allocate width height padding adjustment min_size max_size
          handle_x).trough_box x y ∧
        ¬ inBox (nbtk_scroll_bar_allocate width height padding adjustment min_size max_size
          handle_x).fw_box x y) ∨
      (¬ inBox (nbtk_scroll_bar_allocate width height padding adjustment min_size max_size
          handle_x).bw_box x y ∧
        ¬ inBox (nbtk_scroll_bar_allocate width height padding adjustment min_size max_size
          handle_x).trough_box x y ∧
        inBox (nbtk_scroll_bar_allocate width height padding adjustment min_size max_size
          handle_x).fw_box x y)) := by
  obtain ⟨hbw, hfw, htr⟩ :=
    allocate_exact width height padding adjustment min_size max_size handle_x hfit
  refine ⟨⟨hbw, hfw, ?_, ?_⟩, ?_, ?_, ?_⟩
  · rw [htr, hbw, hfw]
  · rw [htr]
    constructor <;> intro h <;> simp only at h ⊢ <;> omega
  · rw [htr]
    simp only
    omega
  · intro _
    rw [hbw, hfw]
    constructor <;> intro h <;> simp only at h ⊢ <;> omega
  · intro x y h0 h1 h2 h3 h4 h5
    rw [hbw, hfw, htr]
    simp only [inBox]
    omega

/-- Witness for C19 (amended): the sample bar of 200 x 20 pixels without
padding: steppers 20 pixels square at both ends, trough from 20 to 180 pixels. -/
theorem allocate_geometry_witness :
    allocationFits 13107200 1310720 { top := 0, right := 0, bottom := 0, left := 0 } ∧
    geometryAsStated 13107200 1310720 { top := 0, right := 0, bottom := 0, left := 0 }
      sampleAllocationDefault ∧
    sampleAllocationDefault.trough_box
      = { x1 := 1310720, y1 := 0, x2 := 11796480, y2 := 1310720 } :=
  ⟨by decide,
    (allocate_geometry 13107200 1310720 { top := 0, right := 0, bottom := 0, left := 0 }
      (some sampleAdjustment) 32 32767 0 (by decide)).1,
    by decide⟩

end ScrollBar

namespace ScrollBar

open Clutter

theorem displacement_range (ux trough_width handle_width x_origin : Int)
    (hw : 0 < wrap32 (trough_width - handle_width)) :
    0 ≤ displacement ux trough_width handle_width x_origin ∧
    displacement ux trough_width handle_width x_origin
      ≤ wrap32 (trough_width - handle_width) := by
  unfold displacement CLAMP
  split
  · omega
  · split <;> omega

/-- The fraction `clutter_qdivx (d, width)` for `0 <= d <= width`, `0 < width`,
both 32-bit: it is `d * 65536 / width`, between 0 and 65536. -/
theorem qdivx_fraction (d width : Int) (hd0 : 0 ≤ d) (hdw : d ≤ width) (hw : 0 < width) :
    clutter_qdivx d width = d * 65536 / width ∧
    0 ≤ d * 65536 / width ∧ d * 65536 / width ≤ 65536 := by
  have h0 : 0 ≤ d * 65536 / width := Int.ediv_nonneg (by omega) (le_of_lt hw)
  have h1 : d * 65536 / width ≤ 65536 := Int.ediv_le_of_le_mul hw (by omega)
  refine ⟨?_, h0, h1⟩
  unfold clutter_qdivx
  rw [Int.tdiv_eq_ediv (by omega) (le_of_lt hw)]
  exact wrap32_id _ ⟨by omega, by omega⟩

/-- The product `clutter_qmulx (f, range)` for a fraction `0 <= f <= 65536` and
a 32-bit `range >= 0`: it is `f * range / 65536`, between 0 and `range`. -/
theorem qmulx_fraction (f range : Int) (hf0 : 0 ≤ f) (hf1 : f ≤ 65536) (hr0 : 0 ≤ range)
    (hr1 : range < 2147483648) :
    clutter_qmulx f range = f * range / 65536 ∧
    0 ≤ f * range / 65536 ∧ f * range / 65536 ≤ range := by
  have hp : 0 ≤ f * range := mul_nonneg hf0 hr0
  have hq : f * range ≤ range * 65536 := by
    have := mul_le_mul_of_nonneg_right hf1 hr0
    linarith
  have h0 : 0 ≤ f * range / 65536 := Int.ediv_nonneg hp (by decide)
  have h1 : f * range / 65536 ≤ range := Int.ediv_le_of_le_mul (by decide) hq
  refine ⟨?_, h0, h1⟩
  unfold clutter_qmulx
  exact wrap32_id _ ⟨by omega, by omega⟩

/-- C20: when an adjustment is set, the pointer transforms, the trough is wider
than the handle and `upper - lower - page_size >= 0`, all values being 32-bit
and the differences `upper - lower`, `upper - lower - page_size` and
`upper - page_size` not overflowing, `move_slider` (not interpolating) passes to
`nbtk_adjustment_set_valuex` the value
`lower + (d * 65536 / width) * (upper - lower - page_size) / 65536` computed
without wrap-around, where d is the clamped displacement; it satisfies
`lower <= value <= upper - page_size`, equals `lower` when d = 0 and equals
`upper - page_size` when the displacement is at least the width. -/
theorem slider_value_range (adj : NbtkAdjustment)
    (ux trough_width handle_width x_origin : Int) (mfreq fps : Nat)
    (hwidth : 0 < trough_width - handle_width ∧ isInt32 (trough_width - handle_width))
    (hlower : isInt32 adj.lower)
    (hdiff : isInt32 (adj.upper - adj.lower))
    (hrange : 0 ≤ adj.upper - adj.lower - adj.page_size ∧
      isInt32 (adj.upper - adj.lower - adj.page_size))
    (htop : isInt32 (adj.upper - adj.page_size)) :
    move_slider (some adj) (some ux) trough_width handle_width x_origin false mfreq fps
      = SliderAction.nbtk_adjustment_set_valuex
          (adj.lower
            + (displacement ux trough_width handle_width x_origin * 65536
                / (trough_width - handle_width))
              * (adj.upper - adj.lower - adj.page_size) / 65536) ∧
    adj.lower ≤ adj.lower
        + (displacement ux trough_width handle_width x_origin * 65536
            / (trough_width - handle_width))
          * (adj.upper - adj.lower - adj.page_size) / 65536 ∧
    adj.lower
        + (displacement ux trough_width handle_width x_origin * 65536
            / (trough_width - handle_width))
          * (adj.upper - adj.lower - adj.page_size) / 65536
      ≤ adj.upper - adj.page_size ∧
    (displacement ux trough_width handle_width x_origin = 0 →
      move_slider (some adj) (some ux) trough_width handle_width x_origin false mfreq fps
        = SliderAction.nbtk_adjustment_set_valuex adj.lower) ∧
    (trough_width - handle_width ≤ wrap32 (ux - x_origin) →
      move_slider (some adj) (some ux) trough_width handle_width x_origin false mfreq fps
        = SliderAction.nbtk_adjustment_set_valuex (adj.upper - adj.page_size)) := by
  have hw : wrap32 (trough_width - handle_width) = trough_width - handle_width :=
    wrap32_id _ hwidth.2
  have hwpos : 0 < wrap32 (trough_width - handle_width) := by rw [hw]; exact hwidth.1
  have hd := displacement_range ux trough_width handle_width x_origin hwpos
  rw [hw] at hd
  have hR : wrap32 (wrap32 (adj.upper - adj.lower) - adj.page_size)
      = adj.upper - adj.lower - adj.page_size := by
    rw [wrap32_id _ hdiff, wrap32_id _ hrange.2]
  have hf := qdivx_fraction (displacement ux trough_width handle_width x_origin)
    (trough_width - handle_width) hd.1 hd.2 hwidth.1
  have hq := qmulx_fraction
    (displacement ux trough_width handle_width x_origin * 65536
      / (trough_width - handle_width))
    (adj.upper - adj.lower - adj.page_size) hf.2.1 hf.2.2 hrange.1 hrange.2.2
  have hmove : move_slider (some adj) (some ux) trough_width handle_width x_origin false
      mfreq fps
      = SliderAction.nbtk_adjustment_set_valuex
          (adj.lower
            + (displacement ux trough_width handle_width x_origin * 65536
                / (trough_width - handle_width))
              * (adj.upper - adj.lower - adj.page_size) / 65536) := by
    have hne : ¬ wrap32 (trough_width - handle_width) = 0 := by omega
    simp only [move_slider, hne, if_false, Bool.false_eq_true]
    rw [hw, hR, hf.1, hq.1]
    congr 1
    have hfit : isInt32
        ((displacement ux trough_width handle_width x_origin * 65536
              / (trough_width - handle_width))
            * (adj.upper - adj.lower - adj.page_size) / 65536 + adj.lower) := by
      unfold isInt32 at hlower htop ⊢
      constructor <;> omega
    rw [wrap32_id _ hfit]
    exact add_comm _ _
  refine ⟨hmove, by omega, by omega, ?_, ?_⟩
  · intro h0
    rw [hmove, h0]
    simp
  · intro hge
    have hdw : displacement ux trough_width handle_width x_origin
        = trough_width - handle_width := by
      unfold displacement CLAMP
      rw [hw]
      split
      · rfl
      · split <;> omega
    rw [hmove, hdw, Int.mul_ediv_cancel_left _ (by omega : trough_width - handle_width ≠ 0),
      Int.mul_ediv_cancel_left _ (by decide : (65536 : Int) ≠ 0)]
    congr 1
    omega

end ScrollBar

namespace ScrollBar

open Clutter

theorem slider_value_range_witness :
    (0 < (13107200 : Int) - 1310720 ∧ isInt32 ((13107200 : Int) - 1310720)) ∧
    move_slider (some sampleAdjustment) (some 3276800) 13107200 1310720 0 false 60 60
      = SliderAction.nbtk_adjustment_set_valuex 1638360 ∧
    sampleAdjustment.lower ≤ 1638360 ∧
    (1638360 : Int) ≤ sampleAdjustment.upper - sampleAdjustment.page_size :=
  have h := slider_value_range sampleAdjustment 3276800 13107200 1310720 0 60 60
    ⟨by decide, by decide⟩ (by decide) (by decide) ⟨by decide, by decide⟩ (by decide)
  ⟨⟨by decide, by decide⟩, h.1, h.2.1, h.2.2.1⟩

end ScrollBar

namespace ScrollBar

open Clutter

theorem disconnect_subscription (a bar : Nat) :
    g_signal_handlers_disconnect_by_func
      (g_signal_handlers_disconnect_by_func (subscription a bar) a
        Handler.clutter_actor_queue_relayout bar)
      a Handler.adjustment_changed_cb bar = [] := by
  simp [g_signal_handlers_disconnect_by_func, subscription, List.filter_cons]

theorem set_adjustment_connected (s : BarObject) (b : Nat) (h : Connected s) :
    Connected (nbtk_scroll_bar_set_adjustment s b).1 ∧
    (nbtk_scroll_bar_set_adjustment s b).1.bar = s.bar ∧
    (nbtk_scroll_bar_set_adjustment s b).1.adjustment = b ∧
    (nbtk_scroll_bar_set_adjustment s b).1.state = s.state ∧
    (nbtk_scroll_bar_set_adjustment s b).1.relayouts
      = s.relayouts + (if b ≠ 0 then 1 else 0) := by
  unfold Connected at h ⊢
  by_cases ha : s.adjustment = 0
  · rw [if_pos ha] at h
    by_cases hb : b = 0
    · simp [nbtk_scroll_bar_set_adjustment, ha, hb, h]
    · simp [nbtk_scroll_bar_set_adjustment, ha, hb, h, subscription]
  · rw [if_neg ha] at h
    have hd := disconnect_subscription s.adjustment s.bar
    by_cases hb : b = 0
    · simp [nbtk_scroll_bar_set_adjustment, ha, hb, h, hd]
    · simp [nbtk_scroll_bar_set_adjustment, ha, hb, h, hd]
      rfl

theorem set_adjustments_connected (earlier : List Nat) (s : BarObject)
    (h : Connected s) : Connected (set_adjustments s earlier) ∧
      (set_adjustments s earlier).bar = s.bar := by
  induction earlier generalizing s with
  | nil => exact ⟨h, rfl⟩
  | cons a rest ih =>
    have h1 := set_adjustment_connected s a h
    have h2 := ih (nbtk_scroll_bar_set_adjustment s a).1 h1.1
    unfold set_adjustments at h2 ⊢
    rw [List.foldl_cons]
    exact ⟨h2.1, h2.2.trans h1.2.1⟩

theorem emit_other (s : BarObject) (a id : Nat) (signal : String)
    (h : Connected s) (ha : a ≠ s.adjustment) : emit s a signal id = s := by
  unfold Connected at h
  unfold emit
  by_cases h0 : s.adjustment = 0
  · rw [if_pos h0] at h
    rw [h]
    rfl
  · rw [if_neg h0] at h
    rw [h]
    have hne : ¬ s.adjustment = a := fun e => ha e.symm
    simp [subscription, List.filter_cons, hne]

theorem emit_value (s : BarObject) (id : Nat) (h : Connected s)
    (h0 : s.adjustment ≠ 0) :
    emit s s.adjustment "notify::value" id
      = { s with state := adjustment_changed_cb id s.state } := by
  unfold Connected at h
  rw [if_neg h0] at h
  unfold emit
  rw [h]
  simp [subscription, List.filter_cons, run_handler]
  exact h

end ScrollBar

namespace ScrollBar

open Clutter

/-- C17 (scroll-bar adjustment property): for a bar connected to its current
adjustment only (as a new bar is), after any earlier calls and then
`nbtk_scroll_bar_set_adjustment (bar, b)`, `nbtk_scroll_bar_get_adjustment`
returns `b` (0, that is NULL, when `b` is NULL) and the bar is connected to `b`
only; a value notification from an adjustment `a ≠ b` leaves the bar as it is
and schedules no refresh; one from `b ≠ NULL` runs `adjustment_changed_cb`,
after which a refresh source is attached (the new one `id` when none was
pending); the call queues a relayout exactly when `b` is not NULL. -/
theorem set_adjustment_subscription (s0 : BarObject) (earlier : List Nat) (b a id : Nat)
    (hconn : Connected s0) (hab : a ≠ b) (hid : id ≠ 0) :
    nbtk_scroll_bar_get_adjustment
        (nbtk_scroll_bar_set_adjustment (set_adjustments s0 earlier) b).1 = b ∧
    Connected (nbtk_scroll_bar_set_adjustment (set_adjustments s0 earlier) b).1 ∧
    emit (nbtk_scroll_bar_set_adjustment (set_adjustments s0 earlier) b).1 a "notify::value" id
      = (nbtk_scroll_bar_set_adjustment (set_adjustments s0 earlier) b).1 ∧
    (b ≠ 0 →
      (emit (nbtk_scroll_bar_set_adjustment (set_adjustments s0 earlier) b).1 b
          "notify::value" id).state
        = adjustment_changed_cb id (set_adjustments s0 earlier).state ∧
      (emit (nbtk_scroll_bar_set_adjustment (set_adjustments s0 earlier) b).1 b
          "notify::value" id).state.priv.refresh_source ≠ 0 ∧
      ((set_adjustments s0 earlier).state.priv.refresh_source = 0 →
        (emit (nbtk_scroll_bar_set_adjustment (set_adjustments s0 earlier) b).1 b
            "notify::value" id).state.priv.refresh_source = id ∧
        (emit (nbtk_scroll_bar_set_adjustment (set_adjustments s0 earlier) b).1 b
            "notify::value" id).state.idle_sources
          = (set_adjustments s0 earlier).state.idle_sources ++ [id])) ∧
    (nbtk_scroll_bar_set_adjustment (set_adjustments s0 earlier) b).1.relayouts
      = (set_adjustments s0 earlier).relayouts + (if b ≠ 0 then 1 else 0) ∧
    (BarCall.clutter_actor_queue_relayout (set_adjustments s0 earlier).bar
        ∈ (nbtk_scroll_bar_set_adjustment (set_adjustments s0 earlier) b).2 ↔ b ≠ 0) := by
  have hs := (set_adjustments_connected earlier s0 hconn).1
  generalize set_adjustments s0 earlier = s at hs ⊢
  obtain ⟨hc, _, hadj, hstate, hrel⟩ := set_adjustment_connected s b hs
  refine ⟨hadj, hc, emit_other _ a id _ hc (by rw [hadj]; exact hab), ?_, hrel, ?_⟩
  · intro hb
    have hemit := emit_value (nbtk_scroll_bar_set_adjustment s b).1 id hc (by rw [hadj]; exact hb)
    rw [hadj] at hemit
    rw [hemit]
    simp only [hstate]
    refine ⟨trivial, ?_, ?_⟩
    · unfold adjustment_changed_cb
      by_cases h0 : s.state.priv.refresh_source = 0
      · simp [h0, g_idle_add_full, hid]
      · simp [h0]
    · intro h0
      simp [adjustment_changed_cb, h0, g_idle_add_full]
  · by_cases hb : b = 0
    · by_cases ha : s.adjustment = 0 <;> simp [nbtk_scroll_bar_set_adjustment, hb, ha]
    · by_cases ha : s.adjustment = 0 <;> simp [nbtk_scroll_bar_set_adjustment, hb, ha]

theorem set_adjustment_subscription_witness :
    Connected sampleBar ∧
    nbtk_scroll_bar_get_adjustment
        (nbtk_scroll_bar_set_adjustment (set_adjustments sampleBar [7]) 9).1 = 9 ∧
    emit (nbtk_scroll_bar_set_adjustment (set_adjustments sampleBar [7]) 9).1 7
        "notify::value" 1
      = (nbtk_scroll_bar_set_adjustment (set_adjustments sampleBar [7]) 9).1 ∧
    (emit (nbtk_scroll_bar_set_adjustment (set_adjustments sampleBar [7]) 9).1 9
        "notify::value" 1).state.priv.refresh_source = 1 :=
  have h := set_adjustment_subscription sampleBar [7] 9 7 1 rfl (by decide) (by decide)
  ⟨rfl, h.1, h.2.2.1, ((h.2.2.2.1 (by decide)).2.2 rfl).1⟩

end ScrollBar
